import Mathlib

/-!
# AW3644 LED flash controller (`drivers/leds/leds-aw3644.c`)

A shallow embedding of the driver's register state machine.  The driver state
`aw3644_chip_data` is passed explicitly; every interaction with the outside
world (regmap, GPIO, PWM, timer, work queue, mutex, user memory) is appended to
the `trace` field in program order, and the result of each such interaction is
taken from an environment `Hw`, indexed by the number of interactions that
happened before it, so that any sequence of results can be supplied.
-/

namespace AW3644

/-! ## Constants of the driver -/

/-- The ioctl magic, the character M. -/
def AW3644_IOC_MAGIC : Nat := 77
def AW3644_PRIVATE_NUM : Nat := 100
def AW3644_LED_NUMS : Nat := 2

def REG_ENABLE : Nat := 0x1
def REG_IVFM_MODE : Nat := 0x2
def REG_LED1_FLASH_BRIGHTNESS : Nat := 0x3
def REG_LED2_FLASH_BRIGHTNESS : Nat := 0x4
def REG_LED1_TORCH_BRIGHTNESS : Nat := 0x5
def REG_LED2_TORCH_BRIGHTNESS : Nat := 0x6
def REG_BOOST_CONF : Nat := 0x7
def REG_TIMING_CONF : Nat := 0x8
def REG_TEMP : Nat := 0x9
def REG_FLAG1 : Nat := 0xA
def REG_FLAG2 : Nat := 0xB
def REG_DEVICE_ID : Nat := 0xC
def REG_LAST_FLASH : Nat := 0xD
def REG_MAX : Nat := 0xD

def AW3644_ID : Nat := 0x02
def AW3644TT_ID : Nat := 0x04

def TX_PIN_ENABLE_SHIFT : Nat := 7
def STROBE_TYPE_SHIFT : Nat := 6
def STROBE_EN_SHIFT : Nat := 5
def TORCH_PIN_ENABLE_SHIFT : Nat := 4
def MODE_BITS_SHIFT : Nat := 2

def LED2_CURRENT_EQUAL : Nat := 0x80

def AW3644_DEFAULT_PERIOD_US : Nat := 2500000
def AW3644_DEFAULT_DUTY_US : Nat := 2500
def NSECS_PER_USEC : Nat := 1000
def AW3644_MAX_BRIGHTNESS_VALUE : Nat := 0x7F
def PASS_MODE_SHIFT : Nat := 2

/-! ## Constants of the kernel headers the driver uses (headers are not under `src/`) -/

/-- Kernel constant `LED_OFF` of `enum led_brightness` (include/linux/leds.h). -/
def LED_OFF : Nat := 0
/-- Kernel errno `ENODEV` (include/uapi/asm-generic/errno-base.h). -/
def ENODEV : Int := 19
/-- Kernel errno `EFAULT` (include/uapi/asm-generic/errno-base.h). -/
def EFAULT : Int := 14
/-- Kernel errno `EINVAL` (include/uapi/asm-generic/errno-base.h). -/
def EINVAL : Int := 22
/-- Kernel poll bit `POLLIN` (include/uapi/asm-generic/poll.h). -/
def POLLIN : Nat := 0x0001
/-- Kernel poll bit `POLLRDNORM` (include/uapi/asm-generic/poll.h). -/
def POLLRDNORM : Nat := 0x0040

/-- Width of C `int` and `unsigned int` on the target. -/
def INT_BITS : Nat := 32

/-- C left shift on a 32-bit integer, the result read as `unsigned int`
(the type `regmap_write` takes its value in). -/
def shl32 (x n : Nat) : Nat := (x <<< n) % 2 ^ INT_BITS

/-! ## Data model -/

structure aw3644_platform_data where
  tx_gpio : Int
  torch_gpio : Int
  hwen_gpio : Int
  ito_detect_gpio : Int
  ir_prot_time : Int
  brightness : Nat
  use_simulative_pwm : Bool
  pass_mode : Bool
  pwm_period_us : Nat
  pwm_duty_us : Nat
deriving DecidableEq, Repr

/-! `enum aw3644_event`: the field arrives from user memory, so it is kept as the
raw integer and the enumerators are named constants. -/
def GET_CHIP_ID_EVENT : Nat := 0
def SET_BRIGHTNESS_EVENT : Nat := 1
def GET_BRIGHTNESS_EVENT : Nat := 2
def MAX_NUM_EVENT : Nat := 3

structure aw3644_info where
  flood_enable : Nat
  flood_current : Nat
  flood_error : Nat
deriving DecidableEq, Repr

structure aw3644_data where
  event : Nat
  data : Nat
deriving DecidableEq, Repr

inductive aw3644_mode where
  | MODES_STANDBY
  | MODES_IR
  | MODES_TORCH
  | MODES_FLASH
deriving DecidableEq, Repr

/-- Numeric value of the enumerators of `enum aw3644_mode`. -/
def aw3644_mode.val : aw3644_mode → Nat
  | .MODES_STANDBY => 0
  | .MODES_IR => 1
  | .MODES_TORCH => 2
  | .MODES_FLASH => 3

/-- The fields of `struct aw3644_led` that carry data (`num` is `u32`, `brightness` is `u8`). -/
structure aw3644_led where
  num : Nat
  brightness : Nat
deriving DecidableEq, Repr

/-- One interaction of the driver with the kernel or the hardware. -/
inductive Event where
  | mutex_lock
  | mutex_unlock
  | regmap_read (reg : Nat)
  | regmap_write (reg : Nat) (val : Nat)
  | gpio_direction_output (gpio : Int) (value : Int)
  | pwm_enable
  | pwm_disable
  | cancel_work
  | del_timer
  | mod_timer (msecs : Int)
  | schedule_work
  | wake_up
  | poll_wait
  | enable_irq
  | disable_irq_nosync
  | copy_from_user (arg : Nat) (size : Nat)
  | copy_to_user (words : List Nat)
deriving DecidableEq, Repr

/-- The data fields of `struct aw3644_chip_data`.  `torch_leds0` and
`torch_leds1` are the two entries of `torch_leds[AW3644_LED_NUMS]`, `pwm` says
whether `chip->pwm` is non-NULL, and `trace` is the history of interactions. -/
structure aw3644_chip_data where
  num_leds : Int
  torch_leds0 : aw3644_led
  torch_leds1 : aw3644_led
  br_ir : Nat
  powerup_status : Bool
  pdata : aw3644_platform_data
  chip_id : Nat
  last_flag1 : Nat
  last_flag2 : Nat
  pwm : Bool
  ito_exception : Int
  trace : List Event
deriving DecidableEq, Repr

/-- Results of the kernel services, chosen by the environment.  The first
argument of each time-dependent service is the number of interactions so far.
`regmap_read`, `regmap_write`, `gpio_direction_output` and `pwm_enable` return 0
on success and a negative errno on failure; `copy_from_user` and `copy_to_user`
return the number of bytes left uncopied. -/
structure Hw where
  gpio_is_valid : Int → Bool
  regmap_read : Nat → Nat → Int × Nat
  regmap_write : Nat → Nat → Nat → Int
  gpio_direction_output : Nat → Int → Int → Int
  pwm_enable : Nat → Int
  access_ok : Nat → Nat → Bool
  copy_from_user : Nat → Nat → Nat × aw3644_data
  copy_to_user : Nat → Nat
  uninitialized : Nat → Nat

/-- Entry `torch_leds[i]`. -/
def aw3644_chip_data.torch_leds (chip : aw3644_chip_data) (i : Fin 2) : aw3644_led :=
  if i = 0 then chip.torch_leds0 else chip.torch_leds1

/-- Assignment `torch_leds[i].brightness = b`. -/
def aw3644_chip_data.set_led_brightness (chip : aw3644_chip_data) (i : Fin 2) (b : Nat) :
    aw3644_chip_data :=
  if i = 0 then { chip with torch_leds0 := { chip.torch_leds0 with brightness := b } }
  else { chip with torch_leds1 := { chip.torch_leds1 with brightness := b } }

/-- Record one interaction. -/
def emit (chip : aw3644_chip_data) (e : Event) : aw3644_chip_data :=
  { chip with trace := chip.trace ++ [e] }

/-- Assignment `chip->last_flag1 = v` (the read stores through the pointer). -/
def set_last_flag1 (chip : aw3644_chip_data) (v : Nat) : aw3644_chip_data :=
  { chip with last_flag1 := v }

/-- Assignment `chip->last_flag2 = v`. -/
def set_last_flag2 (chip : aw3644_chip_data) (v : Nat) : aw3644_chip_data :=
  { chip with last_flag2 := v }

/-- Assignment `chip->powerup_status = v`. -/
def set_powerup_status (chip : aw3644_chip_data) (v : Bool) : aw3644_chip_data :=
  { chip with powerup_status := v }

/-- Assignment `chip->br_ir = v`. -/
def set_br_ir (chip : aw3644_chip_data) (v : Nat) : aw3644_chip_data :=
  { chip with br_ir := v }

/-- Assignment `chip->chip_id = v`. -/
def set_chip_id (chip : aw3644_chip_data) (v : Nat) : aw3644_chip_data :=
  { chip with chip_id := v }

/-- The store `atomic_set(&chip->ito_exception, v)`. -/
def set_ito_exception (chip : aw3644_chip_data) (v : Int) : aw3644_chip_data :=
  { chip with ito_exception := v }

/-- Kernel `regmap_read(chip->regmap, reg, &dst)`: returns the status and the new
content of `dst`, which is overwritten only on success. -/
def regmap_read (hw : Hw) (chip : aw3644_chip_data) (reg : Nat) (dst : Nat) :
    Int × Nat × aw3644_chip_data :=
  let r := hw.regmap_read chip.trace.length reg
  (r.1, if r.1 = 0 then r.2 else dst, emit chip (.regmap_read reg))

/-- Kernel `regmap_write(chip->regmap, reg, val)`. -/
def regmap_write (hw : Hw) (chip : aw3644_chip_data) (reg : Nat) (val : Nat) :
    Int × aw3644_chip_data :=
  (hw.regmap_write chip.trace.length reg val, emit chip (.regmap_write reg val))

/-- Kernel `gpio_direction_output(gpio, value)`. -/
def gpio_direction_output (hw : Hw) (chip : aw3644_chip_data) (gpio : Int) (value : Int) :
    Int × aw3644_chip_data :=
  (hw.gpio_direction_output chip.trace.length gpio value,
    emit chip (.gpio_direction_output gpio value))

/-- Kernel `pwm_enable(chip->pwm)`. -/
def pwm_enable (hw : Hw) (chip : aw3644_chip_data) : Int × aw3644_chip_data :=
  (hw.pwm_enable chip.trace.length, emit chip .pwm_enable)

/-! ## The driver functions -/

/-- Source: `aw3644_chip_powerup`. -/
def aw3644_chip_powerup (hw : Hw) (chip : aw3644_chip_data) (value : Int) :
    Int × aw3644_chip_data :=
  if hw.gpio_is_valid chip.pdata.hwen_gpio then
    gpio_direction_output hw chip chip.pdata.hwen_gpio value
  else
    (-1, chip)

/-- Source: `aw3644_chip_init`.  The local `chip_id` is uninitialised before the read. -/
def aw3644_chip_init (hw : Hw) (chip : aw3644_chip_data) : Int × aw3644_chip_data :=
  let r := regmap_read hw chip REG_DEVICE_ID (hw.uninitialized chip.trace.length)
  let ret := r.1
  let chip_id := r.2.1
  let chip := r.2.2
  if ret < 0 then (ret, chip)
  else if chip_id ≠ AW3644_ID ∧ chip_id ≠ AW3644TT_ID then (-ENODEV, chip)
  else (ret, set_chip_id chip chip_id)

/-- Source: `aw3644_needs_suspend`; the loop over `i < AW3644_LED_NUMS` unrolled. -/
def aw3644_needs_suspend (chip : aw3644_chip_data) : Bool :=
  if ¬ (chip.torch_leds 0).brightness = 0 then false
  else decide ((chip.torch_leds 1).brightness = 0)

/-- The value `val` that `aw3644_control` builds when `opmode != MODES_STANDBY`:
the mode bits, then one enable bit per entry of `torch_leds`. -/
def aw3644_control_val (chip : aw3644_chip_data) (opmode : aw3644_mode) : Nat :=
  let val := shl32 opmode.val MODE_BITS_SHIFT
  let val := val ||| shl32 (if (chip.torch_leds 0).brightness ≠ 0 then 1 else 0)
    (chip.torch_leds 0).num
  let val := val ||| shl32 (if (chip.torch_leds 1).brightness ≠ 0 then 1 else 0)
    (chip.torch_leds 1).num
  val

/-- Source: `aw3644_control`, case `MODES_TORCH` of the switch. -/
def aw3644_control_torch (hw : Hw) (chip : aw3644_chip_data) (brightness : Nat) (val : Nat) :
    Int × aw3644_chip_data :=
  let val := if hw.gpio_is_valid chip.pdata.torch_gpio then
      val ||| shl32 1 TORCH_PIN_ENABLE_SHIFT else val
  let r := regmap_write hw chip REG_ENABLE val
  if r.1 < 0 then r else
  let r := regmap_write hw r.2 REG_LED1_TORCH_BRIGHTNESS (brightness ||| LED2_CURRENT_EQUAL)
  if r.1 < 0 then r else
  regmap_write hw r.2 REG_LED2_TORCH_BRIGHTNESS brightness

/-- Source: `aw3644_control`, case `MODES_IR` of the switch. -/
def aw3644_control_ir (hw : Hw) (chip : aw3644_chip_data) (brightness : Nat) (val : Nat) :
    Int × aw3644_chip_data :=
  let val := val ||| shl32 1 STROBE_EN_SHIFT
  let r := regmap_write hw chip REG_ENABLE val
  if r.1 < 0 then r else
  let r := regmap_write hw r.2 REG_LED1_FLASH_BRIGHTNESS (brightness ||| LED2_CURRENT_EQUAL)
  if r.1 < 0 then r else
  let r := regmap_write hw r.2 REG_LED2_FLASH_BRIGHTNESS brightness
  if r.1 < 0 then r else
  let r : Int × aw3644_chip_data :=
    if r.2.pdata.use_simulative_pwm && r.2.pwm then pwm_enable hw r.2 else r
  if r.1 < 0 then r else
  if r.2.pdata.ir_prot_time > 0 then
    (r.1, emit r.2 (.mod_timer r.2.pdata.ir_prot_time))
  else r

/-- Source: `aw3644_control`, the two adjustments of `opmode` before the switch
(the test under the comment "brightness 0 means off-state", then the flash test). -/
def aw3644_control_opmode (chip : aw3644_chip_data) (opmode : aw3644_mode) : aw3644_mode :=
  let opmode := if aw3644_needs_suspend chip then aw3644_mode.MODES_STANDBY else opmode
  if opmode = .MODES_FLASH then aw3644_mode.MODES_STANDBY else opmode

/-- Source: `aw3644_control`, the block `if (opmode != MODES_IR)`. -/
def aw3644_control_leave_ir (chip : aw3644_chip_data) (opmode : aw3644_mode) :
    aw3644_chip_data :=
  if opmode ≠ .MODES_IR then
    let chip := if chip.pdata.use_simulative_pwm && chip.pwm then emit chip .pwm_disable
      else chip
    emit (emit chip .cancel_work) .del_timer
  else chip

/-- Source: `aw3644_control`, the switch; `ret` is the value `ret` holds on entry. -/
def aw3644_control_switch (hw : Hw) (chip : aw3644_chip_data) (brightness val : Nat)
    (ret : Int) : aw3644_mode → Int × aw3644_chip_data
  | .MODES_TORCH => aw3644_control_torch hw chip brightness val
  | .MODES_IR => aw3644_control_ir hw chip brightness val
  | .MODES_STANDBY => regmap_write hw chip REG_ENABLE 0
  | .MODES_FLASH => (ret, chip)

/-- Source: `aw3644_control`.  `brightness` is the `u8` argument. -/
def aw3644_control (hw : Hw) (chip : aw3644_chip_data) (brightness : Nat)
    (opmode : aw3644_mode) : Int × aw3644_chip_data :=
  if chip.powerup_status = false then (-1, chip) else
  let r := regmap_read hw chip REG_FLAG1 chip.last_flag1
  let chip := set_last_flag1 r.2.2 r.2.1
  if r.1 < 0 then (r.1, chip) else
  let r := regmap_read hw chip REG_FLAG2 chip.last_flag2
  let chip := set_last_flag2 r.2.2 r.2.1
  if r.1 < 0 then (r.1, chip) else
  let opmode := aw3644_control_opmode chip opmode
  let chip := aw3644_control_leave_ir chip opmode
  aw3644_control_switch hw chip brightness (aw3644_control_val chip opmode) r.1 opmode

/-- Source: `aw3644_torch_brightness_set`, called on `led = &chip->torch_leds[i]`.
`led->brightness` and the `u8` argument of `aw3644_control` keep the low 8 bits. -/
def aw3644_torch_brightness_set (hw : Hw) (chip : aw3644_chip_data) (i : Fin 2)
    (brightness : Nat) : Int × aw3644_chip_data :=
  let chip := emit chip .mutex_lock
  let chip :=
    if chip.powerup_status = false then
      let r := aw3644_chip_powerup hw chip 1
      if r.1 = 0 then set_powerup_status r.2 true else r.2
    else chip
  let chip := chip.set_led_brightness i (brightness % 256)
  let r := aw3644_control hw chip (brightness % 256) .MODES_TORCH
  let r : Int × aw3644_chip_data :=
    if aw3644_needs_suspend r.2 then
      let p := aw3644_chip_powerup hw r.2 0
      if p.1 = 0 then (p.1, set_powerup_status p.2 false) else p
    else r
  (r.1, emit r.2 .mutex_unlock)

/-- Source: `aw3644_ir_brightness_set`. -/
def aw3644_ir_brightness_set (hw : Hw) (chip : aw3644_chip_data) (brightness : Nat) :
    Int × aw3644_chip_data :=
  let chip := emit chip .mutex_lock
  let chip := set_br_ir chip (brightness % 256)
  let r := aw3644_control hw chip chip.br_ir .MODES_IR
  (r.1, emit r.2 .mutex_unlock)

/-- Source: `aw3644_ir_brightness_get`. -/
def aw3644_ir_brightness_get (chip : aw3644_chip_data) : Nat :=
  chip.br_ir

/-- Source: `aw3644_ir_release`. -/
def aw3644_ir_release (chip : aw3644_chip_data) : Int × aw3644_chip_data :=
  (0, emit chip .disable_irq_nosync)

/-- Source: `aw3644_ir_stop_work`. -/
def aw3644_ir_stop_work (hw : Hw) (chip : aw3644_chip_data) : aw3644_chip_data :=
  (aw3644_ir_brightness_set hw chip LED_OFF).2

/-- Source: `aw3644_ir_stop_timer`. -/
def aw3644_ir_stop_timer (chip : aw3644_chip_data) : aw3644_chip_data :=
  emit chip .schedule_work

/-- Source: `aw3644_ito_irq`; the result is `IRQ_HANDLED`. -/
def aw3644_ito_irq (chip : aw3644_chip_data) : Nat × aw3644_chip_data :=
  (1, emit (set_ito_exception chip 1) .wake_up)

/-- Source: `aw3644_ir_open`. -/
def aw3644_ir_open (chip : aw3644_chip_data) : Int × aw3644_chip_data :=
  (0, emit chip .enable_irq)

/-- Source: `aw3644_ir_write`. -/
def aw3644_ir_write (chip : aw3644_chip_data) : Int × aw3644_chip_data :=
  (0, chip)

/-- Source: `aw3644_ir_read`. -/
def aw3644_ir_read (chip : aw3644_chip_data) : Int × aw3644_chip_data :=
  (0, emit chip (.copy_to_user [(chip.ito_exception % 2 ^ INT_BITS).toNat]))

/-- Source: `aw3644_poll`; the result is the poll mask. -/
def aw3644_poll (hw : Hw) (chip : aw3644_chip_data) : Nat × aw3644_chip_data :=
  let mask := 0
  let chip := emit chip .poll_wait
  if chip.ito_exception ≠ 0 then
    let mask := POLLIN ||| POLLRDNORM
    let chip := emit chip .mutex_lock
    let r := aw3644_control hw chip LED_OFF .MODES_STANDBY
    let chip := emit r.2 .mutex_unlock
    let chip := aw3644_ir_stop_timer chip
    let chip :=
      if hw.gpio_is_valid chip.pdata.hwen_gpio then
        (gpio_direction_output hw chip chip.pdata.hwen_gpio 0).2
      else chip
    (mask, chip)
  else (mask, chip)

/-- Source: `aw3644_ir_init`. -/
def aw3644_ir_init (hw : Hw) (chip : aw3644_chip_data) : Int × aw3644_chip_data :=
  aw3644_control hw chip LED_OFF .MODES_IR

/-- Source: `aw3644_ir_deinit`. -/
def aw3644_ir_deinit (hw : Hw) (chip : aw3644_chip_data) : Int × aw3644_chip_data :=
  aw3644_control hw chip LED_OFF .MODES_STANDBY

/-- Source: `aw3644_ir_set_data`; `(uint8_t)params.data` keeps the low 8 bits. -/
def aw3644_ir_set_data (hw : Hw) (chip : aw3644_chip_data) (params : aw3644_data) :
    Int × aw3644_chip_data :=
  if SET_BRIGHTNESS_EVENT = params.event then
    let brightness := params.data % 256
    let brightness := if brightness > 0x3F then 0x3F else brightness
    aw3644_control hw chip brightness .MODES_IR
  else (0, chip)

/-- Source: `aw3644_ir_get_data`. -/
def aw3644_ir_get_data (hw : Hw) (chip : aw3644_chip_data) (params : aw3644_data) :
    Int × aw3644_chip_data :=
  let data := 0
  let data := if GET_CHIP_ID_EVENT = params.event then chip.chip_id else data
  let data := if GET_BRIGHTNESS_EVENT = params.event then chip.pdata.brightness else data
  if hw.copy_to_user chip.trace.length ≠ 0 then (-ENODEV, emit chip (.copy_to_user [data]))
  else (0, emit chip (.copy_to_user [data]))

/-! ### ioctl numbers (include/uapi/asm-generic/ioctl.h, 64-bit target) -/

def _IOC_NONE : Nat := 0
def _IOC_WRITE : Nat := 1
def _IOC_READ : Nat := 2
/-- Kernel ioctl encoding: direction in bits 30..31, size in bits 16..29, type in
bits 8..15, number in bits 0..7. -/
def _IOC (dir type nr size : Nat) : Nat :=
  (dir <<< 30) ||| (type <<< 8) ||| nr ||| (size <<< 16)
def _IOC_DIR (cmd : Nat) : Nat := (cmd >>> 30) &&& 3
def _IOC_TYPE (cmd : Nat) : Nat := (cmd >>> 8) &&& 0xFF
def _IOC_NR (cmd : Nat) : Nat := cmd &&& 0xFF
def _IOC_SIZE (cmd : Nat) : Nat := (cmd >>> 16) &&& 0x3FFF

/-- The size of `aw3644_data` in bytes: an enum and an unsigned int. -/
def sizeof_aw3644_data : Nat := 8
/-- The size of a pointer in bytes. -/
def sizeof_pointer : Nat := 8

def FLOOD_IR_IOC_POWER_UP : Nat := _IOC _IOC_NONE AW3644_IOC_MAGIC (AW3644_PRIVATE_NUM + 1) 0
def FLOOD_IR_IOC_POWER_DOWN : Nat := _IOC _IOC_NONE AW3644_IOC_MAGIC (AW3644_PRIVATE_NUM + 2) 0
def FLOOD_IR_IOC_WRITE : Nat :=
  _IOC _IOC_WRITE AW3644_IOC_MAGIC (AW3644_PRIVATE_NUM + 3) sizeof_aw3644_data
def FLOOD_IR_IOC_READ : Nat :=
  _IOC (_IOC_READ ||| _IOC_WRITE) AW3644_IOC_MAGIC (AW3644_PRIVATE_NUM + 4) sizeof_aw3644_data
def FLOOD_IR_IOC_READ_INFO : Nat :=
  _IOC (_IOC_READ ||| _IOC_WRITE) AW3644_IOC_MAGIC (AW3644_PRIVATE_NUM + 5) sizeof_pointer

/-- Source: `aw3644_ir_ioctl`, case `FLOOD_IR_IOC_READ_INFO`.  Its own `ret`
shadows the function's, so the case leaves the function's `ret` as it was. -/
def aw3644_ir_ioctl_read_info (hw : Hw) (chip : aw3644_chip_data) : aw3644_chip_data :=
  let val := hw.uninitialized chip.trace.length
  let r := regmap_read hw chip REG_ENABLE val
  let flood_enable := if r.2.1 = 0x27 then 1 else 0
  let r := regmap_read hw r.2.2 REG_LED2_FLASH_BRIGHTNESS r.2.1
  let flood_current := ((r.2.1 * 11725 + 10900) * 2) % 2 ^ INT_BITS / 1000
  let r := regmap_read hw r.2.2 REG_FLAG1 r.2.1
  let flood_error := r.2.1
  let r := regmap_read hw r.2.2 REG_FLAG2 r.2.1
  let flood_error := ((flood_error <<< 8) + r.2.1) % 2 ^ INT_BITS
  emit r.2.2 (.copy_to_user [flood_enable, flood_current, flood_error])

/-- Source: `aw3644_ir_ioctl`, the condition under which the argument is copied in:
`(_IOC_DIR(cmd) & _IOC_WRITE) || (_IOC_DIR(cmd) & (_IOC_WRITE | _IOC_READ))`. -/
def aw3644_ir_ioctl_copy_in (cmd : Nat) : Bool :=
  decide (_IOC_DIR cmd &&& _IOC_WRITE ≠ 0) || decide (_IOC_DIR cmd &&& (_IOC_WRITE ||| _IOC_READ) ≠ 0)

/-- Source: `aw3644_ir_ioctl`; `cmd` is the `unsigned int` command and `arg` the
user address.  `params` is uninitialised until the argument is copied in. -/
def aw3644_ir_ioctl (hw : Hw) (chip : aw3644_chip_data) (cmd : Nat) (arg : Nat) :
    Int × aw3644_chip_data :=
  if _IOC_TYPE cmd ≠ AW3644_IOC_MAGIC then (-ENODEV, chip) else
  if ¬ hw.access_ok arg (_IOC_SIZE cmd) then (-EFAULT, chip) else
  let ret : Int := 0
  let params : aw3644_data :=
    { event := hw.uninitialized chip.trace.length, data := hw.uninitialized chip.trace.length }
  let u := hw.copy_from_user chip.trace.length arg
  let chip := if aw3644_ir_ioctl_copy_in cmd then
      emit chip (.copy_from_user arg sizeof_aw3644_data) else chip
  if aw3644_ir_ioctl_copy_in cmd ∧ u.1 ≠ 0 then (-EFAULT, chip) else
  let params := if aw3644_ir_ioctl_copy_in cmd then u.2 else params
  if cmd = FLOOD_IR_IOC_POWER_UP then aw3644_ir_init hw chip
  else if cmd = FLOOD_IR_IOC_POWER_DOWN then aw3644_ir_deinit hw chip
  else if cmd = FLOOD_IR_IOC_WRITE then aw3644_ir_set_data hw chip params
  else if cmd = FLOOD_IR_IOC_READ then aw3644_ir_get_data hw chip params
  else if cmd = FLOOD_IR_IOC_READ_INFO then (ret, aw3644_ir_ioctl_read_info hw chip)
  else (ret, chip)

/-! ## Observations on traces and concrete fixtures -/

/-- The register writes of a trace, in order, as (register, value) pairs. -/
def reg_writes : List Event → List (Nat × Nat)
  | [] => []
  | .regmap_write reg val :: es => (reg, val) :: reg_writes es
  | _ :: es => reg_writes es

/-- A board description: HWEN on GPIO 7, torch pin on GPIO 5, no TX and ITO
pins, an IR protection time of 100 ms and no simulated PWM. -/
def demo_pdata : aw3644_platform_data :=
  { tx_gpio := -1, torch_gpio := 5, hwen_gpio := 7, ito_detect_gpio := -1,
    ir_prot_time := 100, brightness := 0, use_simulative_pwm := false, pass_mode := false,
    pwm_period_us := 0, pwm_duty_us := 0 }

/-- The driver state as a successful probe leaves it on `demo_pdata` with two
LED children (reg 0 and reg 1): the zeroes of `devm_kzalloc`, the chip id read
by `aw3644_chip_init`, and an empty history. -/
def demo_chip : aw3644_chip_data :=
  { num_leds := 2, torch_leds0 := { num := 0, brightness := 0 },
    torch_leds1 := { num := 1, brightness := 0 }, br_ir := 0, powerup_status := false,
    pdata := demo_pdata, chip_id := AW3644_ID, last_flag1 := 0, last_flag2 := 0, pwm := false,
    ito_exception := 0, trace := [] }

/-- An environment in which every GPIO number from 0 on is valid, every service
succeeds, `REG_DEVICE_ID` reads `AW3644_ID` and every other register reads 0, and
user memory holds a set-brightness request with data 256. -/
def demo_hw : Hw :=
  { gpio_is_valid := fun n => decide (0 ≤ n),
    regmap_read := fun _ reg => (0, if reg = REG_DEVICE_ID then AW3644_ID else 0),
    regmap_write := fun _ _ _ => 0,
    gpio_direction_output := fun _ _ _ => 0,
    pwm_enable := fun _ => 0,
    access_ok := fun _ _ => true,
    copy_from_user := fun _ _ => (0, { event := SET_BRIGHTNESS_EVENT, data := 256 }),
    copy_to_user := fun _ => 0,
    uninitialized := fun _ => 0 }

/-- The state `demo_chip` powered up with torch LED 0 at brightness 5. -/
def demo_chip_torch : aw3644_chip_data :=
  { demo_chip with powerup_status := true, torch_leds0 := { num := 0, brightness := 5 } }

/-- The state `demo_chip_torch` on a board that uses the simulated PWM, with a
PWM device present. -/
def demo_chip_pwm : aw3644_chip_data :=
  { demo_chip_torch with
    pwm := true
    pdata := { demo_pdata with use_simulative_pwm := true } }

/-- The environment `demo_hw`, except that `pwm_enable` fails with -16. -/
def demo_hw_pwm_fail : Hw :=
  { demo_hw with pwm_enable := fun _ => -16 }

/-- The state inside `aw3644_torch_brightness_set(led 0, 0)` while LED 1 is lit:
powered up, LED 0 at brightness 0 and LED 1 at brightness 7. -/
def demo_chip_led1 : aw3644_chip_data :=
  { demo_chip with powerup_status := true, torch_leds1 := { num := 1, brightness := 7 } }

/-- The state after, starting from `demo_chip`, torch LED 0 was set to 5 and then
the IR LED to 10 through the LED-class callbacks: the chip is in IR mode and the
protection timer is armed. -/
def demo_chip_ir : aw3644_chip_data :=
  (aw3644_ir_brightness_set demo_hw (aw3644_torch_brightness_set demo_hw demo_chip 0 5).2 10).2

/-- The environment `demo_hw` with the address check of a 48-bit user address
space: `access_ok(addr, size)` holds when `addr + size` does not exceed 2^48. -/
def demo_hw_user_range : Hw :=
  { demo_hw with access_ok := fun addr size => decide (addr + size ≤ 2 ^ 48) }

/-- State `d` arises from `c` by recording further interactions and refreshing
the flag snapshot: every other field is the same. -/
def Extends (c d : aw3644_chip_data) : Prop :=
  d.pdata = c.pdata ∧ d.torch_leds0 = c.torch_leds0 ∧ d.torch_leds1 = c.torch_leds1 ∧
  d.powerup_status = c.powerup_status ∧ d.br_ir = c.br_ir ∧
  d.ito_exception = c.ito_exception ∧ d.chip_id = c.chip_id ∧ d.pwm = c.pwm ∧
  d.num_leds = c.num_leds ∧ ∃ es, d.trace = c.trace ++ es

/-! ## Device-tree parsing -/

/-- Kernel errno `ENOENT` (include/uapi/asm-generic/errno-base.h). -/
def ENOENT : Int := 2
/-- Kernel errno `ENOMEM` (include/uapi/asm-generic/errno-base.h). -/
def ENOMEM : Int := 12

/-- What `aw3644_parse_dt` reads from the device-tree node `np`.  The GPIO fields
are the results of `of_get_named_gpio`, the booleans those of
`of_property_read_bool`; an integer property is `none` when
`of_property_read_s32` / `of_property_read_u32` fails (negative result, output
argument left untouched) and `some v` when it succeeds with value `v`. -/
structure aw3644_of_node where
  hwen_gpio : Int
  torch_gpio : Int
  tx_gpio : Int
  ito_detect_gpio : Int
  pass_mode : Bool
  use_simulative_pwm : Bool
  ir_prot_time : Option Int
  period_us : Option Nat
  duty_us : Option Nat
deriving DecidableEq, Repr

/-- The zero-filled `struct aw3644_platform_data` that `devm_kzalloc` returns. -/
def aw3644_platform_data_zero : aw3644_platform_data :=
  { tx_gpio := 0, torch_gpio := 0, hwen_gpio := 0, ito_detect_gpio := 0, ir_prot_time := 0,
    brightness := 0, use_simulative_pwm := false, pass_mode := false, pwm_period_us := 0,
    pwm_duty_us := 0 }

/-- Source: `aw3644_parse_dt`, the block `if (pdata->use_simulative_pwm)`. -/
def aw3644_parse_dt_pwm (np : aw3644_of_node) (pdata : aw3644_platform_data) :
    aw3644_platform_data :=
  if pdata.use_simulative_pwm then
    let pdata :=
      match np.period_us with
      | some v => { pdata with pwm_period_us := v }
      | none => { pdata with pwm_period_us := AW3644_DEFAULT_PERIOD_US }
    let pdata :=
      match np.duty_us with
      | some v => { pdata with pwm_duty_us := v }
      | none => { pdata with pwm_period_us := AW3644_DEFAULT_DUTY_US }
    pdata
  else pdata

/-- Source: `aw3644_parse_dt`.  `np` is `client->dev.of_node` (`none` for NULL),
`kzalloc_ok` says whether `devm_kzalloc` returned memory; the result is the
platform data or the errno carried by `ERR_PTR`. -/
def aw3644_parse_dt (np : Option aw3644_of_node) (kzalloc_ok : Bool) :
    Except Int aw3644_platform_data :=
  match np with
  | none => .error (-ENOENT)
  | some np =>
    if ¬ kzalloc_ok then .error (-ENOMEM) else
    let pdata := aw3644_platform_data_zero
    let pdata := { pdata with hwen_gpio := np.hwen_gpio }
    let pdata := { pdata with torch_gpio := np.torch_gpio }
    let pdata := { pdata with tx_gpio := np.tx_gpio }
    let pdata := { pdata with ito_detect_gpio := np.ito_detect_gpio }
    let pdata := { pdata with pass_mode := np.pass_mode }
    let pdata := { pdata with use_simulative_pwm := np.use_simulative_pwm }
    let pdata :=
      match np.ir_prot_time with
      | some v => { pdata with ir_prot_time := v }
      | none => { pdata with ir_prot_time := -1 }
    .ok (aw3644_parse_dt_pwm np pdata)

/-- A device-tree node that asks for the simulated PWM with a period of one
second and gives no duty. -/
def demo_of_node_no_duty : aw3644_of_node :=
  { hwen_gpio := 7, torch_gpio := 5, tx_gpio := -2, ito_detect_gpio := -2, pass_mode := false,
    use_simulative_pwm := true, ir_prot_time := some 100, period_us := some 1000000,
    duty_us := none }

/-! ## LED children -/

/-- One available child of the device node, as `aw3644_parse_leds` sees it:
`reg` is `none` when `of_property_read_u32(child, "reg", &source)` returns a
non-zero result and `some source` when it returns 0; `register_ret` is what
`devm_led_classdev_register_ext` returns for the child. -/
structure aw3644_of_child where
  reg : Option Nat
  register_ret : Int
deriving DecidableEq, Repr

/-- The stores `led->num = ...` and `led->brightness = ...` through
`led = &chip->torch_leds[i]`; `none` when `i` is outside the array
`torch_leds[AW3644_LED_NUMS]`. -/
def aw3644_chip_data.store_led (chip : aw3644_chip_data) (i : Nat) (led : aw3644_led) :
    Option aw3644_chip_data :=
  if i = 0 then some { chip with torch_leds0 := led }
  else if i = 1 then some { chip with torch_leds1 := led }
  else none

/-- Source: `aw3644_parse_leds`, the loop over the remaining children with the
current values of `count` and `i`, then the statements after the loop. -/
def aw3644_parse_leds_loop (chip : aw3644_chip_data) (count : Int) (i : Nat) :
    List aw3644_of_child → Option (Int × aw3644_chip_data)
  | [] =>
    if count = 0 then some (-EINVAL, chip)
    else some (0, { chip with num_leds := i })
  | child :: rest =>
    match child.reg with
    | none => aw3644_parse_leds_loop chip (count - 1) i rest
    | some source =>
      if source ≥ AW3644_LED_NUMS then aw3644_parse_leds_loop chip (count - 1) i rest
      else
        match chip.store_led i { num := source, brightness := 0 } with
        | none => none
        | some chip =>
          if child.register_ret < 0 then some (child.register_ret, chip)
          else aw3644_parse_leds_loop chip count (i + 1) rest

/-- Source: `aw3644_parse_leds`; `children` are the available children of the
device node, in order.  The result is `none` when a store falls outside
`torch_leds`, otherwise the return value and the state. -/
def aw3644_parse_leds (chip : aw3644_chip_data) (children : List aw3644_of_child) :
    Option (Int × aw3644_chip_data) :=
  let count : Int := children.length
  if count = 0 ∨ count > AW3644_LED_NUMS then some (-EINVAL, chip)
  else aw3644_parse_leds_loop chip count 0 children

/-! ## Probe -/

/-- The width of `unsigned long`. -/
def LONG_BITS : Nat := 64

/-- Conversion of an unsigned value to `int`: the low 32 bits, read in two's
complement. -/
def to_int (x : Nat) : Int :=
  if x % 2 ^ INT_BITS < 2 ^ (INT_BITS - 1) then ((x % 2 ^ INT_BITS : Nat) : Int)
  else ((x % 2 ^ INT_BITS : Nat) : Int) - 2 ^ INT_BITS

/-- Source: `aw3644_probe`, the arguments `duty_ns` and `period_ns` of the call
of `pwm_config`: the products are computed in `unsigned long` and converted to
the `int` parameters. -/
def aw3644_probe_pwm_config_args (pdata : aw3644_platform_data) : Int × Int :=
  (to_int (pdata.pwm_duty_us * NSECS_PER_USEC % 2 ^ LONG_BITS),
    to_int (pdata.pwm_period_us * NSECS_PER_USEC % 2 ^ LONG_BITS))

/-- Source: `aw3644_probe`, its last statement before the return:
`atomic_set(&chip->ito_exception, 0)`. -/
def aw3644_probe_finish (chip : aw3644_chip_data) : aw3644_chip_data :=
  set_ito_exception chip 0

/-! ## Entries into the driver after probe -/

/-- One entry into the driver after probe: an LED-class callback, a file
operation, the ITO interrupt, the expiry of the IR stop timer or a run of the
IR stop work. -/
inductive aw3644_operation where
  | torch_brightness_set (i : Fin 2) (brightness : Nat)
  | ir_brightness_set (brightness : Nat)
  | ir_brightness_get
  | ir_open
  | ir_read
  | ir_write
  | poll
  | ir_ioctl (cmd : Nat) (arg : Nat)
  | ir_release
  | ito_irq
  | ir_stop_timer
  | ir_stop_work
deriving DecidableEq, Repr

/-- The state after one entry into the driver. -/
def aw3644_apply (hw : Hw) (chip : aw3644_chip_data) : aw3644_operation → aw3644_chip_data
  | .torch_brightness_set i brightness => (aw3644_torch_brightness_set hw chip i brightness).2
  | .ir_brightness_set brightness => (aw3644_ir_brightness_set hw chip brightness).2
  | .ir_brightness_get => chip
  | .ir_open => (aw3644_ir_open chip).2
  | .ir_read => (aw3644_ir_read chip).2
  | .ir_write => (aw3644_ir_write chip).2
  | .poll => (aw3644_poll hw chip).2
  | .ir_ioctl cmd arg => (aw3644_ir_ioctl hw chip cmd arg).2
  | .ir_release => (aw3644_ir_release chip).2
  | .ito_irq => (aw3644_ito_irq chip).2
  | .ir_stop_timer => aw3644_ir_stop_timer chip
  | .ir_stop_work => aw3644_ir_stop_work hw chip

/-- The state after a sequence of entries into the driver. -/
def aw3644_run (hw : Hw) (chip : aw3644_chip_data) (ops : List aw3644_operation) :
    aw3644_chip_data :=
  ops.foldl (aw3644_apply hw) chip

/-- The values driven on GPIO `gpio` in a history, in order. -/
def gpio_values (gpio : Int) : List Event → List Int
  | [] => []
  | .gpio_direction_output g v :: es =>
    if g = gpio then v :: gpio_values gpio es else gpio_values gpio es
  | _ :: es => gpio_values gpio es

/-- The value last driven on the HWEN GPIO in the history of the chip. -/
def last_hwen (chip : aw3644_chip_data) : Option Int :=
  (gpio_values chip.pdata.hwen_gpio chip.trace).getLast?

/-- The copies to user memory of a history, in order. -/
def user_copies : List Event → List (List Nat)
  | [] => []
  | .copy_to_user words :: es => words :: user_copies es
  | _ :: es => user_copies es

/-- The environment `demo_hw`, except that every register read fails with -5. -/
def demo_hw_read_fail : Hw :=
  { demo_hw with regmap_read := fun _ _ => (-5, 0) }

/-- The environment `demo_hw`, except that `REG_ENABLE` reads as `v`. -/
def demo_hw_enable (v : Nat) : Hw :=
  { demo_hw with regmap_read := fun _ reg => (0, if reg = REG_ENABLE then v else 0) }

/-- A device-tree node that asks for the simulated PWM with a duty of 500 us and
gives no period. -/
def demo_of_node_no_period : aw3644_of_node :=
  { hwen_gpio := 7, torch_gpio := 5, tx_gpio := -2, ito_detect_gpio := -2, pass_mode := false,
    use_simulative_pwm := true, ir_prot_time := some 100, period_us := none,
    duty_us := some 500 }

end AW3644

/-!
# DRM panel drivers (`drivers/gpu/drm/panel/panel-*.c`)

The three panel drivers share one embedding.  Every call into the kernel (reset
GPIO, delay, DSI transfer, regulator) is an `Op`; a driver context carries the
history of its calls in program order.  The result of a call whose result the
driver tests comes from the environment `Env`, indexed by the number of calls
made before it.  The long straight-line bodies of the `*_on` and `*_off`
functions are kept as the list of their statements, run by `run_steps`.
-/

namespace Panel

/-! ## Constants -/

/-- Source: `MCS_ACCESS_PROT_OFF` (panel-samsung-ams581vf01.c). -/
def MCS_ACCESS_PROT_OFF : Nat := 0xb0
/-- Source: `MCS_PASSWD` (panel-samsung-ams581vf01.c). -/
def MCS_PASSWD : Nat := 0xf0

/-! DCS command numbers of include/video/mipi_display.h and the tear mode of
include/drm/drm_mipi_dsi.h (headers are not under `src/`); they only label
payload bytes. -/
def MIPI_DCS_WRITE_LUT : Nat := 0x2D
def MIPI_DCS_SET_PARTIAL_ROWS : Nat := 0x30
def MIPI_DCS_SET_PARTIAL_COLUMNS : Nat := 0x31
def MIPI_DCS_SET_ADDRESS_MODE : Nat := 0x36
def MIPI_DCS_SET_3D_CONTROL : Nat := 0x3D
def MIPI_DCS_SET_VSYNC_TIMING : Nat := 0x40
def MIPI_DCS_GET_SCANLINE : Nat := 0x45
def MIPI_DCS_WRITE_CONTROL_DISPLAY : Nat := 0x53
def MIPI_DCS_WRITE_POWER_SAVE : Nat := 0x55
def MIPI_DCS_SET_CABC_MIN_BRIGHTNESS : Nat := 0x5E
def MIPI_DCS_READ_PPS_START : Nat := 0xA2
def MIPI_DSI_DCS_TEAR_MODE_VBLANK : Nat := 0

/-! ## Calls and their results -/

/-- One call of a panel driver into the kernel.  `gpiod_set_value_cansleep` is
always on `ctx->reset_gpio`; `mipi_dsi_dcs_write_buffer` and
`mipi_dsi_generic_write` carry the bytes sent by the `mipi_dsi_dcs_write_seq` and
`mipi_dsi_generic_write_seq` macros; the regulator calls carry the number of
supplies. -/
inductive Op where
  | gpiod_set_value_cansleep (value : Nat)
  | usleep_range (min : Nat) (max : Nat)
  | msleep (msecs : Nat)
  | mipi_dsi_dcs_write_buffer (data : List Nat)
  | mipi_dsi_generic_write (data : List Nat)
  | mipi_dsi_dcs_set_tear_on (mode : Nat)
  | mipi_dsi_dcs_set_display_brightness (brightness : Nat)
  | mipi_dsi_dcs_set_display_brightness_large (brightness : Nat)
  | mipi_dsi_dcs_set_pixel_format (format : Nat)
  | mipi_dsi_dcs_set_column_address (first : Nat) (last : Nat)
  | mipi_dsi_dcs_set_page_address (first : Nat) (last : Nat)
  | mipi_dsi_dcs_exit_sleep_mode
  | mipi_dsi_dcs_set_display_on
  | mipi_dsi_dcs_set_display_off
  | mipi_dsi_dcs_enter_sleep_mode
  | mipi_dsi_picture_parameter_set
  | mipi_dsi_compression_mode (enable : Bool)
  | regulator_bulk_enable (num : Nat)
  | regulator_bulk_disable (num : Nat)
deriving DecidableEq, Repr

/-- The call writes the reset GPIO. -/
def Op.is_gpio : Op → Bool
  | .gpiod_set_value_cansleep _ => true
  | _ => false

/-- The call is a transfer to the panel over DSI. -/
def Op.is_dsi : Op → Bool
  | .mipi_dsi_dcs_write_buffer _ => true
  | .mipi_dsi_generic_write _ => true
  | .mipi_dsi_dcs_set_tear_on _ => true
  | .mipi_dsi_dcs_set_display_brightness _ => true
  | .mipi_dsi_dcs_set_display_brightness_large _ => true
  | .mipi_dsi_dcs_set_pixel_format _ => true
  | .mipi_dsi_dcs_set_column_address _ _ => true
  | .mipi_dsi_dcs_set_page_address _ _ => true
  | .mipi_dsi_dcs_exit_sleep_mode => true
  | .mipi_dsi_dcs_set_display_on => true
  | .mipi_dsi_dcs_set_display_off => true
  | .mipi_dsi_dcs_enter_sleep_mode => true
  | .mipi_dsi_picture_parameter_set => true
  | .mipi_dsi_compression_mode _ => true
  | _ => false

/-- Results chosen by the environment: `result t` is what the call made as call
number `t` returns when the driver tests it (a DSI transfer returns a
non-negative value on success, `regulator_bulk_enable` returns 0, either returns
a negative errno on failure). -/
structure Env where
  result : Nat → Int

/-- One statement of a straight-line body.  `checked op` stands for
`ret = op(...); if (ret < 0) return ret;`, which is also what the kernel macros
`mipi_dsi_dcs_write_seq` and `mipi_dsi_generic_write_seq`
(include/drm/drm_mipi_dsi.h) expand to; `plain op` is a call whose result is not
used (the delays). -/
inductive Step where
  | checked (op : Op)
  | plain (op : Op)
deriving DecidableEq, Repr

/-- The call a statement makes. -/
def Step.op : Step → Op
  | .checked op => op
  | .plain op => op

/-- Run the statements of a body on the history `tr`: the result is the first
negative result of a checked call, with the history up to and including that
call, or 0 (the body's final `return 0`) with the history of all calls. -/
def run_steps (env : Env) (tr : List Op) : List Step → Int × List Op
  | [] => (0, tr)
  | .plain op :: rest => run_steps env (tr ++ [op]) rest
  | .checked op :: rest =>
    if env.result tr.length < 0 then (env.result tr.length, tr ++ [op])
    else run_steps env (tr ++ [op]) rest

/-! ## The command sequences -/

/-- Source: the statements of `visionox_g2647fb105_on`, in order. -/
def visionox_g2647fb105_on_steps : List Step :=
  [ Step.checked (Op.mipi_dsi_dcs_write_buffer [0xfe, 0x40]),
    Step.checked (Op.mipi_dsi_dcs_write_buffer [0x70, 0x04]),
    Step.checked (Op.mipi_dsi_dcs_write_buffer [0x4d, 0x32]),
    Step.checked (Op.mipi_dsi_dcs_write_buffer [0xfe, 0x40]),
    Step.checked (Op.mipi_dsi_dcs_write_buffer [0xbe, 0x17]),
    Step.checked (Op.mipi_dsi_dcs_write_buffer [0xbf, 0xbb]),
    Step.checked (Op.mipi_dsi_dcs_write_buffer [0xc0, 0xdd]),
    Step.checked (Op.mipi_dsi_dcs_write_buffer [0xc1, 0xff]),
    Step.checked (Op.mipi_dsi_dcs_write_buffer [0xfe, 0xd0]),
    Step.checked (Op.mipi_dsi_dcs_write_buffer [0x03, 0x24]),
    Step.checked (Op.mipi_dsi_dcs_write_buffer [0x04, 0x03]),
    Step.checked (Op.mipi_dsi_dcs_write_buffer [0xfe, 0x00]),
    Step.checked (Op.mipi_dsi_dcs_write_buffer [0xc2, 0x08]),
    Step.checked (Op.mipi_dsi_dcs_write_buffer [0xfe, 0x00]),
    Step.checked (Op.mipi_dsi_dcs_set_tear_on MIPI_DSI_DCS_TEAR_MODE_VBLANK),
    Step.checked (Op.mipi_dsi_dcs_set_display_brightness 0x0000),
    Step.checked Op.mipi_dsi_dcs_exit_sleep_mode,
    Step.plain (Op.msleep 100),
    Step.checked Op.mipi_dsi_dcs_set_display_on ]

/-- Source: the statements of `visionox_g2647fb105_off`, in order. -/
def visionox_g2647fb105_off_steps : List Step :=
  [ Step.checked Op.mipi_dsi_dcs_set_display_off,
    Step.plain (Op.msleep 50),
    Step.checked Op.mipi_dsi_dcs_enter_sleep_mode,
    Step.plain (Op.msleep 20) ]

/-- Source: the statements of `nt36672c_tianma_on`, in order. -/
def nt36672c_tianma_on_steps : List Step :=
  [ Step.checked (Op.mipi_dsi_dcs_write_buffer [0xff, 0x10]),
    Step.checked (Op.mipi_dsi_dcs_write_buffer [0xfb, 0x01]),
    Step.checked (Op.mipi_dsi_generic_write [0xc2, 0x1b, 0xa0]),
    Step.checked (Op.mipi_dsi_dcs_write_buffer [0xff, 0x20]),
    Step.checked (Op.mipi_dsi_dcs_write_buffer [0xfb, 0x01]),
    Step.checked (Op.mipi_dsi_dcs_write_buffer [0x06, 0x64]),
    Step.checked (Op.mipi_dsi_dcs_write_buffer [0x69, 0xd0]),
    Step.checked (Op.mipi_dsi_dcs_write_buffer [0xf2, 0x65]),
    Step.checked (Op.mipi_dsi_dcs_write_buffer [0xf3, 0x54]),
    Step.checked (Op.mipi_dsi_dcs_write_buffer [0xf4, 0x65]),
    Step.checked (Op.mipi_dsi_dcs_write_buffer [0xf5, 0x54]),
    Step.checked (Op.mipi_dsi_dcs_write_buffer [0xf6, 0x65]),
    Step.checked (Op.mipi_dsi_dcs_write_buffer [0xf7, 0x54]),
    Step.checked (Op.mipi_dsi_dcs_write_buffer [0xf8, 0x65]),
    Step.checked (Op.mipi_dsi_dcs_write_buffer [0xf9, 0x54]),
    Step.checked (Op.mipi_dsi_dcs_write_buffer [0xff, 0x24]),
    Step.checked (Op.mipi_dsi_dcs_write_buffer [0xfb, 0x01]),
    Step.checked (Op.mipi_dsi_dcs_write_buffer [0x02, 0x2f]),
    Step.checked (Op.mipi_dsi_dcs_write_buffer [0x03, 0x2d]),
    Step.checked (Op.mipi_dsi_dcs_write_buffer [0x04, 0x2e]),
    Step.checked (Op.mipi_dsi_dcs_write_buffer [0x05, 0x2c]),
    Step.checked (Op.mipi_dsi_dcs_write_buffer [0x06, 0x8b]),
    Step.checked (Op.mipi_dsi_dcs_write_buffer [0x07, 0x8c]),
    Step.checked (Op.mipi_dsi_dcs_write_buffer [0x1a, 0x2f]),
    Step.checked (Op.mipi_dsi_dcs_write_buffer [0x1b, 0x2d]),
    Step.checked (Op.mipi_dsi_dcs_write_buffer [0x1c, 0x2e]),
    Step.checked (Op.mipi_dsi_dcs_write_buffer [0x1d, 0x2c]),
    Step.checked (Op.mipi_dsi_dcs_write_buffer [0x1e, 0x8b]),
    Step.checked (Op.mipi_dsi_dcs_write_buffer [0x1f, 0x8c]),
    Step.checked (Op.mipi_dsi_dcs_write_buffer [0x33, 0x03]),
    Step.checked (Op.mipi_dsi_dcs_write_buffer [0x34, 0x01]),
    Step.checked (Op.mipi_dsi_dcs_write_buffer [0x4d, 0x05]),
    Step.checked (Op.mipi_dsi_dcs_write_buffer [0x4e, 0x33]),
    Step.checked (Op.mipi_dsi_dcs_write_buffer [0x4f, 0x33]),
    Step.checked (Op.mipi_dsi_dcs_write_buffer [MIPI_DCS_WRITE_CONTROL_DISPLAY, 0x33]),
    Step.checked (Op.mipi_dsi_dcs_write_buffer [0x79, 0x03]),
    Step.checked (Op.mipi_dsi_dcs_write_buffer [0x7a, 0x03]),
    Step.checked (Op.mipi_dsi_dcs_write_buffer [0x7b, 0x8d]),
    Step.checked (Op.mipi_dsi_dcs_write_buffer [0x7d, 0x05]),
    Step.checked (Op.mipi_dsi_dcs_write_buffer [0x80, 0x05]),
    Step.checked (Op.mipi_dsi_dcs_write_buffer [0x81, 0x05]),
    Step.checked (Op.mipi_dsi_dcs_write_buffer [0xa0, 0x0d]),
    Step.checked (Op.mipi_dsi_dcs_write_buffer [MIPI_DCS_READ_PPS_START, 0x0d]),
    Step.checked (Op.mipi_dsi_dcs_write_buffer [0xa3, 0x03]),
    Step.checked (Op.mipi_dsi_dcs_write_buffer [0xa4, 0x06]),
    Step.checked (Op.mipi_dsi_dcs_write_buffer [0xa5, 0x06]),
    Step.checked (Op.mipi_dsi_dcs_write_buffer [0xe9, 0x02]),
    Step.checked (Op.mipi_dsi_dcs_write_buffer [0xff, 0x25]),
    Step.checked (Op.mipi_dsi_dcs_write_buffer [0xfb, 0x01]),
    Step.checked (Op.mipi_dsi_dcs_write_buffer [0x21, 0x00]),
    Step.checked (Op.mipi_dsi_dcs_write_buffer [0x66, 0x40]),
    Step.checked (Op.mipi_dsi_dcs_write_buffer [0x67, 0x29]),
    Step.checked (Op.mipi_dsi_dcs_write_buffer [0x79, 0x7a]),
    Step.checked (Op.mipi_dsi_dcs_write_buffer [0xda, 0x00]),
    Step.checked (Op.mipi_dsi_dcs_write_buffer [0xe0, 0x00]),
    Step.checked (Op.mipi_dsi_dcs_write_buffer [0xf0, 0x00]),
    Step.checked (Op.mipi_dsi_dcs_write_buffer [0xf1, 0x44]),
    Step.checked (Op.mipi_dsi_dcs_write_buffer [0xff, 0x26]),
    Step.checked (Op.mipi_dsi_dcs_write_buffer [0xfb, 0x01]),
    Step.checked (Op.mipi_dsi_dcs_write_buffer [0x01, 0xea]),
    Step.checked (Op.mipi_dsi_dcs_write_buffer [0x04, 0xea]),
    Step.checked (Op.mipi_dsi_dcs_write_buffer [0x05, 0x08]),
    Step.checked (Op.mipi_dsi_dcs_write_buffer [0x06, 0x0f]),
    Step.checked (Op.mipi_dsi_dcs_write_buffer [0x08, 0x0f]),
    Step.checked (Op.mipi_dsi_dcs_write_buffer [0x81, 0x0d]),
    Step.checked (Op.mipi_dsi_dcs_write_buffer [0x83, 0x03]),
    Step.checked (Op.mipi_dsi_dcs_write_buffer [0x88, 0x03]),
    Step.checked (Op.mipi_dsi_dcs_write_buffer [0xff, 0x27]),
    Step.checked (Op.mipi_dsi_dcs_write_buffer [0xfb, 0x01]),
    Step.checked (Op.mipi_dsi_dcs_write_buffer [0x6e, 0x23]),
    Step.checked (Op.mipi_dsi_dcs_write_buffer [0x6f, 0x01]),
    Step.checked (Op.mipi_dsi_dcs_write_buffer [0x73, 0x21]),
    Step.checked (Op.mipi_dsi_dcs_write_buffer [0x74, 0x03]),
    Step.checked (Op.mipi_dsi_dcs_write_buffer [0x7e, 0x63]),
    Step.checked (Op.mipi_dsi_dcs_write_buffer [0x83, 0x63]),
    Step.checked (Op.mipi_dsi_dcs_write_buffer [0x88, 0x03]),
    Step.checked (Op.mipi_dsi_dcs_write_buffer [0x89, 0x01]),
    Step.checked (Op.mipi_dsi_dcs_write_buffer [0xff, 0x2a]),
    Step.checked (Op.mipi_dsi_dcs_write_buffer [0xfb, 0x01]),
    Step.checked (Op.mipi_dsi_dcs_write_buffer [0x00, 0x91]),
    Step.checked (Op.mipi_dsi_dcs_write_buffer [0x03, 0x20]),
    Step.checked (Op.mipi_dsi_dcs_write_buffer [0x07, 0x56]),
    Step.checked (Op.mipi_dsi_dcs_write_buffer [0x0a, 0x70]),
    Step.checked (Op.mipi_dsi_dcs_write_buffer [0x0c, 0x09]),
    Step.checked (Op.mipi_dsi_dcs_write_buffer [0x0d, 0x40]),
    Step.checked (Op.mipi_dsi_dcs_write_buffer [0x0e, 0x02]),
    Step.checked (Op.mipi_dsi_dcs_write_buffer [0x0f, 0x00]),
    Step.checked (Op.mipi_dsi_dcs_write_buffer [0x11, 0xf0]),
    Step.checked (Op.mipi_dsi_dcs_write_buffer [0x15, 0x0e]),
    Step.checked (Op.mipi_dsi_dcs_write_buffer [0x16, 0xa8]),
    Step.checked (Op.mipi_dsi_dcs_write_buffer [0x19, 0x0e]),
    Step.checked (Op.mipi_dsi_dcs_write_buffer [0x1a, 0x7c]),
    Step.checked (Op.mipi_dsi_dcs_write_buffer [0x1e, 0x38]),
    Step.checked (Op.mipi_dsi_dcs_write_buffer [0x1f, 0x38]),
    Step.checked (Op.mipi_dsi_dcs_write_buffer [0x20, 0x38]),
    Step.checked (Op.mipi_dsi_dcs_write_buffer [0x27, 0x80]),
    Step.checked (Op.mipi_dsi_dcs_write_buffer [0x28, 0xb2]),
    Step.checked (Op.mipi_dsi_dcs_write_buffer [0x29, 0x1d]),
    Step.checked (Op.mipi_dsi_dcs_write_buffer [0x2a, 0x01]),
    Step.checked (Op.mipi_dsi_dcs_write_buffer [0x2b, 0x00]),
    Step.checked (Op.mipi_dsi_dcs_write_buffer [MIPI_DCS_WRITE_LUT, 0x04]),
    Step.checked (Op.mipi_dsi_dcs_write_buffer [0x2f, 0x06]),
    Step.checked (Op.mipi_dsi_dcs_write_buffer [MIPI_DCS_SET_PARTIAL_ROWS, 0x1e]),
    Step.checked (Op.mipi_dsi_dcs_write_buffer [MIPI_DCS_SET_PARTIAL_COLUMNS, 0x42]),
    Step.checked (Op.mipi_dsi_dcs_write_buffer [0x33, 0xb0]),
    Step.checked (Op.mipi_dsi_dcs_write_buffer [0x34, 0xb4]),
    Step.checked (Op.mipi_dsi_dcs_write_buffer [0x35, 0x34]),
    Step.checked (Op.mipi_dsi_dcs_write_buffer [MIPI_DCS_SET_ADDRESS_MODE, 0xc4]),
    Step.checked (Op.mipi_dsi_dcs_write_buffer [0x37, 0xaf]),
    Step.checked (Op.mipi_dsi_dcs_write_buffer [0x38, 0x38]),
    Step.checked (Op.mipi_dsi_dcs_write_buffer [0x39, 0xc0]),
    Step.checked (Op.mipi_dsi_dcs_set_pixel_format 0x1e),
    Step.checked (Op.mipi_dsi_dcs_write_buffer [0xff, 0x2b]),
    Step.checked (Op.mipi_dsi_dcs_write_buffer [0xfb, 0x01]),
    Step.checked (Op.mipi_dsi_dcs_write_buffer [0xb7, 0x06]),
    Step.checked (Op.mipi_dsi_dcs_write_buffer [0xb8, 0x13]),
    Step.checked (Op.mipi_dsi_dcs_write_buffer [0xc0, 0x03]),
    Step.checked (Op.mipi_dsi_dcs_write_buffer [0xff, 0xf0]),
    Step.checked (Op.mipi_dsi_dcs_write_buffer [0xfb, 0x01]),
    Step.checked (Op.mipi_dsi_dcs_write_buffer [0x1c, 0x01]),
    Step.checked (Op.mipi_dsi_dcs_write_buffer [0x33, 0x01]),
    Step.checked (Op.mipi_dsi_dcs_write_buffer [0x5a, 0x00]),
    Step.checked (Op.mipi_dsi_dcs_write_buffer [0x9c, 0x00]),
    Step.checked (Op.mipi_dsi_dcs_write_buffer [0xff, 0xc0]),
    Step.checked (Op.mipi_dsi_dcs_write_buffer [0xfb, 0x01]),
    Step.checked (Op.mipi_dsi_dcs_write_buffer [0x9c, 0x11]),
    Step.checked (Op.mipi_dsi_dcs_write_buffer [0x9d, 0x11]),
    Step.checked (Op.mipi_dsi_dcs_write_buffer [0xff, 0xe0]),
    Step.checked (Op.mipi_dsi_dcs_write_buffer [0xfb, 0x01]),
    Step.checked (Op.mipi_dsi_dcs_write_buffer [0x35, 0x82]),
    Step.checked (Op.mipi_dsi_dcs_write_buffer [0xff, 0x10]),
    Step.checked (Op.mipi_dsi_dcs_write_buffer [0xfb, 0x01]),
    Step.checked (Op.mipi_dsi_dcs_set_display_brightness 0x00c1),
    Step.checked (Op.mipi_dsi_dcs_write_buffer [MIPI_DCS_WRITE_CONTROL_DISPLAY, 0x2c]),
    Step.checked (Op.mipi_dsi_dcs_write_buffer [MIPI_DCS_WRITE_POWER_SAVE, 0x00]),
    Step.checked (Op.mipi_dsi_dcs_write_buffer [0xff, 0x23]),
    Step.checked (Op.mipi_dsi_dcs_write_buffer [0xfb, 0x01]),
    Step.checked (Op.mipi_dsi_dcs_write_buffer [0x10, 0x82]),
    Step.checked (Op.mipi_dsi_dcs_write_buffer [0x11, 0x01]),
    Step.checked (Op.mipi_dsi_dcs_write_buffer [0x12, 0x95]),
    Step.checked (Op.mipi_dsi_dcs_write_buffer [0x15, 0x68]),
    Step.checked (Op.mipi_dsi_dcs_write_buffer [0x16, 0x0b]),
    Step.checked (Op.mipi_dsi_dcs_write_buffer [MIPI_DCS_SET_PARTIAL_ROWS, 0xff]),
    Step.checked (Op.mipi_dsi_dcs_write_buffer [MIPI_DCS_SET_PARTIAL_COLUMNS, 0xfd]),
    Step.checked (Op.mipi_dsi_dcs_write_buffer [0x32, 0xfb]),
    Step.checked (Op.mipi_dsi_dcs_write_buffer [0x33, 0xfa]),
    Step.checked (Op.mipi_dsi_dcs_write_buffer [0x34, 0xf9]),
    Step.checked (Op.mipi_dsi_dcs_write_buffer [0x35, 0xf7]),
    Step.checked (Op.mipi_dsi_dcs_write_buffer [MIPI_DCS_SET_ADDRESS_MODE, 0xf5]),
    Step.checked (Op.mipi_dsi_dcs_write_buffer [0x37, 0xf4]),
    Step.checked (Op.mipi_dsi_dcs_write_buffer [0x38, 0xf1]),
    Step.checked (Op.mipi_dsi_dcs_write_buffer [0x39, 0xef]),
    Step.checked (Op.mipi_dsi_dcs_set_pixel_format 0xed),
    Step.checked (Op.mipi_dsi_dcs_write_buffer [0x3b, 0xeb]),
    Step.checked (Op.mipi_dsi_dcs_write_buffer [MIPI_DCS_SET_3D_CONTROL, 0xea]),
    Step.checked (Op.mipi_dsi_dcs_write_buffer [0x3f, 0xe8]),
    Step.checked (Op.mipi_dsi_dcs_write_buffer [MIPI_DCS_SET_VSYNC_TIMING, 0xe6]),
    Step.checked (Op.mipi_dsi_dcs_write_buffer [0x41, 0xe5]),
    Step.checked (Op.mipi_dsi_dcs_write_buffer [MIPI_DCS_GET_SCANLINE, 0xff]),
    Step.checked (Op.mipi_dsi_dcs_write_buffer [0x46, 0xf3]),
    Step.checked (Op.mipi_dsi_dcs_write_buffer [0x47, 0xe8]),
    Step.checked (Op.mipi_dsi_dcs_write_buffer [0x48, 0xdd]),
    Step.checked (Op.mipi_dsi_dcs_write_buffer [0x49, 0xd3]),
    Step.checked (Op.mipi_dsi_dcs_write_buffer [0x4a, 0xc9]),
    Step.checked (Op.mipi_dsi_dcs_write_buffer [0x4b, 0xbe]),
    Step.checked (Op.mipi_dsi_dcs_write_buffer [0x4c, 0xb3]),
    Step.checked (Op.mipi_dsi_dcs_write_buffer [0x4d, 0xa9]),
    Step.checked (Op.mipi_dsi_dcs_write_buffer [0x4e, 0x9f]),
    Step.checked (Op.mipi_dsi_dcs_write_buffer [0x4f, 0x95]),
    Step.checked (Op.mipi_dsi_dcs_write_buffer [0x50, 0x8b]),
    Step.checked (Op.mipi_dsi_dcs_set_display_brightness 0x0081),
    Step.checked (Op.mipi_dsi_dcs_write_buffer [0x52, 0x77]),
    Step.checked (Op.mipi_dsi_dcs_write_buffer [MIPI_DCS_WRITE_CONTROL_DISPLAY, 0x6d]),
    Step.checked (Op.mipi_dsi_dcs_write_buffer [0x54, 0x65]),
    Step.checked (Op.mipi_dsi_dcs_write_buffer [0x58, 0xff]),
    Step.checked (Op.mipi_dsi_dcs_write_buffer [0x59, 0xf8]),
    Step.checked (Op.mipi_dsi_dcs_write_buffer [0x5a, 0xf3]),
    Step.checked (Op.mipi_dsi_dcs_write_buffer [0x5b, 0xee]),
    Step.checked (Op.mipi_dsi_dcs_write_buffer [0x5c, 0xe9]),
    Step.checked (Op.mipi_dsi_dcs_write_buffer [0x5d, 0xe4]),
    Step.checked (Op.mipi_dsi_dcs_write_buffer [MIPI_DCS_SET_CABC_MIN_BRIGHTNESS, 0xdf]),
    Step.checked (Op.mipi_dsi_dcs_write_buffer [0x5f, 0xda]),
    Step.checked (Op.mipi_dsi_dcs_write_buffer [0x60, 0xd4]),
    Step.checked (Op.mipi_dsi_dcs_write_buffer [0x61, 0xcf]),
    Step.checked (Op.mipi_dsi_dcs_write_buffer [0x62, 0xca]),
    Step.checked (Op.mipi_dsi_dcs_write_buffer [0x63, 0xc5]),
    Step.checked (Op.mipi_dsi_dcs_write_buffer [0x64, 0xc0]),
    Step.checked (Op.mipi_dsi_dcs_write_buffer [0x65, 0xbb]),
    Step.checked (Op.mipi_dsi_dcs_write_buffer [0x66, 0xb6]),
    Step.checked (Op.mipi_dsi_dcs_write_buffer [0x67, 0xb1]),
    Step.checked (Op.mipi_dsi_dcs_write_buffer [0xa0, 0x11]),
    Step.checked (Op.mipi_dsi_dcs_write_buffer [0xff, 0x27]),
    Step.checked (Op.mipi_dsi_dcs_write_buffer [0xfb, 0x01]),
    Step.checked (Op.mipi_dsi_dcs_write_buffer [MIPI_DCS_SET_VSYNC_TIMING, 0x25]),
    Step.checked (Op.mipi_dsi_dcs_write_buffer [0xff, 0x10]),
    Step.checked (Op.mipi_dsi_dcs_write_buffer [0xfb, 0x01]),
    Step.checked Op.mipi_dsi_dcs_exit_sleep_mode,
    Step.plain (Op.msleep 70),
    Step.checked Op.mipi_dsi_dcs_set_display_on,
    Step.plain (Op.msleep 40),
    Step.checked (Op.mipi_dsi_dcs_write_buffer [0xff, 0x27]),
    Step.checked (Op.mipi_dsi_dcs_write_buffer [0xfb, 0x01]),
    Step.checked (Op.mipi_dsi_dcs_write_buffer [0x3f, 0x01]),
    Step.checked (Op.mipi_dsi_dcs_write_buffer [0x43, 0x08]),
    Step.checked (Op.mipi_dsi_dcs_write_buffer [0xff, 0x10]),
    Step.checked (Op.mipi_dsi_dcs_write_buffer [0xfb, 0x01]) ]

/-- Source: the statements of `nt36672c_tianma_off`, in order. -/
def nt36672c_tianma_off_steps : List Step :=
  [ Step.checked (Op.mipi_dsi_dcs_write_buffer [0xff, 0x10]),
    Step.checked (Op.mipi_dsi_dcs_write_buffer [0xfb, 0x01]),
    Step.checked Op.mipi_dsi_dcs_set_display_off,
    Step.plain (Op.usleep_range 16000 17000),
    Step.checked Op.mipi_dsi_dcs_enter_sleep_mode,
    Step.plain (Op.msleep 60) ]

/-- Source: the statements of `ams581vf01_on`, in order. -/
def ams581vf01_on_steps : List Step :=
  [ Step.checked Op.mipi_dsi_dcs_exit_sleep_mode,
    Step.plain (Op.usleep_range 10000 11000),
    Step.checked (Op.mipi_dsi_dcs_set_tear_on MIPI_DSI_DCS_TEAR_MODE_VBLANK),
    Step.checked (Op.mipi_dsi_dcs_write_buffer [MCS_PASSWD, 0x5a, 0x5a]),
    Step.checked (Op.mipi_dsi_dcs_write_buffer [0xeb, 0x17, 0x41, 0x92, 0x0e, 0x10, 0x82, 0x5a]),
    Step.checked (Op.mipi_dsi_dcs_write_buffer [MCS_PASSWD, 0xa5, 0xa5]),
    Step.checked (Op.mipi_dsi_dcs_set_column_address 0x0000 0x0437),
    Step.checked (Op.mipi_dsi_dcs_set_page_address 0x0000 0x0923),
    Step.checked (Op.mipi_dsi_dcs_write_buffer [MIPI_DCS_WRITE_CONTROL_DISPLAY, 0x20]),
    Step.checked (Op.mipi_dsi_dcs_write_buffer [MCS_PASSWD, 0x5a, 0x5a]),
    Step.checked (Op.mipi_dsi_dcs_write_buffer [MCS_ACCESS_PROT_OFF, 0x09]),
    Step.checked (Op.mipi_dsi_dcs_write_buffer [0xe8, 0x11, 0x30]),
    Step.checked (Op.mipi_dsi_dcs_write_buffer [MCS_PASSWD, 0xa5, 0xa5]),
    Step.plain (Op.msleep 110),
    Step.checked Op.mipi_dsi_dcs_set_display_on ]

/-- Source: the statements of `ams581vf01_off`, in order. -/
def ams581vf01_off_steps : List Step :=
  [ Step.checked Op.mipi_dsi_dcs_set_display_off,
    Step.plain (Op.msleep 20),
    Step.checked Op.mipi_dsi_dcs_enter_sleep_mode,
    Step.checked (Op.mipi_dsi_dcs_write_buffer [MCS_PASSWD, 0x5a, 0x5a]),
    Step.checked (Op.mipi_dsi_dcs_write_buffer [MCS_ACCESS_PROT_OFF, 0x05]),
    Step.checked (Op.mipi_dsi_dcs_write_buffer [0xf4, 0x01]),
    Step.checked (Op.mipi_dsi_dcs_write_buffer [MCS_PASSWD, 0xa5, 0xa5]),
    Step.plain (Op.msleep 120) ]

/-! ## Visionox G2647FB105 -/

/-- The data of `struct visionox_g2647fb105`, with the history of its calls. -/
structure visionox_g2647fb105 where
  prepared : Bool
  trace : List Op
deriving DecidableEq, Repr

/-- Source: `visionox_g2647fb105_reset`. -/
def visionox_g2647fb105_reset (ctx : visionox_g2647fb105) : visionox_g2647fb105 :=
  { ctx with trace := ctx.trace ++
      [.gpiod_set_value_cansleep 1, .usleep_range 1000 2000,
        .gpiod_set_value_cansleep 0, .usleep_range 10000 11000] }

/-- Source: `visionox_g2647fb105_on`. -/
def visionox_g2647fb105_on (env : Env) (ctx : visionox_g2647fb105) :
    Int × visionox_g2647fb105 :=
  ((run_steps env ctx.trace visionox_g2647fb105_on_steps).1,
    { ctx with trace := (run_steps env ctx.trace visionox_g2647fb105_on_steps).2 })

/-- Source: `visionox_g2647fb105_off`. -/
def visionox_g2647fb105_off (env : Env) (ctx : visionox_g2647fb105) :
    Int × visionox_g2647fb105 :=
  ((run_steps env ctx.trace visionox_g2647fb105_off_steps).1,
    { ctx with trace := (run_steps env ctx.trace visionox_g2647fb105_off_steps).2 })

/-- Source: `visionox_g2647fb105_prepare`. -/
def visionox_g2647fb105_prepare (env : Env) (ctx : visionox_g2647fb105) :
    Int × visionox_g2647fb105 :=
  if ctx.prepared then (0, ctx) else
  let ctx := visionox_g2647fb105_reset ctx
  let r := visionox_g2647fb105_on env ctx
  if r.1 < 0 then
    (r.1, { r.2 with trace := r.2.trace ++ [Op.gpiod_set_value_cansleep 1] })
  else
    (0, { r.2 with prepared := true })

/-- Source: `visionox_g2647fb105_unprepare`. -/
def visionox_g2647fb105_unprepare (env : Env) (ctx : visionox_g2647fb105) :
    Int × visionox_g2647fb105 :=
  if ¬ ctx.prepared then (0, ctx) else
  let r := visionox_g2647fb105_off env ctx
  let ctx := { r.2 with trace := r.2.trace ++ [Op.gpiod_set_value_cansleep 1] }
  (0, { ctx with prepared := false })

/-! ## Novatek NT36672C (Tianma) -/

/-- The data of `struct nt36672c_tianma` that prepare and unprepare use, with the
history of its calls. -/
structure nt36672c_tianma where
  prepared : Bool
  trace : List Op
deriving DecidableEq, Repr

/-- Source: `nt36672c_tianma_reset`. -/
def nt36672c_tianma_reset (ctx : nt36672c_tianma) : nt36672c_tianma :=
  { ctx with trace := ctx.trace ++
      [.gpiod_set_value_cansleep 0, .usleep_range 5000 6000,
        .gpiod_set_value_cansleep 1, .usleep_range 1000 2000,
        .gpiod_set_value_cansleep 0, .usleep_range 10000 11000] }

/-- Source: `nt36672c_tianma_on`. -/
def nt36672c_tianma_on (env : Env) (ctx : nt36672c_tianma) : Int × nt36672c_tianma :=
  ((run_steps env ctx.trace nt36672c_tianma_on_steps).1,
    { ctx with trace := (run_steps env ctx.trace nt36672c_tianma_on_steps).2 })

/-- Source: `nt36672c_tianma_off`. -/
def nt36672c_tianma_off (env : Env) (ctx : nt36672c_tianma) : Int × nt36672c_tianma :=
  ((run_steps env ctx.trace nt36672c_tianma_off_steps).1,
    { ctx with trace := (run_steps env ctx.trace nt36672c_tianma_off_steps).2 })

/-- Source: `nt36672c_tianma_prepare`, the statements after the power-on
sequence: the picture parameter set, the compression mode and the delay. -/
def nt36672c_tianma_prepare_dsc_steps : List Step :=
  [ .checked .mipi_dsi_picture_parameter_set,
    .checked (.mipi_dsi_compression_mode true),
    .plain (.msleep 28) ]

/-- Source: `nt36672c_tianma_prepare`. -/
def nt36672c_tianma_prepare (env : Env) (ctx : nt36672c_tianma) : Int × nt36672c_tianma :=
  if ctx.prepared then (0, ctx) else
  let ctx := nt36672c_tianma_reset ctx
  let r := nt36672c_tianma_on env ctx
  if r.1 < 0 then
    (r.1, { r.2 with trace := r.2.trace ++ [Op.gpiod_set_value_cansleep 1] })
  else
    let d := run_steps env r.2.trace nt36672c_tianma_prepare_dsc_steps
    if d.1 < 0 then (d.1, { r.2 with trace := d.2 })
    else (0, { r.2 with trace := d.2, prepared := true })

/-- Source: `nt36672c_tianma_unprepare`. -/
def nt36672c_tianma_unprepare (env : Env) (ctx : nt36672c_tianma) : Int × nt36672c_tianma :=
  if ¬ ctx.prepared then (0, ctx) else
  let r := nt36672c_tianma_off env ctx
  let ctx := { r.2 with trace := r.2.trace ++ [Op.gpiod_set_value_cansleep 1] }
  (0, { ctx with prepared := false })

/-! ## Samsung AMS581VF01 -/

/-- The data of `struct ams581vf01`: the history of its calls (the structure has
no `prepared` flag; `supplies` has four entries). -/
structure ams581vf01 where
  trace : List Op
deriving DecidableEq, Repr

/-- `ARRAY_SIZE(ctx->supplies)`. -/
def ams581vf01_num_supplies : Nat := 4

/-- Source: `ams581vf01_reset`. -/
def ams581vf01_reset (ctx : ams581vf01) : ams581vf01 :=
  { ctx with trace := ctx.trace ++
      [.gpiod_set_value_cansleep 1, .usleep_range 10000 11000,
        .gpiod_set_value_cansleep 0, .usleep_range 10000 11000] }

/-- Source: `ams581vf01_on`. -/
def ams581vf01_on (env : Env) (ctx : ams581vf01) : Int × ams581vf01 :=
  ((run_steps env ctx.trace ams581vf01_on_steps).1,
    { ctx with trace := (run_steps env ctx.trace ams581vf01_on_steps).2 })

/-- Source: `ams581vf01_off`. -/
def ams581vf01_off (env : Env) (ctx : ams581vf01) : Int × ams581vf01 :=
  ((run_steps env ctx.trace ams581vf01_off_steps).1,
    { ctx with trace := (run_steps env ctx.trace ams581vf01_off_steps).2 })

/-- Source: `ams581vf01_prepare`. -/
def ams581vf01_prepare (env : Env) (ctx : ams581vf01) : Int × ams581vf01 :=
  let ret := env.result ctx.trace.length
  let ctx : ams581vf01 :=
    { ctx with trace := ctx.trace ++ [.regulator_bulk_enable ams581vf01_num_supplies] }
  if ret < 0 then (ret, ctx) else
  let ctx := ams581vf01_reset ctx
  let r := ams581vf01_on env ctx
  if r.1 < 0 then
    (r.1, { r.2 with trace := r.2.trace ++
      [Op.gpiod_set_value_cansleep 1, Op.regulator_bulk_disable ams581vf01_num_supplies] })
  else
    (0, r.2)

/-- Source: `ams581vf01_unprepare`. -/
def ams581vf01_unprepare (env : Env) (ctx : ams581vf01) : Int × ams581vf01 :=
  let r := ams581vf01_off env ctx
  (0, { r.2 with trace := r.2.trace ++
    [Op.gpiod_set_value_cansleep 1, Op.regulator_bulk_disable ams581vf01_num_supplies] })

/-! ## Mode descriptors -/

/-- The fields of `struct drm_display_mode` that the drivers set (`clock` is in
kHz; all are C `int` or `u16` values). -/
structure drm_display_mode where
  clock : Nat
  hdisplay : Nat
  hsync_start : Nat
  hsync_end : Nat
  htotal : Nat
  vdisplay : Nat
  vsync_start : Nat
  vsync_end : Nat
  vtotal : Nat
  width_mm : Nat
  height_mm : Nat
deriving DecidableEq, Repr

/-- Source: `nt36672c_tianma_mode`. -/
def nt36672c_tianma_mode : drm_display_mode :=
  { clock := (1080 + 73 + 12 + 40) * (2400 + 32 + 2 + 30) * 120 / 1000,
    hdisplay := 1080,
    hsync_start := 1080 + 73,
    hsync_end := 1080 + 73 + 12,
    htotal := 1080 + 73 + 12 + 40,
    vdisplay := 2400,
    vsync_start := 2400 + 32,
    vsync_end := 2400 + 32 + 2,
    vtotal := 2400 + 32 + 2 + 30,
    width_mm := 70,
    height_mm := 154 }

/-- Source: `ams581vf01_mode`. -/
def ams581vf01_mode : drm_display_mode :=
  { clock := (1080 + 32 + 73 + 98) * (2340 + 8 + 1 + 8) * 60 / 1000,
    hdisplay := 1080,
    hsync_start := 1080 + 32,
    hsync_end := 1080 + 32 + 73,
    htotal := 1080 + 32 + 73 + 98,
    vdisplay := 2340,
    vsync_start := 2340 + 8,
    vsync_end := 2340 + 8 + 1,
    vtotal := 2340 + 8 + 1 + 8,
    width_mm := 62,
    height_mm := 134 }

/-- Source: `visionox_g2647fb105_mode`. -/
def visionox_g2647fb105_mode : drm_display_mode :=
  { clock := (1080 + 28 + 4 + 36) * (2340 + 8 + 4 + 4) * 60 / 1000,
    hdisplay := 1080,
    hsync_start := 1080 + 28,
    hsync_end := 1080 + 28 + 4,
    htotal := 1080 + 28 + 4 + 36,
    vdisplay := 2340,
    vsync_start := 2340 + 8,
    vsync_end := 2340 + 8 + 4,
    vtotal := 2340 + 8 + 4 + 4,
    width_mm := 69,
    height_mm := 149 }

/-! ## DSC configuration -/

/-- The fields of `struct drm_dsc_config` that `nt36672c_tianma_probe` sets. -/
structure drm_dsc_config where
  dsc_version_major : Nat
  dsc_version_minor : Nat
  slice_height : Nat
  slice_width : Nat
  slice_count : Nat
  bits_per_component : Nat
  bits_per_pixel : Nat
  block_pred_enable : Bool
deriving DecidableEq, Repr

/-- Source: `nt36672c_tianma_probe`, the assignments to `ctx->dsc`; `slice_count`
is computed from the `slice_width` just stored. -/
def nt36672c_tianma_probe_dsc : drm_dsc_config :=
  { dsc_version_major := 1,
    dsc_version_minor := 1,
    slice_height := 20,
    slice_width := 540,
    slice_count := 1080 / 540,
    bits_per_component := 8,
    bits_per_pixel := 8 <<< 4,
    block_pred_enable := true }

/-- Source: `nt36672c_tianma_probe`, the argument of `WARN_ON`; the warning fires
when it is non-zero. -/
def nt36672c_tianma_probe_warn_on (dsc : drm_dsc_config) : Nat :=
  1080 % dsc.slice_width

/-! ## Backlight -/

/-- `MIPI_DSI_MODE_LPM` is `BIT(11)` (include/drm/drm_mipi_dsi.h). -/
def MIPI_DSI_MODE_LPM : Nat := 1 <<< 11
/-- `MIPI_DSI_MODE_VIDEO_BURST` is `BIT(1)` (include/drm/drm_mipi_dsi.h). -/
def MIPI_DSI_MODE_VIDEO_BURST : Nat := 1 <<< 1
/-- `MIPI_DSI_CLOCK_NON_CONTINUOUS` is `BIT(10)` (include/drm/drm_mipi_dsi.h). -/
def MIPI_DSI_CLOCK_NON_CONTINUOUS : Nat := 1 <<< 10

/-- The width of `unsigned long`, the type of `dsi->mode_flags`. -/
def LONG_BITS : Nat := 64

/-- The data of `struct mipi_dsi_device` that the backlight callbacks use, with
the history of the calls made on the device. -/
structure mipi_dsi_device where
  mode_flags : Nat
  trace : List Op
deriving DecidableEq, Repr

/-- Source: `visionox_g2647fb105_bl_update_status`.  `bl_brightness` is the
value of `backlight_get_brightness(bl)`, stored in the `u16` local. -/
def visionox_g2647fb105_bl_update_status (env : Env) (dsi : mipi_dsi_device)
    (bl_brightness : Nat) : Int × mipi_dsi_device :=
  let brightness := bl_brightness % 2 ^ 16
  let dsi := { dsi with
    mode_flags := dsi.mode_flags &&& ((2 ^ LONG_BITS - 1) ^^^ MIPI_DSI_MODE_LPM) }
  let ret := env.result dsi.trace.length
  let dsi := { dsi with
    trace := dsi.trace ++ [Op.mipi_dsi_dcs_set_display_brightness_large brightness] }
  if ret < 0 then (ret, dsi) else
  let dsi := { dsi with mode_flags := dsi.mode_flags ||| MIPI_DSI_MODE_LPM }
  (0, dsi)

/-- Source: `ams581vf01_bl_update_status`.  `bl_brightness` is the value of
`backlight_get_brightness(bl)`, stored in the `u16` local. -/
def ams581vf01_bl_update_status (env : Env) (dsi : mipi_dsi_device)
    (bl_brightness : Nat) : Int × mipi_dsi_device :=
  let brightness := bl_brightness % 2 ^ 16
  let dsi := { dsi with
    mode_flags := dsi.mode_flags &&& ((2 ^ LONG_BITS - 1) ^^^ MIPI_DSI_MODE_LPM) }
  let ret := env.result dsi.trace.length
  let dsi := { dsi with
    trace := dsi.trace ++ [Op.mipi_dsi_dcs_set_display_brightness_large brightness] }
  if ret < 0 then (ret, dsi) else
  let dsi := { dsi with mode_flags := dsi.mode_flags ||| MIPI_DSI_MODE_LPM }
  (0, dsi)

/-! ## Observations on histories and concrete fixtures -/

/-- The statement tests the result of its call. -/
def Step.is_checked : Step → Bool
  | Step.checked _ => true
  | Step.plain _ => false

/-- The value a call writes to the reset GPIO, if it is such a write. -/
def Op.gpio_value : Op → Option Nat
  | Op.gpiod_set_value_cansleep v => some v
  | _ => none

/-- The value last written to the reset GPIO in a history. -/
def last_gpio (tr : List Op) : Option Nat :=
  (tr.filterMap Op.gpio_value).getLast?

/-- The call enables or disables the supplies. -/
def Op.is_regulator : Op → Bool
  | Op.regulator_bulk_enable _ => true
  | Op.regulator_bulk_disable _ => true
  | _ => false

/-- Net number of enables that the calls `ops`, made as calls number `t`,
`t + 1`, ... leave on the supplies: a `regulator_bulk_enable` counts one when
it succeeded (a failing one leaves no supply enabled), a
`regulator_bulk_disable` takes one away. -/
def regulator_enable_count (env : Env) : Nat → List Op → Int
  | _, [] => 0
  | t, Op.regulator_bulk_enable _ :: ops =>
    (if env.result t < 0 then 0 else 1) + regulator_enable_count env (t + 1) ops
  | t, Op.regulator_bulk_disable _ :: ops => -1 + regulator_enable_count env (t + 1) ops
  | t, _ :: ops => regulator_enable_count env (t + 1) ops

/-- The position of the first call of a history that satisfies `p`, or the
length of the history when there is none. -/
def first_index (p : Op → Bool) (tr : List Op) : Nat :=
  tr.findIdx p

/-- The call is a delay. -/
def Op.is_delay : Op → Bool
  | Op.usleep_range _ _ => true
  | Op.msleep _ => true
  | _ => false

/-- The order required of a bring-up history made of the reset pulse `pulse`
followed by the calls `body` of the power-on sequence: `pulse` starts with a
write to the reset GPIO, holds nothing but such writes and delays and leaves
the reset GPIO at 0; `body` starts with a DSI command and holds no write to the
reset GPIO, and in `body` the first exit-sleep-mode comes before the first
set-display-on, which is sent. -/
def bring_up_ordered (pulse body : List Op) : Bool :=
  (pulse.head?.map Op.is_gpio == some true) &&
  pulse.all (fun op => Op.is_gpio op || Op.is_delay op) &&
  (last_gpio pulse == some 0) &&
  (body.head?.map Op.is_dsi == some true) &&
  body.all (fun op => !Op.is_gpio op) &&
  decide (first_index (fun op => op == Op.mipi_dsi_dcs_exit_sleep_mode) body <
    first_index (fun op => op == Op.mipi_dsi_dcs_set_display_on) body) &&
  decide (first_index (fun op => op == Op.mipi_dsi_dcs_set_display_on) body < body.length)

/-- The order required of the calls `body` of a power-off sequence: no write to
the reset GPIO, and the first set-display-off comes before the first
enter-sleep-mode, which is sent. -/
def power_down_ordered (body : List Op) : Bool :=
  body.all (fun op => !Op.is_gpio op) &&
  decide (first_index (fun op => op == Op.mipi_dsi_dcs_set_display_off) body <
    first_index (fun op => op == Op.mipi_dsi_dcs_enter_sleep_mode) body) &&
  decide (first_index (fun op => op == Op.mipi_dsi_dcs_enter_sleep_mode) body < body.length)

/-- An environment in which every call succeeds. -/
def env_ok : Env :=
  { result := fun _ => 0 }

/-- An environment in which the call made as call number `t` fails with `-EIO`
(-5) and every other call succeeds. -/
def env_fail_at (t : Nat) : Env :=
  { result := fun n => if n = t then -5 else 0 }

/-- The visionox panel after probe: not prepared, no call made yet. -/
def demo_visionox : visionox_g2647fb105 :=
  { prepared := false, trace := [] }

/-- The nt36672c panel after probe: not prepared, no call made yet. -/
def demo_nt36672c : nt36672c_tianma :=
  { prepared := false, trace := [] }

/-- The ams581vf01 panel after probe: no call made yet. -/
def demo_ams581vf01 : ams581vf01 :=
  { trace := [] }

/-- The DSI device of the visionox and ams581vf01 panels after probe: `mode_flags` as the probe
sets them, no call made yet. -/
def demo_dsi : mipi_dsi_device :=
  { mode_flags := MIPI_DSI_MODE_VIDEO_BURST ||| MIPI_DSI_CLOCK_NON_CONTINUOUS |||
      MIPI_DSI_MODE_LPM,
    trace := [] }

end Panel

/-!
# SM7150 LPASS LPI pin controller (`drivers/pinctrl/qcom/pinctrl-sm7150-lpass-lpi.c`)

The driver consists of its tables, which the shared LPI pinctrl library reads.
The tables are kept as lists in the order in which the source writes them; the
macros `PINCTRL_PIN`, `LPI_PINGROUP` and `LPI_FUNCTION` of the kernel headers
are functions that build one entry.
-/

namespace LpassLpi

/-! ## The tables -/

/-- Source: `enum lpass_lpi_functions`. -/
inductive lpass_lpi_functions where
  | LPI_MUX_audio_ref
  | LPI_MUX_cdc_pdm_rx
  | LPI_MUX_dmic1_clk
  | LPI_MUX_dmic1_data
  | LPI_MUX_dmic2_clk
  | LPI_MUX_dmic2_data
  | LPI_MUX_qdss_cti
  | LPI_MUX_gp_pdm
  | LPI_MUX_prim_mclk_a
  | LPI_MUX_prim_mclk_b
  | LPI_MUX_qca_sb_clk
  | LPI_MUX_qca_sb_data
  | LPI_MUX_qua_mi2s_data
  | LPI_MUX_qua_mi2s_sclk
  | LPI_MUX_qua_mi2s_ws
  | LPI_MUX_slimbus_clk
  | LPI_MUX_slimbus_data
  | LPI_MUX_swr_rx_clk
  | LPI_MUX_swr_rx_data
  | LPI_MUX_swr_tx_clk
  | LPI_MUX_swr_tx_data
  | LPI_MUX_gpio
  | LPI_MUX__
deriving DecidableEq, Repr

open lpass_lpi_functions

/-- Numeric value of the enumerators of `enum lpass_lpi_functions`: they count
up from 0 in the order of declaration. -/
def lpass_lpi_functions.val : lpass_lpi_functions → Nat
  | LPI_MUX_audio_ref => 0
  | LPI_MUX_cdc_pdm_rx => 1
  | LPI_MUX_dmic1_clk => 2
  | LPI_MUX_dmic1_data => 3
  | LPI_MUX_dmic2_clk => 4
  | LPI_MUX_dmic2_data => 5
  | LPI_MUX_qdss_cti => 6
  | LPI_MUX_gp_pdm => 7
  | LPI_MUX_prim_mclk_a => 8
  | LPI_MUX_prim_mclk_b => 9
  | LPI_MUX_qca_sb_clk => 10
  | LPI_MUX_qca_sb_data => 11
  | LPI_MUX_qua_mi2s_data => 12
  | LPI_MUX_qua_mi2s_sclk => 13
  | LPI_MUX_qua_mi2s_ws => 14
  | LPI_MUX_slimbus_clk => 15
  | LPI_MUX_slimbus_data => 16
  | LPI_MUX_swr_rx_clk => 17
  | LPI_MUX_swr_rx_data => 18
  | LPI_MUX_swr_tx_clk => 19
  | LPI_MUX_swr_tx_data => 20
  | LPI_MUX_gpio => 21
  | LPI_MUX__ => 22

/-- Kernel `struct pinctrl_pin_desc`, the fields `PINCTRL_PIN(number, name)` sets. -/
structure pinctrl_pin_desc where
  number : Nat
  name : String
deriving DecidableEq, Repr

/-- Kernel macro `PINCTRL_PIN`. -/
def PINCTRL_PIN (number : Nat) (name : String) : pinctrl_pin_desc :=
  { number := number, name := name }

/-- Source: `sm7150_lpi_pins`. -/
def sm7150_lpi_pins : List pinctrl_pin_desc :=
  [ PINCTRL_PIN 0 "gpio0",
    PINCTRL_PIN 1 "gpio1",
    PINCTRL_PIN 2 "gpio2",
    PINCTRL_PIN 3 "gpio3",
    PINCTRL_PIN 4 "gpio4",
    PINCTRL_PIN 5 "gpio5",
    PINCTRL_PIN 6 "gpio6",
    PINCTRL_PIN 7 "gpio7",
    PINCTRL_PIN 8 "gpio8",
    PINCTRL_PIN 9 "gpio9",
    PINCTRL_PIN 10 "gpio10",
    PINCTRL_PIN 11 "gpio11",
    PINCTRL_PIN 12 "gpio12",
    PINCTRL_PIN 13 "gpio13" ]

/-- Source: `gpio_groups`. -/
def gpio_groups : List String :=
  [ "gpio0", "gpio1", "gpio2", "gpio3", "gpio4", "gpio5", "gpio6",
    "gpio7", "gpio8", "gpio9", "gpio10", "gpio11", "gpio12", "gpio13" ]

/-! Source: the `*_groups` arrays of the alternate functions. -/
def audio_ref_groups : List String := ["gpio1"]
def cdc_pdm_rx_groups : List String := ["gpio6"]
def dmic1_clk_groups : List String := ["gpio8"]
def dmic1_data_groups : List String := ["gpio9"]
def dmic2_clk_groups : List String := ["gpio10"]
def dmic2_data_groups : List String := ["gpio11"]
def qdss_cti_groups : List String := ["gpio9", "gpio10"]
def gp_pdm_groups : List String := ["gpio10"]
def prim_mclk_a_groups : List String := ["gpio4"]
def prim_mclk_b_groups : List String := ["gpio11"]
def qca_sb_clk_groups : List String := ["gpio13"]
def qca_sb_data_groups : List String := ["gpio12"]
def qua_mi2s_data_groups : List String := ["gpio7", "gpio8", "gpio9", "gpio10"]
def qua_mi2s_sclk_groups : List String := ["gpio5"]
def qua_mi2s_ws_groups : List String := ["gpio6"]
def slimbus_clk_groups : List String := ["gpio0"]
def slimbus_data_groups : List String := ["gpio2", "gpio3", "gpio4"]
def swr_rx_clk_groups : List String := ["gpio3"]
def swr_rx_data_groups : List String := ["gpio4", "gpio5"]
def swr_tx_clk_groups : List String := ["gpio0"]
def swr_tx_data_groups : List String := ["gpio1", "gpio2", "gpio5"]

/-- `LPI_NO_SLEW` of pinctrl-lpass-lpi.h. -/
def LPI_NO_SLEW : Int := -1

/-- The fields of `struct lpi_pingroup` (pinctrl-lpass-lpi.h) that
`LPI_PINGROUP` sets; `funcs` has `nfuncs` = 5 entries. -/
structure lpi_pingroup where
  pin : Nat
  slew_offset : Int
  funcs : List lpass_lpi_functions
deriving DecidableEq, Repr

/-- Macro `LPI_PINGROUP(id, soff, f1, f2, f3, f4)` of pinctrl-lpass-lpi.h: the
function list is `LPI_MUX_gpio` followed by the four alternate functions, `_`
standing for the empty slot `LPI_MUX__`. -/
def LPI_PINGROUP (id : Nat) (soff : Int) (f1 f2 f3 f4 : lpass_lpi_functions) : lpi_pingroup :=
  { pin := id, slew_offset := soff, funcs := [LPI_MUX_gpio, f1, f2, f3, f4] }

/-- Source: `sm7150_groups`. -/
def sm7150_groups : List lpi_pingroup :=
  [ LPI_PINGROUP 0 0 LPI_MUX_slimbus_clk LPI_MUX_swr_tx_clk LPI_MUX__ LPI_MUX__,
    LPI_PINGROUP 1 2 LPI_MUX_swr_tx_data LPI_MUX_audio_ref LPI_MUX__ LPI_MUX__,
    LPI_PINGROUP 2 4 LPI_MUX_slimbus_data LPI_MUX_swr_tx_data LPI_MUX__ LPI_MUX__,
    LPI_PINGROUP 3 8 LPI_MUX_slimbus_data LPI_MUX_swr_rx_clk LPI_MUX__ LPI_MUX__,
    LPI_PINGROUP 4 10 LPI_MUX_slimbus_data LPI_MUX_swr_rx_data LPI_MUX_prim_mclk_a LPI_MUX__,
    LPI_PINGROUP 5 6 LPI_MUX_qua_mi2s_sclk LPI_MUX__ LPI_MUX_swr_rx_data LPI_MUX_swr_tx_data,
    LPI_PINGROUP 6 LPI_NO_SLEW LPI_MUX_qua_mi2s_ws LPI_MUX_cdc_pdm_rx LPI_MUX__ LPI_MUX__,
    LPI_PINGROUP 7 LPI_NO_SLEW LPI_MUX_qua_mi2s_data LPI_MUX__ LPI_MUX__ LPI_MUX__,
    LPI_PINGROUP 8 LPI_NO_SLEW LPI_MUX_qua_mi2s_data LPI_MUX_dmic1_clk LPI_MUX__ LPI_MUX__,
    LPI_PINGROUP 9 LPI_NO_SLEW LPI_MUX_qua_mi2s_data LPI_MUX_dmic1_data LPI_MUX_qdss_cti
      LPI_MUX__,
    LPI_PINGROUP 10 LPI_NO_SLEW LPI_MUX_qua_mi2s_data LPI_MUX_dmic2_clk LPI_MUX_gp_pdm
      LPI_MUX_qdss_cti,
    LPI_PINGROUP 11 LPI_NO_SLEW LPI_MUX_prim_mclk_b LPI_MUX_dmic2_data LPI_MUX__ LPI_MUX__,
    LPI_PINGROUP 12 LPI_NO_SLEW LPI_MUX_qca_sb_data LPI_MUX__ LPI_MUX__ LPI_MUX__,
    LPI_PINGROUP 13 LPI_NO_SLEW LPI_MUX_qca_sb_clk LPI_MUX__ LPI_MUX__ LPI_MUX__ ]

/-- One entry of `sm7150_functions`: the enumerator that `LPI_FUNCTION` builds
from the function name, the name and the group list. -/
structure lpi_function where
  mux : lpass_lpi_functions
  name : String
  groups : List String
deriving DecidableEq, Repr

/-- Macro `LPI_FUNCTION(fname)` of pinctrl-lpass-lpi.h: from the one token
`fname` it builds the enumerator `LPI_MUX_fname`, the name `"fname"` and the
group list `fname_groups`, passed here one by one. -/
def LPI_FUNCTION (mux : lpass_lpi_functions) (name : String) (groups : List String) :
    lpi_function :=
  { mux := mux, name := name, groups := groups }

/-- Source: `sm7150_functions`, the entries in the order in which they are
written. -/
def sm7150_functions : List lpi_function :=
  [ LPI_FUNCTION LPI_MUX_audio_ref "audio_ref" audio_ref_groups,
    LPI_FUNCTION LPI_MUX_cdc_pdm_rx "cdc_pdm_rx" cdc_pdm_rx_groups,
    LPI_FUNCTION LPI_MUX_dmic1_clk "dmic1_clk" dmic1_clk_groups,
    LPI_FUNCTION LPI_MUX_dmic1_data "dmic1_data" dmic1_data_groups,
    LPI_FUNCTION LPI_MUX_dmic2_clk "dmic2_clk" dmic2_clk_groups,
    LPI_FUNCTION LPI_MUX_dmic2_data "dmic2_data" dmic2_data_groups,
    LPI_FUNCTION LPI_MUX_qdss_cti "qdss_cti" qdss_cti_groups,
    LPI_FUNCTION LPI_MUX_gp_pdm "gp_pdm" gp_pdm_groups,
    LPI_FUNCTION LPI_MUX_prim_mclk_a "prim_mclk_a" prim_mclk_a_groups,
    LPI_FUNCTION LPI_MUX_prim_mclk_b "prim_mclk_b" prim_mclk_b_groups,
    LPI_FUNCTION LPI_MUX_qca_sb_clk "qca_sb_clk" qca_sb_clk_groups,
    LPI_FUNCTION LPI_MUX_qca_sb_data "qca_sb_data" qca_sb_data_groups,
    LPI_FUNCTION LPI_MUX_qua_mi2s_data "qua_mi2s_data" qua_mi2s_data_groups,
    LPI_FUNCTION LPI_MUX_qua_mi2s_sclk "qua_mi2s_sclk" qua_mi2s_sclk_groups,
    LPI_FUNCTION LPI_MUX_qua_mi2s_ws "qua_mi2s_ws" qua_mi2s_ws_groups,
    LPI_FUNCTION LPI_MUX_slimbus_clk "slimbus_clk" slimbus_clk_groups,
    LPI_FUNCTION LPI_MUX_slimbus_data "slimbus_data" slimbus_data_groups,
    LPI_FUNCTION LPI_MUX_swr_rx_clk "swr_rx_clk" swr_rx_clk_groups,
    LPI_FUNCTION LPI_MUX_swr_rx_data "swr_rx_data" swr_rx_data_groups,
    LPI_FUNCTION LPI_MUX_swr_tx_clk "swr_tx_clk" swr_tx_clk_groups,
    LPI_FUNCTION LPI_MUX_swr_tx_data "swr_tx_data" swr_tx_data_groups,
    LPI_FUNCTION LPI_MUX_gpio "gpio" gpio_groups ]

/-- The name of pin `n`: the text "gpio" followed by the decimal digits of `n`. -/
def pin_name (n : Nat) : String :=
  "gpio" ++ toString n

/-- The group list of function `f`: that of its entry in `sm7150_functions`
(empty when it has none). -/
def groups_of (f : lpass_lpi_functions) : List String :=
  match sm7150_functions.find? (fun e => e.mux == f) with
  | some e => e.groups
  | none => []

/-- The four alternate-function slots of a pin group: its function list without
the leading `LPI_MUX_gpio`. -/
def lpi_pingroup.alt_funcs (g : lpi_pingroup) : List lpass_lpi_functions :=
  g.funcs.drop 1

end LpassLpi

/-!
# SMB5 charger (`drivers/power/supply/qcom_smb5.c`)

The property callback of the power supply: it reads no device state, so it is a
function of the requested property and of the content of `*val` on entry.
-/

namespace Smb5

/-! ## The property callback -/

/-- Kernel errno `EINVAL` (include/uapi/asm-generic/errno-base.h). -/
def EINVAL : Int := 22

/-- Kernel `enum power_supply_property` (include/linux/power_supply.h):
`POWER_SUPPLY_PROP_MANUFACTURER`, the one enumerator the driver names, and any
other value `psp`, kept with the number the caller passed. -/
inductive power_supply_property where
  | POWER_SUPPLY_PROP_MANUFACTURER
  | other (psp : Nat)
deriving DecidableEq, Repr

/-- Kernel `union power_supply_propval`: either member is read back as stored. -/
inductive power_supply_propval where
  | intval (v : Int)
  | strval (s : String)
deriving DecidableEq, Repr

/-- Source: `smb5_props`. -/
def smb5_props : List power_supply_property :=
  [power_supply_property.POWER_SUPPLY_PROP_MANUFACTURER]

/-- Source: `smb5_get_property`; the result is the return value and the content
of `*val` on return. -/
def smb5_get_property (psp : power_supply_property) (val : power_supply_propval) :
    Int × power_supply_propval :=
  match psp with
  | power_supply_property.POWER_SUPPLY_PROP_MANUFACTURER =>
    (0, power_supply_propval.strval "Qualcomm")
  | _ => (-EINVAL, val)

end Smb5

namespace AW3644

/-! ## Theorems -/

/-! ### Projections of the state updates -/

@[simp] theorem emit_fields (c : aw3644_chip_data) (e : Event) :
    (emit c e).num_leds = c.num_leds ∧
    (emit c e).torch_leds0 = c.torch_leds0 ∧
    (emit c e).torch_leds1 = c.torch_leds1 ∧
    (emit c e).br_ir = c.br_ir ∧
    (emit c e).powerup_status = c.powerup_status ∧
    (emit c e).pdata = c.pdata ∧
    (emit c e).chip_id = c.chip_id ∧
    (emit c e).last_flag1 = c.last_flag1 ∧
    (emit c e).last_flag2 = c.last_flag2 ∧
    (emit c e).pwm = c.pwm ∧
    (emit c e).ito_exception = c.ito_exception ∧
    (emit c e).trace = c.trace ++ [e] :=
  ⟨rfl, rfl, rfl, rfl, rfl, rfl, rfl, rfl, rfl, rfl, rfl, rfl⟩

@[simp] theorem set_last_flag1_fields (c : aw3644_chip_data) (v : Nat) :
    (set_last_flag1 c v).num_leds = c.num_leds ∧
    (set_last_flag1 c v).torch_leds0 = c.torch_leds0 ∧
    (set_last_flag1 c v).torch_leds1 = c.torch_leds1 ∧
    (set_last_flag1 c v).br_ir = c.br_ir ∧
    (set_last_flag1 c v).powerup_status = c.powerup_status ∧
    (set_last_flag1 c v).pdata = c.pdata ∧
    (set_last_flag1 c v).chip_id = c.chip_id ∧
    (set_last_flag1 c v).last_flag1 = v ∧
    (set_last_flag1 c v).last_flag2 = c.last_flag2 ∧
    (set_last_flag1 c v).pwm = c.pwm ∧
    (set_last_flag1 c v).ito_exception = c.ito_exception ∧
    (set_last_flag1 c v).trace = c.trace :=
  ⟨rfl, rfl, rfl, rfl, rfl, rfl, rfl, rfl, rfl, rfl, rfl, rfl⟩

@[simp] theorem set_last_flag2_fields (c : aw3644_chip_data) (v : Nat) :
    (set_last_flag2 c v).num_leds = c.num_leds ∧
    (set_last_flag2 c v).torch_leds0 = c.torch_leds0 ∧
    (set_last_flag2 c v).torch_leds1 = c.torch_leds1 ∧
    (set_last_flag2 c v).br_ir = c.br_ir ∧
    (set_last_flag2 c v).powerup_status = c.powerup_status ∧
    (set_last_flag2 c v).pdata = c.pdata ∧
    (set_last_flag2 c v).chip_id = c.chip_id ∧
    (set_last_flag2 c v).last_flag1 = c.last_flag1 ∧
    (set_last_flag2 c v).last_flag2 = v ∧
    (set_last_flag2 c v).pwm = c.pwm ∧
    (set_last_flag2 c v).ito_exception = c.ito_exception ∧
    (set_last_flag2 c v).trace = c.trace :=
  ⟨rfl, rfl, rfl, rfl, rfl, rfl, rfl, rfl, rfl, rfl, rfl, rfl⟩

@[simp] theorem set_powerup_status_fields (c : aw3644_chip_data) (v : Bool) :
    (set_powerup_status c v).num_leds = c.num_leds ∧
    (set_powerup_status c v).torch_leds0 = c.torch_leds0 ∧
    (set_powerup_status c v).torch_leds1 = c.torch_leds1 ∧
    (set_powerup_status c v).br_ir = c.br_ir ∧
    (set_powerup_status c v).powerup_status = v ∧
    (set_powerup_status c v).pdata = c.pdata ∧
    (set_powerup_status c v).chip_id = c.chip_id ∧
    (set_powerup_status c v).last_flag1 = c.last_flag1 ∧
    (set_powerup_status c v).last_flag2 = c.last_flag2 ∧
    (set_powerup_status c v).pwm = c.pwm ∧
    (set_powerup_status c v).ito_exception = c.ito_exception ∧
    (set_powerup_status c v).trace = c.trace :=
  ⟨rfl, rfl, rfl, rfl, rfl, rfl, rfl, rfl, rfl, rfl, rfl, rfl⟩

@[simp] theorem set_br_ir_fields (c : aw3644_chip_data) (v : Nat) :
    (set_br_ir c v).num_leds = c.num_leds ∧
    (set_br_ir c v).torch_leds0 = c.torch_leds0 ∧
    (set_br_ir c v).torch_leds1 = c.torch_leds1 ∧
    (set_br_ir c v).br_ir = v ∧
    (set_br_ir c v).powerup_status = c.powerup_status ∧
    (set_br_ir c v).pdata = c.pdata ∧
    (set_br_ir c v).chip_id = c.chip_id ∧
    (set_br_ir c v).last_flag1 = c.last_flag1 ∧
    (set_br_ir c v).last_flag2 = c.last_flag2 ∧
    (set_br_ir c v).pwm = c.pwm ∧
    (set_br_ir c v).ito_exception = c.ito_exception ∧
    (set_br_ir c v).trace = c.trace :=
  ⟨rfl, rfl, rfl, rfl, rfl, rfl, rfl, rfl, rfl, rfl, rfl, rfl⟩

@[simp] theorem set_chip_id_fields (c : aw3644_chip_data) (v : Nat) :
    (set_chip_id c v).num_leds = c.num_leds ∧
    (set_chip_id c v).torch_leds0 = c.torch_leds0 ∧
    (set_chip_id c v).torch_leds1 = c.torch_leds1 ∧
    (set_chip_id c v).br_ir = c.br_ir ∧
    (set_chip_id c v).powerup_status = c.powerup_status ∧
    (set_chip_id c v).pdata = c.pdata ∧
    (set_chip_id c v).chip_id = v ∧
    (set_chip_id c v).last_flag1 = c.last_flag1 ∧
    (set_chip_id c v).last_flag2 = c.last_flag2 ∧
    (set_chip_id c v).pwm = c.pwm ∧
    (set_chip_id c v).ito_exception = c.ito_exception ∧
    (set_chip_id c v).trace = c.trace :=
  ⟨rfl, rfl, rfl, rfl, rfl, rfl, rfl, rfl, rfl, rfl, rfl, rfl⟩

@[simp] theorem set_ito_exception_fields (c : aw3644_chip_data) (v : Int) :
    (set_ito_exception c v).num_leds = c.num_leds ∧
    (set_ito_exception c v).torch_leds0 = c.torch_leds0 ∧
    (set_ito_exception c v).torch_leds1 = c.torch_leds1 ∧
    (set_ito_exception c v).br_ir = c.br_ir ∧
    (set_ito_exception c v).powerup_status = c.powerup_status ∧
    (set_ito_exception c v).pdata = c.pdata ∧
    (set_ito_exception c v).chip_id = c.chip_id ∧
    (set_ito_exception c v).last_flag1 = c.last_flag1 ∧
    (set_ito_exception c v).last_flag2 = c.last_flag2 ∧
    (set_ito_exception c v).pwm = c.pwm ∧
    (set_ito_exception c v).ito_exception = v ∧
    (set_ito_exception c v).trace = c.trace :=
  ⟨rfl, rfl, rfl, rfl, rfl, rfl, rfl, rfl, rfl, rfl, rfl, rfl⟩

@[simp] theorem set_led_brightness_fields (c : aw3644_chip_data) (i : Fin 2) (b : Nat) :
    (c.set_led_brightness i b).num_leds = c.num_leds ∧
    (c.set_led_brightness i b).br_ir = c.br_ir ∧
    (c.set_led_brightness i b).powerup_status = c.powerup_status ∧
    (c.set_led_brightness i b).pdata = c.pdata ∧
    (c.set_led_brightness i b).chip_id = c.chip_id ∧
    (c.set_led_brightness i b).last_flag1 = c.last_flag1 ∧
    (c.set_led_brightness i b).last_flag2 = c.last_flag2 ∧
    (c.set_led_brightness i b).pwm = c.pwm ∧
    (c.set_led_brightness i b).ito_exception = c.ito_exception ∧
    (c.set_led_brightness i b).trace = c.trace := by
  unfold aw3644_chip_data.set_led_brightness
  split <;> exact ⟨rfl, rfl, rfl, rfl, rfl, rfl, rfl, rfl, rfl, rfl⟩

theorem set_led_brightness_self (c : aw3644_chip_data) (i : Fin 2) (b : Nat) :
    ((c.set_led_brightness i b).torch_leds i).brightness = b := by
  unfold aw3644_chip_data.set_led_brightness aw3644_chip_data.torch_leds
  split <;> simp_all

theorem set_led_brightness_other (c : aw3644_chip_data) (i j : Fin 2) (b : Nat) (h : j ≠ i) :
    (c.set_led_brightness i b).torch_leds j = c.torch_leds j := by
  fin_cases i <;> fin_cases j <;>
  simp_all [aw3644_chip_data.set_led_brightness, aw3644_chip_data.torch_leds]

theorem set_led_brightness_num (c : aw3644_chip_data) (i j : Fin 2) (b : Nat) :
    ((c.set_led_brightness i b).torch_leds j).num = (c.torch_leds j).num := by
  unfold aw3644_chip_data.set_led_brightness aw3644_chip_data.torch_leds
  by_cases hi : i = 0 <;> by_cases hj : j = 0 <;> simp_all

theorem reg_writes_append (xs ys : List Event) :
    reg_writes (xs ++ ys) = reg_writes xs ++ reg_writes ys := by
  induction xs with
  | nil => rfl
  | cons e es ih => cases e <;> simp [reg_writes, ih]

/-- With successful writes the torch case performs its three writes and yields 0. -/
theorem control_torch_ok (hw : Hw) (c : aw3644_chip_data) (b val : Nat)
    (hwr : ∀ t reg v, hw.regmap_write t reg v = 0) :
    aw3644_control_torch hw c b val =
      (0, { c with trace := c.trace ++
        [.regmap_write REG_ENABLE
            (if hw.gpio_is_valid c.pdata.torch_gpio then val ||| shl32 1 TORCH_PIN_ENABLE_SHIFT
              else val),
          .regmap_write REG_LED1_TORCH_BRIGHTNESS (b ||| LED2_CURRENT_EQUAL),
          .regmap_write REG_LED2_TORCH_BRIGHTNESS b] }) := by
  simp [aw3644_control_torch, regmap_write, emit, hwr]

/-- With successful writes the IR case performs its three writes; its result is
that of `pwm_enable` when the simulated PWM is in use, and 0 otherwise. -/
theorem control_ir_writes (hw : Hw) (c : aw3644_chip_data) (b val : Nat)
    (hwr : ∀ t reg v, hw.regmap_write t reg v = 0) :
    reg_writes (aw3644_control_ir hw c b val).2.trace = reg_writes c.trace ++
        [(REG_ENABLE, val ||| shl32 1 STROBE_EN_SHIFT),
          (REG_LED1_FLASH_BRIGHTNESS, b ||| LED2_CURRENT_EQUAL),
          (REG_LED2_FLASH_BRIGHTNESS, b)] ∧
    (aw3644_control_ir hw c b val).1 =
      (if c.pdata.use_simulative_pwm = true ∧ c.pwm = true then
        hw.pwm_enable (c.trace.length + 3) else 0) := by
  by_cases hp : c.pdata.use_simulative_pwm = true ∧ c.pwm = true
  · by_cases hneg : hw.pwm_enable (c.trace.length + 3) < 0 <;>
    by_cases ht : 0 < c.pdata.ir_prot_time <;>
    simp [aw3644_control_ir, regmap_write, pwm_enable, emit, hwr, hp, hneg, ht,
      reg_writes_append, reg_writes]
  · by_cases ht : 0 < c.pdata.ir_prot_time <;>
    simp [aw3644_control_ir, regmap_write, pwm_enable, emit, hwr, hp, ht, reg_writes_append,
      reg_writes]

/-- The off-state test only looks at the stored brightness of the two LEDs. -/
theorem needs_suspend_congr (c d : aw3644_chip_data) (h0 : c.torch_leds0 = d.torch_leds0)
    (h1 : c.torch_leds1 = d.torch_leds1) : aw3644_needs_suspend c = aw3644_needs_suspend d := by
  simp [aw3644_needs_suspend, aw3644_chip_data.torch_leds, h0, h1]

theorem needs_suspend_false_iff (c : aw3644_chip_data) :
    aw3644_needs_suspend c = false ↔
      ((c.torch_leds 0).brightness ≠ 0 ∨ (c.torch_leds 1).brightness ≠ 0) := by
  by_cases h0 : c.torch_leds0.brightness = 0 <;>
  simp [aw3644_needs_suspend, aw3644_chip_data.torch_leds, h0]

theorem Extends.refl (c : aw3644_chip_data) : Extends c c :=
  ⟨rfl, rfl, rfl, rfl, rfl, rfl, rfl, rfl, rfl, [], by simp⟩

theorem Extends.trans {c d e : aw3644_chip_data} (h1 : Extends c d) (h2 : Extends d e) :
    Extends c e := by
  obtain ⟨a1, a2, a3, a4, a5, a6, a7, a8, a9, es, a10⟩ := h1
  obtain ⟨b1, b2, b3, b4, b5, b6, b7, b8, b9, fs, b10⟩ := h2
  refine ⟨b1.trans a1, b2.trans a2, b3.trans a3, b4.trans a4, b5.trans a5, b6.trans a6,
    b7.trans a7, b8.trans a8, b9.trans a9, es ++ fs, ?_⟩
  rw [b10, a10, List.append_assoc]

theorem extends_emit (c : aw3644_chip_data) (e : Event) : Extends c (emit c e) :=
  ⟨rfl, rfl, rfl, rfl, rfl, rfl, rfl, rfl, rfl, [e], rfl⟩

theorem extends_flag1 (c : aw3644_chip_data) (v : Nat) : Extends c (set_last_flag1 c v) :=
  ⟨rfl, rfl, rfl, rfl, rfl, rfl, rfl, rfl, rfl, [], by simp [set_last_flag1]⟩

theorem extends_flag2 (c : aw3644_chip_data) (v : Nat) : Extends c (set_last_flag2 c v) :=
  ⟨rfl, rfl, rfl, rfl, rfl, rfl, rfl, rfl, rfl, [], by simp [set_last_flag2]⟩

theorem extends_regmap_write (hw : Hw) (c : aw3644_chip_data) (r v : Nat) :
    Extends c (regmap_write hw c r v).2 := extends_emit c _

theorem extends_regmap_read (hw : Hw) (c : aw3644_chip_data) (r v : Nat) :
    Extends c (regmap_read hw c r v).2.2 := extends_emit c _

/-- Both branches of a conditional extend `c`. -/
theorem extends_ite {c : aw3644_chip_data} {p : Prop} [Decidable p]
    {x y : Int × aw3644_chip_data} (hx : Extends c x.2) (hy : Extends c y.2) :
    Extends c (if p then x else y).2 := by
  split <;> assumption

theorem extends_ite_state {c : aw3644_chip_data} {p : Prop} [Decidable p]
    {x y : aw3644_chip_data} (hx : Extends c x) (hy : Extends c y) :
    Extends c (if p then x else y) := by
  split <;> assumption

theorem extends_control_torch (hw : Hw) (c : aw3644_chip_data) (b v : Nat) :
    Extends c (aw3644_control_torch hw c b v).2 := by
  unfold aw3644_control_torch
  dsimp only
  have e1 := extends_regmap_write hw c REG_ENABLE
    (if hw.gpio_is_valid c.pdata.torch_gpio = true then v ||| shl32 1 TORCH_PIN_ENABLE_SHIFT
      else v)
  have e2 := e1.trans (extends_regmap_write hw _ REG_LED1_TORCH_BRIGHTNESS
    (b ||| LED2_CURRENT_EQUAL))
  have e3 := e2.trans (extends_regmap_write hw _ REG_LED2_TORCH_BRIGHTNESS b)
  exact extends_ite e1 (extends_ite e2 e3)

theorem extends_control_ir (hw : Hw) (c : aw3644_chip_data) (b v : Nat) :
    Extends c (aw3644_control_ir hw c b v).2 := by
  unfold aw3644_control_ir Extends
  simp only [regmap_write, pwm_enable, emit]
  split_ifs <;> simp

theorem extends_control_leave_ir (c : aw3644_chip_data) (m : aw3644_mode) :
    Extends c (aw3644_control_leave_ir c m) := by
  unfold aw3644_control_leave_ir
  dsimp only
  refine extends_ite_state ?_ (Extends.refl c)
  exact ((extends_ite_state (extends_emit c _) (Extends.refl c)).trans
    (extends_emit _ _)).trans (extends_emit _ _)

theorem extends_control_switch (hw : Hw) (c : aw3644_chip_data) (b v : Nat) (ret : Int)
    (m : aw3644_mode) : Extends c (aw3644_control_switch hw c b v ret m).2 := by
  cases m
  · exact extends_regmap_write hw c _ _
  · exact extends_control_ir hw c b v
  · exact extends_control_torch hw c b v
  · exact Extends.refl c

theorem extends_control (hw : Hw) (c : aw3644_chip_data) (b : Nat) (m : aw3644_mode) :
    Extends c (aw3644_control hw c b m).2 := by
  unfold aw3644_control
  dsimp only
  have r1 := (extends_regmap_read hw c REG_FLAG1 c.last_flag1).trans (extends_flag1 _
    (regmap_read hw c REG_FLAG1 c.last_flag1).2.1)
  refine extends_ite (Extends.refl c) (extends_ite r1 (extends_ite ?_ ?_))
  · exact r1.trans ((extends_regmap_read hw _ _ _).trans (extends_flag2 _ _))
  · exact ((r1.trans ((extends_regmap_read hw _ _ _).trans (extends_flag2 _ _))).trans
      (extends_control_leave_ir _ _)).trans (extends_control_switch _ _ _ _ _ _)

/-- The register writes and the result of `aw3644_control` on a powered-up chip with a
lit LED and successful register accesses, per requested mode. -/
theorem aw3644_control_mode_writes (hw : Hw) (chip : aw3644_chip_data) (b : Nat)
    (opmode : aw3644_mode)
    (hpow : chip.powerup_status = true)
    (hrd : ∀ t reg, (hw.regmap_read t reg).1 = 0)
    (hwr : ∀ t reg v, hw.regmap_write t reg v = 0)
    (hled : (chip.torch_leds 0).brightness ≠ 0 ∨ (chip.torch_leds 1).brightness ≠ 0) :
    reg_writes (aw3644_control hw chip b opmode).2.trace = reg_writes chip.trace ++
      (match opmode with
       | .MODES_TORCH =>
          [(0x01, (2 <<< 2)
              ||| shl32 (if (chip.torch_leds 0).brightness ≠ 0 then 1 else 0)
                    (chip.torch_leds 0).num
              ||| shl32 (if (chip.torch_leds 1).brightness ≠ 0 then 1 else 0)
                    (chip.torch_leds 1).num
              ||| (if hw.gpio_is_valid chip.pdata.torch_gpio then 0x10 else 0)),
           (0x05, b ||| 0x80), (0x06, b)]
       | .MODES_IR =>
          [(0x01, (1 <<< 2)
              ||| shl32 (if (chip.torch_leds 0).brightness ≠ 0 then 1 else 0)
                    (chip.torch_leds 0).num
              ||| shl32 (if (chip.torch_leds 1).brightness ≠ 0 then 1 else 0)
                    (chip.torch_leds 1).num
              ||| 0x20),
           (0x03, b ||| 0x80), (0x04, b)]
       | .MODES_STANDBY => [(0x01, 0)]
       | .MODES_FLASH => [(0x01, 0)]) ∧
    (aw3644_control hw chip b opmode).1 =
      (if opmode = .MODES_IR ∧ chip.pdata.use_simulative_pwm = true ∧ chip.pwm = true then
        hw.pwm_enable (chip.trace.length + 5) else 0) := by
  have hns : ∀ c : aw3644_chip_data, c.torch_leds0 = chip.torch_leds0 →
      c.torch_leds1 = chip.torch_leds1 → aw3644_needs_suspend c = false := by
    intro c h0 h1
    rw [needs_suspend_congr c chip h0 h1]
    exact (needs_suspend_false_iff chip).2 hled
  have h16 : shl32 1 4 = 16 := by decide
  have h32 : shl32 1 5 = 32 := by decide
  have h8 : shl32 2 2 = 8 := by decide
  have h4 : shl32 1 2 = 4 := by decide
  cases opmode
  · by_cases hp : chip.pdata.use_simulative_pwm = true ∧ chip.pwm = true <;>
    simp [aw3644_control, aw3644_control_opmode, aw3644_control_leave_ir, aw3644_control_switch, set_last_flag1, set_last_flag2, regmap_read, regmap_write, emit, hpow, hrd, hwr, hns, hp,
      reg_writes_append, reg_writes, REG_ENABLE]
  · simp only [aw3644_control, aw3644_control_opmode, aw3644_control_leave_ir, aw3644_control_switch, set_last_flag1, set_last_flag2, regmap_read, emit, hpow, hrd, hns]
    simp [control_ir_writes _ _ _ _ hwr, reg_writes_append, reg_writes, aw3644_control_val,
      aw3644_chip_data.torch_leds, aw3644_mode.val, REG_ENABLE, REG_LED1_FLASH_BRIGHTNESS,
      REG_LED2_FLASH_BRIGHTNESS, LED2_CURRENT_EQUAL, MODE_BITS_SHIFT, STROBE_EN_SHIFT, h32, h4]
  · by_cases hp : chip.pdata.use_simulative_pwm = true ∧ chip.pwm = true <;>
    by_cases hg : hw.gpio_is_valid chip.pdata.torch_gpio = true <;>
    simp [aw3644_control, aw3644_control_opmode, aw3644_control_leave_ir, aw3644_control_switch, set_last_flag1, set_last_flag2, regmap_read, emit, hpow, hrd, hns, hp, hg,
      control_torch_ok _ _ _ _ hwr, reg_writes_append, reg_writes, aw3644_control_val,
      aw3644_chip_data.torch_leds, aw3644_mode.val, REG_ENABLE, REG_LED1_TORCH_BRIGHTNESS,
      REG_LED2_TORCH_BRIGHTNESS, LED2_CURRENT_EQUAL, MODE_BITS_SHIFT, TORCH_PIN_ENABLE_SHIFT,
      h16, h8]
  · by_cases hp : chip.pdata.use_simulative_pwm = true ∧ chip.pwm = true <;>
    simp [aw3644_control, aw3644_control_opmode, aw3644_control_leave_ir, aw3644_control_switch, set_last_flag1, set_last_flag2, regmap_read, regmap_write, emit, hpow, hrd, hwr, hns, hp,
      reg_writes_append, reg_writes, REG_ENABLE]

/-- C1 (as amended): on a powered-up chip whose flag reads and register writes
succeed and where some torch LED has non-zero stored brightness,
`aw3644_control` performs exactly the three writes of the requested mode
(torch: enable, 0x05, 0x06; IR: enable, 0x03, 0x04) or the single standby write
(standby and flash), in this order; it returns 0, except that in IR mode with the
simulated PWM in use it returns the result of `pwm_enable`, called after the writes. -/
theorem aw3644_control_register_writes (hw : Hw) (chip : aw3644_chip_data) (b : Nat)
    (opmode : aw3644_mode)
    (hpow : chip.powerup_status = true)
    (hrd : ∀ t reg, (hw.regmap_read t reg).1 = 0)
    (hwr : ∀ t reg v, hw.regmap_write t reg v = 0)
    (hled : (chip.torch_leds 0).brightness ≠ 0 ∨ (chip.torch_leds 1).brightness ≠ 0) :
    reg_writes (aw3644_control hw chip b opmode).2.trace = reg_writes chip.trace ++
      (match opmode with
       | .MODES_TORCH =>
          [(0x01, (2 <<< 2)
              ||| shl32 (if (chip.torch_leds 0).brightness ≠ 0 then 1 else 0)
                    (chip.torch_leds 0).num
              ||| shl32 (if (chip.torch_leds 1).brightness ≠ 0 then 1 else 0)
                    (chip.torch_leds 1).num
              ||| (if hw.gpio_is_valid chip.pdata.torch_gpio then 0x10 else 0)),
           (0x05, b ||| 0x80), (0x06, b)]
       | .MODES_IR =>
          [(0x01, (1 <<< 2)
              ||| shl32 (if (chip.torch_leds 0).brightness ≠ 0 then 1 else 0)
                    (chip.torch_leds 0).num
              ||| shl32 (if (chip.torch_leds 1).brightness ≠ 0 then 1 else 0)
                    (chip.torch_leds 1).num
              ||| 0x20),
           (0x03, b ||| 0x80), (0x04, b)]
       | .MODES_STANDBY => [(0x01, 0)]
       | .MODES_FLASH => [(0x01, 0)]) ∧
    (aw3644_control hw chip b opmode).1 =
      (if opmode = .MODES_IR ∧ chip.pdata.use_simulative_pwm = true ∧ chip.pwm = true then
        hw.pwm_enable (chip.trace.length + 5) else 0) :=
  aw3644_control_mode_writes hw chip b opmode hpow hrd hwr hled

/-- Witness for C1: torch mode at brightness 9 on `demo_chip_torch` writes
0x19, 0x89 and 9 and returns 0. -/
theorem aw3644_control_register_writes_witness :
    reg_writes (aw3644_control demo_hw demo_chip_torch 9 .MODES_TORCH).2.trace =
      [(0x01, 0x19), (0x05, 0x89), (0x06, 9)] ∧
    (aw3644_control demo_hw demo_chip_torch 9 .MODES_TORCH).1 = 0 :=
  aw3644_control_register_writes demo_hw demo_chip_torch 9 .MODES_TORCH rfl
    (fun _ _ => rfl) (fun _ _ _ => rfl) (Or.inl (by decide))

/-- C1 (counterexample): with the simulated PWM in use and `pwm_enable` failing
with -16, IR mode on a powered-up chip with a lit LED, all of whose flag reads
and register writes succeed, performs its three writes and returns -16, not 0. -/
theorem aw3644_control_ir_pwm_enable_failure :
    demo_chip_pwm.powerup_status = true ∧
    (∀ t reg, (demo_hw_pwm_fail.regmap_read t reg).1 = 0) ∧
    (∀ t reg v, demo_hw_pwm_fail.regmap_write t reg v = 0) ∧
    (demo_chip_pwm.torch_leds 0).brightness ≠ 0 ∧
    reg_writes (aw3644_control demo_hw_pwm_fail demo_chip_pwm 9 .MODES_IR).2.trace =
      [(0x01, 0x25), (0x03, 0x89), (0x04, 9)] ∧
    (aw3644_control demo_hw_pwm_fail demo_chip_pwm 9 .MODES_IR).1 = -16 ∧
    (aw3644_control demo_hw_pwm_fail demo_chip_pwm 9 .MODES_IR).1 ≠ 0 := by
  refine ⟨rfl, fun _ _ => rfl, fun _ _ _ => rfl, by decide, by decide, by decide, by decide⟩

/-- C4 (as amended): stored brightness 0 means off-state.  On a powered-up chip
whose register accesses succeed, `aw3644_control` writes `REG_ENABLE := 0` and
no brightness register, and returns 0, whenever every torch LED has stored
brightness 0, and also whenever the requested mode is standby or flash; this
holds for every brightness argument. -/
theorem aw3644_control_off_state (hw : Hw) (chip : aw3644_chip_data) (b : Nat)
    (opmode : aw3644_mode)
    (hpow : chip.powerup_status = true)
    (hrd : ∀ t reg, (hw.regmap_read t reg).1 = 0)
    (hwr : ∀ t reg v, hw.regmap_write t reg v = 0)
    (hoff : ((chip.torch_leds 0).brightness = 0 ∧ (chip.torch_leds 1).brightness = 0) ∨
      opmode = .MODES_STANDBY ∨ opmode = .MODES_FLASH) :
    reg_writes (aw3644_control hw chip b opmode).2.trace =
      reg_writes chip.trace ++ [(REG_ENABLE, 0)] ∧
    (aw3644_control hw chip b opmode).1 = 0 := by
  by_cases hs : aw3644_needs_suspend chip = true
  · have hns : ∀ c : aw3644_chip_data, c.torch_leds0 = chip.torch_leds0 →
        c.torch_leds1 = chip.torch_leds1 → aw3644_needs_suspend c = true := by
      intro c h0 h1
      rw [needs_suspend_congr c chip h0 h1]
      exact hs
    by_cases hp : chip.pdata.use_simulative_pwm = true ∧ chip.pwm = true <;>
    simp [aw3644_control, aw3644_control_opmode, aw3644_control_leave_ir, aw3644_control_switch, set_last_flag1, set_last_flag2, regmap_read, regmap_write, emit, hpow, hrd, hwr, hns, hp,
      reg_writes_append, reg_writes]
  · have hs' : aw3644_needs_suspend chip = false := by simpa using hs
    have hled := (needs_suspend_false_iff chip).1 hs'
    have hmode : opmode = .MODES_STANDBY ∨ opmode = .MODES_FLASH := by
      rcases hoff with ⟨h0, h1⟩ | h
      · rcases hled with h | h
        · exact absurd h0 h
        · exact absurd h1 h
      · exact h
    have key := aw3644_control_mode_writes hw chip b opmode hpow hrd hwr hled
    rcases hmode with h | h <;> subst h <;> simpa [REG_ENABLE] using key

/-- Witness for C4: with both LEDs at stored brightness 0 a torch request at
brightness 9 on the powered-up chip writes only `REG_ENABLE := 0`. -/
theorem aw3644_control_off_state_witness :
    reg_writes (aw3644_control demo_hw { demo_chip with powerup_status := true } 9
      .MODES_TORCH).2.trace = [(REG_ENABLE, 0)] ∧
    (aw3644_control demo_hw { demo_chip with powerup_status := true } 9 .MODES_TORCH).1 = 0 :=
  aw3644_control_off_state demo_hw { demo_chip with powerup_status := true } 9 .MODES_TORCH
    rfl (fun _ _ => rfl) (fun _ _ _ => rfl) (Or.inl ⟨rfl, rfl⟩)

/-- C4 (counterexample): brightness argument 0 in torch mode while LED 1 still
has stored brightness 7: the register accesses succeed, yet the chip is kept in
torch mode (`REG_ENABLE := 0x1A`) and both torch brightness registers are written. -/
theorem aw3644_control_zero_brightness_torch_stays_on :
    demo_chip_led1.powerup_status = true ∧
    (∀ t reg, (demo_hw.regmap_read t reg).1 = 0) ∧
    (∀ t reg v, demo_hw.regmap_write t reg v = 0) ∧
    reg_writes (aw3644_control demo_hw demo_chip_led1 0 .MODES_TORCH).2.trace =
      [(0x01, 0x1A), (0x05, 0x80), (0x06, 0)] ∧
    reg_writes (aw3644_control demo_hw demo_chip_led1 0 .MODES_TORCH).2.trace ≠
      [(REG_ENABLE, 0)] := by
  refine ⟨rfl, fun _ _ => rfl, fun _ _ _ => rfl, by decide, by decide⟩

/-- C6: on a chip that is not powered up `aw3644_control` returns -1 and leaves
the whole driver state as it was: nothing is added to the history (no register
read or write, no PWM, timer or work operation) and `last_flag1`, `last_flag2`
keep their values. -/
theorem aw3644_control_not_powered_up (hw : Hw) (chip : aw3644_chip_data) (b : Nat)
    (opmode : aw3644_mode) (h : chip.powerup_status = false) :
    aw3644_control hw chip b opmode = (-1, chip) ∧
    (aw3644_control hw chip b opmode).2.trace = chip.trace ∧
    (aw3644_control hw chip b opmode).2.last_flag1 = chip.last_flag1 ∧
    (aw3644_control hw chip b opmode).2.last_flag2 = chip.last_flag2 := by
  simp [aw3644_control, h]

/-- Witness for C6: the state left by probe is not powered up. -/
theorem aw3644_control_not_powered_up_witness :
    aw3644_control demo_hw demo_chip 9 .MODES_IR = (-1, demo_chip) ∧
    (aw3644_control demo_hw demo_chip 9 .MODES_IR).2.trace = demo_chip.trace ∧
    (aw3644_control demo_hw demo_chip 9 .MODES_IR).2.last_flag1 = demo_chip.last_flag1 ∧
    (aw3644_control demo_hw demo_chip 9 .MODES_IR).2.last_flag2 = demo_chip.last_flag2 :=
  aw3644_control_not_powered_up demo_hw demo_chip 9 .MODES_IR rfl

/-- C3: `aw3644_poll` returns `POLLIN | POLLRDNORM` exactly when `ito_exception`
is non-zero and 0 otherwise.  With `ito_exception` zero it only registers on the
wait queue: no register access and no GPIO write.  With `ito_exception`
non-zero it calls `aw3644_control(chip, LED_OFF, MODES_STANDBY)` under the mutex,
schedules the stop work and, when `hwen_gpio` is valid, drives HWEN to 0 last. -/
theorem aw3644_poll_mask_and_shutdown (hw : Hw) (chip : aw3644_chip_data) :
    ((aw3644_poll hw chip).1 = POLLIN ||| POLLRDNORM ↔ chip.ito_exception ≠ 0) ∧
    (chip.ito_exception = 0 → aw3644_poll hw chip = (0, emit chip .poll_wait)) ∧
    (chip.ito_exception ≠ 0 →
      (aw3644_poll hw chip).2.trace =
        (aw3644_control hw (emit (emit chip .poll_wait) .mutex_lock) LED_OFF
          .MODES_STANDBY).2.trace
        ++ [.mutex_unlock, .schedule_work]
        ++ (if hw.gpio_is_valid chip.pdata.hwen_gpio then
              [.gpio_direction_output chip.pdata.hwen_gpio 0] else [])) := by
  have hp : (aw3644_control hw (emit (emit chip .poll_wait) .mutex_lock) LED_OFF
      .MODES_STANDBY).2.pdata = chip.pdata :=
    (extends_control hw _ _ _).1
  by_cases h : chip.ito_exception = 0
  · simp [aw3644_poll, h, POLLIN, POLLRDNORM]
  · by_cases hg : hw.gpio_is_valid chip.pdata.hwen_gpio = true <;>
    simp [aw3644_poll, aw3644_ir_stop_timer, gpio_direction_output, h, hg, hp]

/-- Witness for C3: without a pending ITO exception the poll on the state left by
probe returns 0 and only registers on the wait queue; with the exception set on
the powered-up chip it returns 0x41 and the standby call is followed by the
release of the mutex, the scheduling of the stop work and HWEN driven to 0. -/
theorem aw3644_poll_mask_and_shutdown_witness :
    aw3644_poll demo_hw demo_chip = (0, emit demo_chip .poll_wait) ∧
    (aw3644_poll demo_hw (set_ito_exception demo_chip_torch 1)).1 = 0x41 ∧
    (aw3644_poll demo_hw (set_ito_exception demo_chip_torch 1)).2.trace =
      (aw3644_control demo_hw
        (emit (emit (set_ito_exception demo_chip_torch 1) .poll_wait) .mutex_lock) LED_OFF
        .MODES_STANDBY).2.trace
      ++ [.mutex_unlock, .schedule_work] ++ [.gpio_direction_output 7 0] :=
  ⟨(aw3644_poll_mask_and_shutdown demo_hw demo_chip).2.1 rfl,
    (aw3644_poll_mask_and_shutdown demo_hw (set_ito_exception demo_chip_torch 1)).1.2
      (by decide),
    (aw3644_poll_mask_and_shutdown demo_hw (set_ito_exception demo_chip_torch 1)).2.2
      (by decide)⟩

/-- The complete history of a call that ends in standby: on a powered-up chip
whose register accesses succeed and whose LEDs are all at stored brightness 0. -/
theorem control_standby_trace (hw : Hw) (c : aw3644_chip_data) (b : Nat) (m : aw3644_mode)
    (hpow : c.powerup_status = true)
    (hrd : ∀ t reg, (hw.regmap_read t reg).1 = 0)
    (hs : aw3644_needs_suspend c = true) :
    (aw3644_control hw c b m).2.trace = c.trace ++
      ([.regmap_read REG_FLAG1, .regmap_read REG_FLAG2] ++
       (if c.pdata.use_simulative_pwm = true ∧ c.pwm = true then [.pwm_disable] else []) ++
       [.cancel_work, .del_timer, .regmap_write REG_ENABLE 0]) := by
  have hns : ∀ d : aw3644_chip_data, d.torch_leds0 = c.torch_leds0 →
      d.torch_leds1 = c.torch_leds1 → aw3644_needs_suspend d = true := by
    intro d h0 h1
    rw [needs_suspend_congr d c h0 h1]
    exact hs
  by_cases hp : c.pdata.use_simulative_pwm = true ∧ c.pwm = true <;>
  simp [aw3644_control, aw3644_control_opmode, aw3644_control_leave_ir, aw3644_control_switch,
    regmap_read, regmap_write, hpow, hrd, hns, hp]

/-- The state in which `aw3644_torch_brightness_set` calls `aw3644_control`, when
HWEN is valid and can be driven. -/
theorem torch_set_unfold (hw : Hw) (chip : aw3644_chip_data) (i : Fin 2) (b : Nat)
    (hvalid : hw.gpio_is_valid chip.pdata.hwen_gpio = true)
    (hgpio : ∀ t v, hw.gpio_direction_output t chip.pdata.hwen_gpio v = 0) :
    ∃ cin : aw3644_chip_data,
      cin.powerup_status = true ∧ cin.pdata = chip.pdata ∧
      (cin.torch_leds i).brightness = b % 256 ∧
      (∀ j, j ≠ i → cin.torch_leds j = chip.torch_leds j) ∧
      cin.trace = chip.trace ++ (.mutex_lock ::
        (if chip.powerup_status = false then
          [.gpio_direction_output chip.pdata.hwen_gpio 1] else [])) ∧
      aw3644_torch_brightness_set hw chip i b =
        (if aw3644_needs_suspend (aw3644_control hw cin (b % 256) .MODES_TORCH).2 then
          (0, emit (set_powerup_status (emit (aw3644_control hw cin (b % 256) .MODES_TORCH).2
            (.gpio_direction_output chip.pdata.hwen_gpio 0)) false) .mutex_unlock)
        else ((aw3644_control hw cin (b % 256) .MODES_TORCH).1,
          emit (aw3644_control hw cin (b % 256) .MODES_TORCH).2 .mutex_unlock)) := by
  refine ⟨((if chip.powerup_status = false then
      set_powerup_status (emit (emit chip .mutex_lock)
        (.gpio_direction_output chip.pdata.hwen_gpio 1)) true
      else emit chip .mutex_lock)).set_led_brightness i (b % 256), ?_, ?_, ?_, ?_, ?_, ?_⟩
  · by_cases h : chip.powerup_status = false <;> simp [h]
  · by_cases h : chip.powerup_status = false <;> simp [h]
  · exact set_led_brightness_self _ _ _
  · intro j hj
    rw [set_led_brightness_other _ _ _ _ hj]
    by_cases h : chip.powerup_status = false <;> simp [h, aw3644_chip_data.torch_leds]
  · by_cases h : chip.powerup_status = false <;> simp [h]
  · have hp : ∀ c' b', (aw3644_control hw c' b' .MODES_TORCH).2.pdata = c'.pdata :=
      fun c' b' => (extends_control hw c' b' _).1
    by_cases h : chip.powerup_status = false <;>
    simp [aw3644_torch_brightness_set, aw3644_chip_powerup, gpio_direction_output, h, hvalid,
      hgpio, hp] <;>
    split_ifs <;> rfl

/-- The history of the witness call: lock, HWEN up, the standby sequence, HWEN
down, unlock. -/
theorem torch_set_witness_trace :
    (aw3644_torch_brightness_set demo_hw demo_chip 0 0).2.trace =
      [.mutex_lock, .gpio_direction_output 7 1, .regmap_read 0xA, .regmap_read 0xB,
        .cancel_work, .del_timer, .regmap_write 1 0, .gpio_direction_output 7 0,
        .mutex_unlock] := by
  decide

/-- C2 (the code at the failing input): the chip is powered up and in IR mode
(`REG_ENABLE` last written with 0x25); the protection timer expires and its
work runs with every access succeeding.  The work writes `REG_ENABLE := 0x25`
again, so the IR mode bit (1 << 2) and the strobe-enable bit (1 << 5) stay set,
and it arms the protection timer again. -/
theorem aw3644_ir_stop_work_keeps_ir_mode :
    demo_chip_ir.powerup_status = true ∧
    reg_writes demo_chip_ir.trace =
      [(0x01, 0x19), (0x05, 0x85), (0x06, 5), (0x01, 0x25), (0x03, 0x8A), (0x04, 10)] ∧
    (aw3644_ir_stop_work demo_hw (aw3644_ir_stop_timer demo_chip_ir)).trace =
      demo_chip_ir.trace ++
        [.schedule_work, .mutex_lock, .regmap_read 0xA, .regmap_read 0xB,
          .regmap_write 0x01 0x25, .regmap_write 0x03 0x80, .regmap_write 0x04 0,
          .mod_timer 100, .mutex_unlock] ∧
    0x25 &&& (1 <<< 2) ≠ 0 ∧ 0x25 &&& (1 <<< 5) ≠ 0 := by
  decide

/-- C7 (as amended): for a set-brightness request `aw3644_ir_set_data` calls
`aw3644_control` in IR mode with the low 8 bits of `data` limited to 0x3F, which
never exceeds 0x3F and is `min(data, 0x3F)` whenever `data` fits in 8 bits; for
every other event it makes no call and returns 0. -/
theorem aw3644_ir_set_data_brightness (hw : Hw) (chip : aw3644_chip_data)
    (params : aw3644_data) :
    (params.event = SET_BRIGHTNESS_EVENT →
      aw3644_ir_set_data hw chip params =
        aw3644_control hw chip (min (params.data % 256) 0x3F) .MODES_IR) ∧
    min (params.data % 256) 0x3F ≤ 0x3F ∧
    (params.data ≤ 0xFF → min (params.data % 256) 0x3F = min params.data 0x3F) ∧
    (params.event ≠ SET_BRIGHTNESS_EVENT → aw3644_ir_set_data hw chip params = (0, chip)) := by
  refine ⟨?_, Nat.min_le_right _ _, ?_, ?_⟩
  · intro h
    have hm : (if params.data % 256 > 0x3F then 0x3F else params.data % 256) =
        min (params.data % 256) 0x3F := by
      split <;> omega
    simp [aw3644_ir_set_data, h, hm]
  · intro h
    rw [Nat.mod_eq_of_lt (by omega)]
  · intro h
    have h' : ¬ SET_BRIGHTNESS_EVENT = params.event := fun e => h e.symm
    simp [aw3644_ir_set_data, h']

/-- Witness for C7: a set-brightness request with data 0x50 is passed on as 0x3F,
and a get-brightness request makes no call. -/
theorem aw3644_ir_set_data_brightness_witness :
    aw3644_ir_set_data demo_hw demo_chip_torch { event := SET_BRIGHTNESS_EVENT, data := 0x50 } =
      aw3644_control demo_hw demo_chip_torch 0x3F .MODES_IR ∧
    aw3644_ir_set_data demo_hw demo_chip_torch { event := GET_BRIGHTNESS_EVENT, data := 0x50 } =
      (0, demo_chip_torch) :=
  ⟨(aw3644_ir_set_data_brightness demo_hw demo_chip_torch
      { event := SET_BRIGHTNESS_EVENT, data := 0x50 }).1 rfl,
    (aw3644_ir_set_data_brightness demo_hw demo_chip_torch
      { event := GET_BRIGHTNESS_EVENT, data := 0x50 }).2.2.2 (by decide)⟩

/-- C7 (counterexample): a set-brightness request with `data` = 256 on the
powered-up chip with a lit LED.  The brightness handed to `aw3644_control` is 0,
not `min(256, 0x3F)` = 0x3F: registers 0x03 and 0x04 receive 0x80 and 0. -/
theorem aw3644_ir_set_data_truncates_to_8_bits :
    aw3644_ir_set_data demo_hw demo_chip_torch { event := SET_BRIGHTNESS_EVENT, data := 256 } =
      aw3644_control demo_hw demo_chip_torch 0 .MODES_IR ∧
    aw3644_ir_set_data demo_hw demo_chip_torch { event := SET_BRIGHTNESS_EVENT, data := 256 } ≠
      aw3644_control demo_hw demo_chip_torch (min 256 0x3F) .MODES_IR ∧
    reg_writes (aw3644_ir_set_data demo_hw demo_chip_torch
      { event := SET_BRIGHTNESS_EVENT, data := 256 }).2.trace =
        [(0x01, 0x25), (0x03, 0x80), (0x04, 0)] ∧
    reg_writes (aw3644_control demo_hw demo_chip_torch (min 256 0x3F) .MODES_IR).2.trace =
        [(0x01, 0x25), (0x03, 0xBF), (0x04, 0x3F)] := by
  decide

/-- C9: `aw3644_chip_init` accepts exactly the ids 0x02 and 0x04.  If the read of
`REG_DEVICE_ID` succeeds with one of them, the id is stored in `chip_id` and the
result is non-negative; with any other id the result is `-ENODEV` and `chip_id`
is unchanged; if the read fails, its negative error is returned and `chip_id` is
unchanged. -/
theorem aw3644_chip_init_device_id (hw : Hw) (chip : aw3644_chip_data) :
    ((hw.regmap_read chip.trace.length REG_DEVICE_ID).1 = 0 →
      ((hw.regmap_read chip.trace.length REG_DEVICE_ID).2 = AW3644_ID ∨
        (hw.regmap_read chip.trace.length REG_DEVICE_ID).2 = AW3644TT_ID) →
      0 ≤ (aw3644_chip_init hw chip).1 ∧
      (aw3644_chip_init hw chip).2.chip_id =
        (hw.regmap_read chip.trace.length REG_DEVICE_ID).2) ∧
    ((hw.regmap_read chip.trace.length REG_DEVICE_ID).1 = 0 →
      (hw.regmap_read chip.trace.length REG_DEVICE_ID).2 ≠ AW3644_ID →
      (hw.regmap_read chip.trace.length REG_DEVICE_ID).2 ≠ AW3644TT_ID →
      (aw3644_chip_init hw chip).1 = -ENODEV ∧
      (aw3644_chip_init hw chip).2.chip_id = chip.chip_id) ∧
    ((hw.regmap_read chip.trace.length REG_DEVICE_ID).1 < 0 →
      (aw3644_chip_init hw chip).1 = (hw.regmap_read chip.trace.length REG_DEVICE_ID).1 ∧
      (aw3644_chip_init hw chip).2.chip_id = chip.chip_id) ∧
    AW3644_ID = 0x02 ∧ AW3644TT_ID = 0x04 := by
  refine ⟨?_, ?_, ?_, rfl, rfl⟩
  · intro h0 hid
    rcases hid with h | h <;> simp [aw3644_chip_init, regmap_read, h0, h]
  · intro h0 h1 h2
    simp [aw3644_chip_init, regmap_read, h0, h1, h2]
  · intro hneg
    have hne : ¬ (hw.regmap_read chip.trace.length REG_DEVICE_ID).1 = 0 := by omega
    simp [aw3644_chip_init, regmap_read, hneg, hne]

/-- Witness for C9: on a state whose `chip_id` is still 0, a successful read of
id 0x02 is accepted and stored; a successful read of id 0x07 is refused with
`-ENODEV`; a read failing with -5 returns -5. -/
theorem aw3644_chip_init_device_id_witness :
    (0 ≤ (aw3644_chip_init demo_hw (set_chip_id demo_chip 0)).1 ∧
      (aw3644_chip_init demo_hw (set_chip_id demo_chip 0)).2.chip_id = 0x02) ∧
    ((aw3644_chip_init { demo_hw with regmap_read := fun _ _ => (0, 7) }
        (set_chip_id demo_chip 0)).1 = -ENODEV ∧
      (aw3644_chip_init { demo_hw with regmap_read := fun _ _ => (0, 7) }
        (set_chip_id demo_chip 0)).2.chip_id = 0) ∧
    ((aw3644_chip_init { demo_hw with regmap_read := fun _ _ => (-5, 0) }
        (set_chip_id demo_chip 0)).1 = -5 ∧
      (aw3644_chip_init { demo_hw with regmap_read := fun _ _ => (-5, 0) }
        (set_chip_id demo_chip 0)).2.chip_id = 0) :=
  ⟨(aw3644_chip_init_device_id demo_hw (set_chip_id demo_chip 0)).1 rfl (Or.inl rfl),
    (aw3644_chip_init_device_id { demo_hw with regmap_read := fun _ _ => (0, 7) }
      (set_chip_id demo_chip 0)).2.1 rfl (by decide) (by decide),
    (aw3644_chip_init_device_id { demo_hw with regmap_read := fun _ _ => (-5, 0) }
      (set_chip_id demo_chip 0)).2.2.1 (by decide)⟩

/-- The five commands carry the driver's magic; the first two carry no argument
and the other three an argument that is copied in. -/
theorem ioctl_numbers :
    _IOC_TYPE FLOOD_IR_IOC_POWER_UP = AW3644_IOC_MAGIC ∧
    _IOC_TYPE FLOOD_IR_IOC_POWER_DOWN = AW3644_IOC_MAGIC ∧
    _IOC_TYPE FLOOD_IR_IOC_WRITE = AW3644_IOC_MAGIC ∧
    _IOC_TYPE FLOOD_IR_IOC_READ = AW3644_IOC_MAGIC ∧
    _IOC_TYPE FLOOD_IR_IOC_READ_INFO = AW3644_IOC_MAGIC ∧
    _IOC_SIZE FLOOD_IR_IOC_POWER_UP = 0 ∧ _IOC_SIZE FLOOD_IR_IOC_POWER_DOWN = 0 ∧
    _IOC_SIZE FLOOD_IR_IOC_WRITE = 8 ∧ _IOC_SIZE FLOOD_IR_IOC_READ = 8 ∧
    _IOC_SIZE FLOOD_IR_IOC_READ_INFO = 8 ∧
    aw3644_ir_ioctl_copy_in FLOOD_IR_IOC_POWER_UP = false ∧
    aw3644_ir_ioctl_copy_in FLOOD_IR_IOC_POWER_DOWN = false ∧
    aw3644_ir_ioctl_copy_in FLOOD_IR_IOC_WRITE = true ∧
    aw3644_ir_ioctl_copy_in FLOOD_IR_IOC_READ = true ∧
    aw3644_ir_ioctl_copy_in FLOOD_IR_IOC_READ_INFO = true := by
  decide

/-- C8 (as amended): command dispatch of `aw3644_ir_ioctl`.  A command whose type
is not the magic M yields `-ENODEV` with no user-memory access and no chip
operation.  With the right magic, a failing `access_ok`, or a failing
`copy_from_user` for a command that carries an argument, yields `-EFAULT` with
no chip operation.  When the user memory is accessible: a command that is none
of the five does no chip operation and yields 0; power-up, power-down, write
and read yield the result of `aw3644_ir_init`, `aw3644_ir_deinit`,
`aw3644_ir_set_data` and `aw3644_ir_get_data`; read-info yields 0 whatever the
register reads return. -/
theorem aw3644_ir_ioctl_dispatch (hw : Hw) (chip : aw3644_chip_data) (cmd arg : Nat) :
    (_IOC_TYPE cmd ≠ AW3644_IOC_MAGIC → aw3644_ir_ioctl hw chip cmd arg = (-ENODEV, chip)) ∧
    (_IOC_TYPE cmd = AW3644_IOC_MAGIC → hw.access_ok arg (_IOC_SIZE cmd) = false →
      aw3644_ir_ioctl hw chip cmd arg = (-EFAULT, chip)) ∧
    (_IOC_TYPE cmd = AW3644_IOC_MAGIC → hw.access_ok arg (_IOC_SIZE cmd) = true →
      aw3644_ir_ioctl_copy_in cmd = true → (hw.copy_from_user chip.trace.length arg).1 ≠ 0 →
      aw3644_ir_ioctl hw chip cmd arg =
        (-EFAULT, emit chip (.copy_from_user arg sizeof_aw3644_data))) ∧
    (_IOC_TYPE cmd = AW3644_IOC_MAGIC → hw.access_ok arg (_IOC_SIZE cmd) = true →
      (aw3644_ir_ioctl_copy_in cmd = true → (hw.copy_from_user chip.trace.length arg).1 = 0) →
      cmd ≠ FLOOD_IR_IOC_POWER_UP → cmd ≠ FLOOD_IR_IOC_POWER_DOWN → cmd ≠ FLOOD_IR_IOC_WRITE →
      cmd ≠ FLOOD_IR_IOC_READ → cmd ≠ FLOOD_IR_IOC_READ_INFO →
      aw3644_ir_ioctl hw chip cmd arg =
        (0, if aw3644_ir_ioctl_copy_in cmd = true then
          emit chip (.copy_from_user arg sizeof_aw3644_data) else chip)) ∧
    (hw.access_ok arg 0 = true →
      aw3644_ir_ioctl hw chip FLOOD_IR_IOC_POWER_UP arg = aw3644_ir_init hw chip) ∧
    (hw.access_ok arg 0 = true →
      aw3644_ir_ioctl hw chip FLOOD_IR_IOC_POWER_DOWN arg = aw3644_ir_deinit hw chip) ∧
    (hw.access_ok arg 8 = true → (hw.copy_from_user chip.trace.length arg).1 = 0 →
      aw3644_ir_ioctl hw chip FLOOD_IR_IOC_WRITE arg =
        aw3644_ir_set_data hw (emit chip (.copy_from_user arg sizeof_aw3644_data))
          (hw.copy_from_user chip.trace.length arg).2) ∧
    (hw.access_ok arg 8 = true → (hw.copy_from_user chip.trace.length arg).1 = 0 →
      aw3644_ir_ioctl hw chip FLOOD_IR_IOC_READ arg =
        aw3644_ir_get_data hw (emit chip (.copy_from_user arg sizeof_aw3644_data))
          (hw.copy_from_user chip.trace.length arg).2) ∧
    (hw.access_ok arg 8 = true → (hw.copy_from_user chip.trace.length arg).1 = 0 →
      (aw3644_ir_ioctl hw chip FLOOD_IR_IOC_READ_INFO arg).1 = 0) := by
  obtain ⟨t1, t2, t3, t4, t5, s1, s2, s3, s4, s5, c1, c2, c3, c4, c5⟩ := ioctl_numbers
  have d12 : FLOOD_IR_IOC_POWER_DOWN ≠ FLOOD_IR_IOC_POWER_UP := by decide
  have d13 : FLOOD_IR_IOC_WRITE ≠ FLOOD_IR_IOC_POWER_UP := by decide
  have d14 : FLOOD_IR_IOC_READ ≠ FLOOD_IR_IOC_POWER_UP := by decide
  have d15 : FLOOD_IR_IOC_READ_INFO ≠ FLOOD_IR_IOC_POWER_UP := by decide
  have d23 : FLOOD_IR_IOC_WRITE ≠ FLOOD_IR_IOC_POWER_DOWN := by decide
  have d24 : FLOOD_IR_IOC_READ ≠ FLOOD_IR_IOC_POWER_DOWN := by decide
  have d25 : FLOOD_IR_IOC_READ_INFO ≠ FLOOD_IR_IOC_POWER_DOWN := by decide
  have d34 : FLOOD_IR_IOC_READ ≠ FLOOD_IR_IOC_WRITE := by decide
  have d35 : FLOOD_IR_IOC_READ_INFO ≠ FLOOD_IR_IOC_WRITE := by decide
  have d45 : FLOOD_IR_IOC_READ_INFO ≠ FLOOD_IR_IOC_READ := by decide
  refine ⟨?_, ?_, ?_, ?_, ?_, ?_, ?_, ?_, ?_⟩
  · intro h
    simp [aw3644_ir_ioctl, h]
  · intro h ha
    simp [aw3644_ir_ioctl, h, ha]
  · intro h ha hc hu
    simp [aw3644_ir_ioctl, h, ha, hc, hu]
  · intro h ha hu n1 n2 n3 n4 n5
    by_cases hc : aw3644_ir_ioctl_copy_in cmd = true
    · simp [aw3644_ir_ioctl, h, ha, hc, hu hc, n1, n2, n3, n4, n5]
    · simp [aw3644_ir_ioctl, h, ha, hc, n1, n2, n3, n4, n5]
  · intro ha
    simp [aw3644_ir_ioctl, t1, s1, c1, ha]
  · intro ha
    simp [aw3644_ir_ioctl, t2, s2, c2, ha, d12]
  · intro ha hu
    simp [aw3644_ir_ioctl, t3, s3, c3, ha, hu, d13, d23]
  · intro ha hu
    simp [aw3644_ir_ioctl, t4, s4, c4, ha, hu, d14, d24, d34]
  · intro ha hu
    simp [aw3644_ir_ioctl, t5, s5, c5, ha, hu, d15, d25, d35, d45]

/-- Witness for C8: with accessible user memory, power-up yields the result of
`aw3644_ir_init`, write that of `aw3644_ir_set_data` on the copied request,
read-info yields 0, and the unknown command number 0 of the magic M yields 0 with
the chip untouched; a command of another magic yields `-ENODEV`. -/
theorem aw3644_ir_ioctl_dispatch_witness :
    aw3644_ir_ioctl demo_hw demo_chip_torch FLOOD_IR_IOC_POWER_UP 0 =
      aw3644_ir_init demo_hw demo_chip_torch ∧
    aw3644_ir_ioctl demo_hw demo_chip_torch FLOOD_IR_IOC_WRITE 0 =
      aw3644_ir_set_data demo_hw (emit demo_chip_torch (.copy_from_user 0 sizeof_aw3644_data))
        { event := SET_BRIGHTNESS_EVENT, data := 256 } ∧
    (aw3644_ir_ioctl demo_hw demo_chip_torch FLOOD_IR_IOC_READ_INFO 0).1 = 0 ∧
    aw3644_ir_ioctl demo_hw demo_chip_torch (_IOC _IOC_NONE AW3644_IOC_MAGIC 0 0) 0 =
      (0, demo_chip_torch) ∧
    aw3644_ir_ioctl demo_hw demo_chip_torch (_IOC _IOC_NONE 0x4C 101 0) 0 =
      (-ENODEV, demo_chip_torch) :=
  ⟨(aw3644_ir_ioctl_dispatch demo_hw demo_chip_torch 0 0).2.2.2.2.1 rfl,
    (aw3644_ir_ioctl_dispatch demo_hw demo_chip_torch 0 0).2.2.2.2.2.2.1 rfl rfl,
    (aw3644_ir_ioctl_dispatch demo_hw demo_chip_torch 0 0).2.2.2.2.2.2.2.2 rfl rfl,
    (aw3644_ir_ioctl_dispatch demo_hw demo_chip_torch (_IOC _IOC_NONE AW3644_IOC_MAGIC 0 0)
      0).2.2.2.1 (by decide) rfl (by decide) (by decide) (by decide) (by decide) (by decide)
      (by decide),
    (aw3644_ir_ioctl_dispatch demo_hw demo_chip_torch (_IOC _IOC_NONE 0x4C 101 0) 0).1
      (by decide)⟩

/-- C8 (counterexample): `ioctl(fd, FLOOD_IR_IOC_POWER_UP, 0xFFFFFFFFFFFFFFFF)` on
the powered-up chip with a 48-bit user address space.  The address check fails
and the handler returns `-EFAULT` with the chip untouched, whereas
`aw3644_ir_init` on that chip returns 0 after programming IR mode; likewise
read-info with this address returns `-EFAULT`, not 0. -/
theorem aw3644_ir_ioctl_bad_address :
    aw3644_ir_ioctl demo_hw_user_range demo_chip_torch FLOOD_IR_IOC_POWER_UP
      0xFFFFFFFFFFFFFFFF = (-EFAULT, demo_chip_torch) ∧
    (aw3644_ir_init demo_hw_user_range demo_chip_torch).1 = 0 ∧
    reg_writes (aw3644_ir_init demo_hw_user_range demo_chip_torch).2.trace =
      [(0x01, 0x25), (0x03, 0x80), (0x04, 0)] ∧
    (aw3644_ir_ioctl demo_hw_user_range demo_chip_torch FLOOD_IR_IOC_POWER_UP
      0xFFFFFFFFFFFFFFFF).1 ≠ (aw3644_ir_init demo_hw_user_range demo_chip_torch).1 ∧
    (aw3644_ir_ioctl demo_hw_user_range demo_chip_torch FLOOD_IR_IOC_READ_INFO
      0xFFFFFFFFFFFFFFFF).1 = -EFAULT ∧
    (aw3644_ir_ioctl demo_hw_user_range demo_chip_torch FLOOD_IR_IOC_READ_INFO
      0xFFFFFFFFFFFFFFFF).1 ≠ 0 := by
  decide

/-- C10 (the code at the failing input): the ioctl commands power-up, power-down
and write on the powered-up chip run `aw3644_control`, with its flag reads and
register writes, and the history holds no `mutex_lock`; the IR brightness
setter and the poll handler take and release the mutex around the same call. -/
theorem aw3644_ir_ioctl_runs_control_without_lock :
    (aw3644_ir_ioctl demo_hw demo_chip_torch FLOOD_IR_IOC_POWER_UP 0).2.trace =
      [.regmap_read 0xA, .regmap_read 0xB, .regmap_write 0x01 0x25,
        .regmap_write 0x03 0x80, .regmap_write 0x04 0, .mod_timer 100] ∧
    (aw3644_ir_ioctl demo_hw demo_chip_torch FLOOD_IR_IOC_POWER_DOWN 0).2.trace =
      [.regmap_read 0xA, .regmap_read 0xB, .cancel_work, .del_timer,
        .regmap_write 0x01 0] ∧
    (aw3644_ir_ioctl demo_hw demo_chip_torch FLOOD_IR_IOC_WRITE 0).2.trace =
      [.copy_from_user 0 8, .regmap_read 0xA, .regmap_read 0xB, .regmap_write 0x01 0x25,
        .regmap_write 0x03 0x80, .regmap_write 0x04 0, .mod_timer 100] ∧
    Event.mutex_lock ∉ (aw3644_ir_ioctl demo_hw demo_chip_torch FLOOD_IR_IOC_POWER_UP 0).2.trace ∧
    Event.mutex_lock ∉
      (aw3644_ir_ioctl demo_hw demo_chip_torch FLOOD_IR_IOC_POWER_DOWN 0).2.trace ∧
    Event.mutex_lock ∉ (aw3644_ir_ioctl demo_hw demo_chip_torch FLOOD_IR_IOC_WRITE 0).2.trace ∧
    (aw3644_ir_brightness_set demo_hw demo_chip_torch 0).2.trace =
      [.mutex_lock, .regmap_read 0xA, .regmap_read 0xB, .regmap_write 0x01 0x25,
        .regmap_write 0x03 0x80, .regmap_write 0x04 0, .mod_timer 100, .mutex_unlock] ∧
    (aw3644_poll demo_hw (set_ito_exception demo_chip_torch 1)).2.trace =
      [.poll_wait, .mutex_lock, .regmap_read 0xA, .regmap_read 0xB, .cancel_work, .del_timer,
        .regmap_write 0x01 0, .mutex_unlock, .schedule_work, .gpio_direction_output 7 0] := by
  decide

/-! ### LED-class round trip, device-tree defaults -/

/-- C11: for every `b` in 0..0x7F, `aw3644_ir_brightness_get` after
`aw3644_ir_brightness_set(b)` returns `b`, whatever the setter returned; on a
chip that is not powered up the setter returns -1 and the history gains no
register write. -/
theorem aw3644_ir_brightness_round_trip (hw : Hw) (chip : aw3644_chip_data) (b : Nat)
    (hb : b ≤ AW3644_MAX_BRIGHTNESS_VALUE) :
    aw3644_ir_brightness_get (aw3644_ir_brightness_set hw chip b).2 = b ∧
    (chip.powerup_status = false →
      (aw3644_ir_brightness_set hw chip b).1 = -1 ∧
      reg_writes (aw3644_ir_brightness_set hw chip b).2.trace = reg_writes chip.trace) := by
  have hb' : b % 256 = b := Nat.mod_eq_of_lt (by simp [AW3644_MAX_BRIGHTNESS_VALUE] at hb; omega)
  constructor
  · have he := extends_control hw (set_br_ir (emit chip .mutex_lock) (b % 256)) (b % 256)
      .MODES_IR
    have h5 := he.2.2.2.2.1
    simp only [hb', set_br_ir_fields] at h5
    simp [aw3644_ir_brightness_get, aw3644_ir_brightness_set, h5, hb']
  · intro hp
    simp [aw3644_ir_brightness_set, aw3644_control, hp, reg_writes_append, reg_writes]

/-- Witness for C11: brightness 0x7F on the chip as probe leaves it (not powered
up) and brightness 10 on the powered-up chip. -/
theorem aw3644_ir_brightness_round_trip_witness :
    aw3644_ir_brightness_get (aw3644_ir_brightness_set demo_hw demo_chip 0x7F).2 = 0x7F ∧
    (aw3644_ir_brightness_set demo_hw demo_chip 0x7F).1 = -1 ∧
    aw3644_ir_brightness_get (aw3644_ir_brightness_set demo_hw demo_chip_torch 10).2 = 10 :=
  ⟨(aw3644_ir_brightness_round_trip demo_hw demo_chip 0x7F (by decide)).1,
    ((aw3644_ir_brightness_round_trip demo_hw demo_chip 0x7F (by decide)).2 rfl).1,
    (aw3644_ir_brightness_round_trip demo_hw demo_chip_torch 10 (by decide)).1⟩

/-- C12 (the code at the failing input): a node with `aw3644,use-simulative-pwm`,
`aw3644,period-us` = 1000000 and no `aw3644,duty-us`.  `aw3644_parse_dt` stores
the default duty 2500 in `pwm_period_us`, which loses the period read from the
node, and leaves `pwm_duty_us` at the 0 of `devm_kzalloc`. -/
theorem aw3644_parse_dt_missing_duty_overwrites_period :
    demo_of_node_no_duty.use_simulative_pwm = true ∧
    demo_of_node_no_duty.period_us = some 1000000 ∧
    demo_of_node_no_duty.duty_us = none ∧
    aw3644_parse_dt (some demo_of_node_no_duty) true =
      .ok { tx_gpio := -2, torch_gpio := 5, hwen_gpio := 7, ito_detect_gpio := -2,
            ir_prot_time := 100, brightness := 0, use_simulative_pwm := true,
            pass_mode := false, pwm_period_us := 2500, pwm_duty_us := 0 } ∧
    AW3644_DEFAULT_DUTY_US = 2500 ∧ AW3644_DEFAULT_PERIOD_US = 2500000 := by
  refine ⟨rfl, rfl, rfl, rfl, rfl, rfl⟩

/-! ### Power state, error reporting, READ_INFO -/

/-- C21 (the code at the failing input): from the state probe leaves, torch LED 0
is set to 5, the ITO interrupt fires and `aw3644_poll` runs, every service
succeeding.  After the setter the chip is recorded as powered up with HWEN
driven to 1; after the poll `powerup_status` is still true although the value
last driven on HWEN is 0. -/
theorem aw3644_poll_leaves_powerup_status_with_hwen_low :
    (aw3644_run demo_hw demo_chip [.torch_brightness_set 0 5]).powerup_status = true ∧
    last_hwen (aw3644_run demo_hw demo_chip [.torch_brightness_set 0 5]) = some 1 ∧
    (aw3644_run demo_hw demo_chip
      [.torch_brightness_set 0 5, .ito_irq, .poll]).powerup_status = true ∧
    last_hwen (aw3644_run demo_hw demo_chip
      [.torch_brightness_set 0 5, .ito_irq, .poll]) = some 0 ∧
    (aw3644_run demo_hw demo_chip [.torch_brightness_set 0 5, .ito_irq, .poll]).trace =
      [.mutex_lock, .gpio_direction_output 7 1, .regmap_read 0xA, .regmap_read 0xB,
        .cancel_work, .del_timer, .regmap_write 0x01 0x19, .regmap_write 0x05 0x85,
        .regmap_write 0x06 5, .mutex_unlock, .wake_up, .poll_wait, .mutex_lock,
        .regmap_read 0xA, .regmap_read 0xB, .cancel_work, .del_timer, .regmap_write 0x01 0,
        .mutex_unlock, .schedule_work, .gpio_direction_output 7 0] := by
  decide

/-- C22 (the code at the failing input): torch LED 0 of the powered-up chip, the
only lit LED, is set to 0 while every register read fails with -5 and the HWEN
GPIO can be driven.  The `aw3644_control` call inside the setter returns -5
after the failing flag read, and the setter returns 0, the result of driving
HWEN low. -/
theorem aw3644_torch_brightness_set_loses_control_error :
    (aw3644_control demo_hw_read_fail
      ((emit demo_chip_torch .mutex_lock).set_led_brightness 0 0) 0 .MODES_TORCH).1 = -5 ∧
    (aw3644_torch_brightness_set demo_hw_read_fail demo_chip_torch 0 0).1 = 0 ∧
    (aw3644_torch_brightness_set demo_hw_read_fail demo_chip_torch 0 0).2.trace =
      [.mutex_lock, .regmap_read 0xA, .gpio_direction_output 7 0, .mutex_unlock] ∧
    (aw3644_torch_brightness_set demo_hw_read_fail demo_chip_torch 0 0).2.powerup_status =
      false := by
  decide

/-- C23 (the code at the failing input): on the powered-up chip with torch LED 0
lit, `FLOOD_IR_IOC_POWER_UP` succeeds and enters IR mode by writing
`REG_ENABLE := 0x25`; so does `aw3644_ir_brightness_set`.  With `REG_ENABLE`
reading back as 0x25, `FLOOD_IR_IOC_READ_INFO` then copies out
`flood_enable` = 0 (first word of the copy). -/
theorem aw3644_read_info_reports_ir_mode_disabled :
    (aw3644_ir_ioctl (demo_hw_enable 0x25) demo_chip_torch FLOOD_IR_IOC_POWER_UP 0).1 = 0 ∧
    reg_writes
      (aw3644_ir_ioctl (demo_hw_enable 0x25) demo_chip_torch FLOOD_IR_IOC_POWER_UP 0).2.trace =
      [(REG_ENABLE, 0x25), (REG_LED1_FLASH_BRIGHTNESS, 0x80), (REG_LED2_FLASH_BRIGHTNESS, 0)] ∧
    0x25 = shl32 aw3644_mode.MODES_IR.val MODE_BITS_SHIFT ||| 1 ||| shl32 1 STROBE_EN_SHIFT ∧
    (aw3644_ir_brightness_set (demo_hw_enable 0x25) demo_chip_torch 10).1 = 0 ∧
    reg_writes (aw3644_ir_brightness_set (demo_hw_enable 0x25) demo_chip_torch 10).2.trace =
      [(REG_ENABLE, 0x25), (REG_LED1_FLASH_BRIGHTNESS, 0x8A), (REG_LED2_FLASH_BRIGHTNESS, 10)] ∧
    (aw3644_ir_ioctl (demo_hw_enable 0x25)
      (aw3644_ir_ioctl (demo_hw_enable 0x25) demo_chip_torch FLOOD_IR_IOC_POWER_UP 0).2
      FLOOD_IR_IOC_READ_INFO 0).1 = 0 ∧
    user_copies (aw3644_ir_ioctl (demo_hw_enable 0x25)
      (aw3644_ir_ioctl (demo_hw_enable 0x25) demo_chip_torch FLOOD_IR_IOC_POWER_UP 0).2
      FLOOD_IR_IOC_READ_INFO 0).2.trace = [[0, 21, 0]] := by
  decide

/-- C26 (the code at the failing input): a node with `aw3644,use-simulative-pwm`
and a duty of 500 us but no `aw3644,period-us` gets the default period.  The
default period in nanoseconds is 2500000000, above 2^31 - 1, and arrives in the
`int` parameter `period_ns` of `pwm_config` as -1794967296.  The default duty in
nanoseconds, 2500000, fits, and the default duty is below the default period. -/
theorem aw3644_default_period_overflows_pwm_config :
    AW3644_DEFAULT_PERIOD_US * NSECS_PER_USEC = 2500000000 ∧
    2 ^ 31 - 1 < AW3644_DEFAULT_PERIOD_US * NSECS_PER_USEC ∧
    (aw3644_parse_dt (some demo_of_node_no_period) true).toOption.map
      (fun pdata => (pdata.pwm_duty_us, pdata.pwm_period_us)) = some (500, 2500000) ∧
    (aw3644_parse_dt (some demo_of_node_no_period) true).toOption.map
      aw3644_probe_pwm_config_args = some (500000, -1794967296) ∧
    AW3644_DEFAULT_DUTY_US * NSECS_PER_USEC = 2500000 ∧
    AW3644_DEFAULT_DUTY_US * NSECS_PER_USEC ≤ 2 ^ 31 - 1 ∧
    AW3644_DEFAULT_DUTY_US ≤ AW3644_DEFAULT_PERIOD_US := by
  decide

/-! ### The ITO latch -/

theorem control_ito (hw : Hw) (c : aw3644_chip_data) (b : Nat) (m : aw3644_mode) :
    (aw3644_control hw c b m).2.ito_exception = c.ito_exception :=
  (extends_control hw c b m).2.2.2.2.2.1

theorem powerup_ito (hw : Hw) (c : aw3644_chip_data) (v : Int) :
    (aw3644_chip_powerup hw c v).2.ito_exception = c.ito_exception := by
  unfold aw3644_chip_powerup
  split_ifs <;> simp [gpio_direction_output]

theorem torch_set_ito (hw : Hw) (c : aw3644_chip_data) (i : Fin 2) (b : Nat) :
    (aw3644_torch_brightness_set hw c i b).2.ito_exception = c.ito_exception := by
  unfold aw3644_torch_brightness_set
  dsimp only
  split_ifs <;> simp [control_ito, powerup_ito]

theorem ir_set_ito (hw : Hw) (c : aw3644_chip_data) (b : Nat) :
    (aw3644_ir_brightness_set hw c b).2.ito_exception = c.ito_exception := by
  simp [aw3644_ir_brightness_set, control_ito]

theorem poll_ito (hw : Hw) (c : aw3644_chip_data) :
    (aw3644_poll hw c).2.ito_exception = c.ito_exception := by
  unfold aw3644_poll
  dsimp only
  split_ifs <;> simp [control_ito, aw3644_ir_stop_timer, gpio_direction_output]

theorem set_data_ito (hw : Hw) (c : aw3644_chip_data) (params : aw3644_data) :
    (aw3644_ir_set_data hw c params).2.ito_exception = c.ito_exception := by
  unfold aw3644_ir_set_data
  dsimp only
  split_ifs <;> first | exact control_ito hw c _ _ | rfl

theorem get_data_ito (hw : Hw) (c : aw3644_chip_data) (params : aw3644_data) :
    (aw3644_ir_get_data hw c params).2.ito_exception = c.ito_exception := by
  unfold aw3644_ir_get_data
  dsimp only
  split_ifs <;> simp only [emit_fields]

theorem read_info_ito (hw : Hw) (c : aw3644_chip_data) :
    (aw3644_ir_ioctl_read_info hw c).ito_exception = c.ito_exception := by
  simp only [aw3644_ir_ioctl_read_info, regmap_read, emit_fields]

theorem ioctl_ito (hw : Hw) (c : aw3644_chip_data) (cmd arg : Nat) :
    (aw3644_ir_ioctl hw c cmd arg).2.ito_exception = c.ito_exception := by
  unfold aw3644_ir_ioctl
  dsimp only
  split_ifs <;>
  simp only [aw3644_ir_init, aw3644_ir_deinit, control_ito, set_data_ito, get_data_ito,
    read_info_ito, emit_fields]

/-- No entry into the driver resets a pending ITO exception. -/
theorem apply_ito (hw : Hw) (c : aw3644_chip_data) (op : aw3644_operation)
    (h : c.ito_exception = 1) : (aw3644_apply hw c op).ito_exception = 1 := by
  cases op <;>
  simp [aw3644_apply, torch_set_ito, ir_set_ito, poll_ito, ioctl_ito, aw3644_ir_open,
    aw3644_ir_read, aw3644_ir_write, aw3644_ir_release, aw3644_ito_irq, aw3644_ir_stop_timer,
    aw3644_ir_stop_work, h]

theorem run_ito (hw : Hw) : ∀ (ops : List aw3644_operation) (c : aw3644_chip_data),
    c.ito_exception = 1 → (aw3644_run hw c ops).ito_exception = 1
  | [], c, h => by simpa [aw3644_run] using h
  | op :: ops, c, h => by
    have := run_ito hw ops (aw3644_apply hw c op) (apply_ito hw c op h)
    simpa [aw3644_run] using this

/-! ### The platform data is fixed after probe -/

theorem powerup_pdata (hw : Hw) (c : aw3644_chip_data) (v : Int) :
    (aw3644_chip_powerup hw c v).2.pdata = c.pdata := by
  unfold aw3644_chip_powerup
  split_ifs <;> simp [gpio_direction_output]

theorem control_pdata (hw : Hw) (c : aw3644_chip_data) (b : Nat) (m : aw3644_mode) :
    (aw3644_control hw c b m).2.pdata = c.pdata :=
  (extends_control hw c b m).1

theorem torch_set_pdata (hw : Hw) (c : aw3644_chip_data) (i : Fin 2) (b : Nat) :
    (aw3644_torch_brightness_set hw c i b).2.pdata = c.pdata := by
  unfold aw3644_torch_brightness_set
  dsimp only
  split_ifs <;> simp [control_pdata, powerup_pdata]

theorem poll_pdata (hw : Hw) (c : aw3644_chip_data) :
    (aw3644_poll hw c).2.pdata = c.pdata := by
  unfold aw3644_poll
  dsimp only
  split_ifs <;> simp [control_pdata, aw3644_ir_stop_timer, gpio_direction_output]

theorem set_data_pdata (hw : Hw) (c : aw3644_chip_data) (params : aw3644_data) :
    (aw3644_ir_set_data hw c params).2.pdata = c.pdata := by
  unfold aw3644_ir_set_data
  dsimp only
  split_ifs <;> first | exact control_pdata hw c _ _ | rfl

theorem get_data_pdata (hw : Hw) (c : aw3644_chip_data) (params : aw3644_data) :
    (aw3644_ir_get_data hw c params).2.pdata = c.pdata := by
  unfold aw3644_ir_get_data
  dsimp only
  split_ifs <;> simp only [emit_fields]

theorem read_info_pdata (hw : Hw) (c : aw3644_chip_data) :
    (aw3644_ir_ioctl_read_info hw c).pdata = c.pdata := by
  simp only [aw3644_ir_ioctl_read_info, regmap_read, emit_fields]

theorem ioctl_pdata (hw : Hw) (c : aw3644_chip_data) (cmd arg : Nat) :
    (aw3644_ir_ioctl hw c cmd arg).2.pdata = c.pdata := by
  unfold aw3644_ir_ioctl
  dsimp only
  split_ifs <;>
  simp only [aw3644_ir_init, aw3644_ir_deinit, control_pdata, set_data_pdata, get_data_pdata,
    read_info_pdata, emit_fields]

theorem apply_pdata (hw : Hw) (c : aw3644_chip_data) (op : aw3644_operation) :
    (aw3644_apply hw c op).pdata = c.pdata := by
  cases op <;>
  simp [aw3644_apply, torch_set_pdata, poll_pdata, ioctl_pdata, aw3644_ir_open,
    aw3644_ir_read, aw3644_ir_write, aw3644_ir_release, aw3644_ito_irq, aw3644_ir_stop_timer,
    aw3644_ir_stop_work, aw3644_ir_brightness_set, control_pdata]

theorem run_pdata (hw : Hw) : ∀ (ops : List aw3644_operation) (c : aw3644_chip_data),
    (aw3644_run hw c ops).pdata = c.pdata
  | [], c => by simp [aw3644_run]
  | op :: ops, c => by
    have := run_pdata hw ops (aw3644_apply hw c op)
    rw [apply_pdata] at this
    simpa [aw3644_run] using this

/-- C24: after `aw3644_ito_irq` has set `ito_exception` to 1, it is still 1
after every sequence of file operations, LED-class callbacks, timer expiries,
work runs and further interrupts; `aw3644_poll` then returns
`POLLIN | POLLRDNORM`, repeats the shutdown (the standby call under the mutex,
the scheduling of the stop work and, with a valid HWEN GPIO, HWEN driven to 0)
and leaves `ito_exception` at 1.  The last statement of probe stores 0. -/
theorem aw3644_ito_exception_latched (hw : Hw) (chip : aw3644_chip_data)
    (ops : List aw3644_operation) :
    (aw3644_ito_irq chip).2.ito_exception = 1 ∧
    (aw3644_run hw (aw3644_ito_irq chip).2 ops).ito_exception = 1 ∧
    (aw3644_poll hw (aw3644_run hw (aw3644_ito_irq chip).2 ops)).1 = POLLIN ||| POLLRDNORM ∧
    (aw3644_poll hw (aw3644_run hw (aw3644_ito_irq chip).2 ops)).2.ito_exception = 1 ∧
    (aw3644_poll hw (aw3644_run hw (aw3644_ito_irq chip).2 ops)).2.trace =
      (aw3644_control hw
        (emit (emit (aw3644_run hw (aw3644_ito_irq chip).2 ops) .poll_wait) .mutex_lock)
        LED_OFF .MODES_STANDBY).2.trace
      ++ [.mutex_unlock, .schedule_work]
      ++ (if hw.gpio_is_valid chip.pdata.hwen_gpio then
            [.gpio_direction_output chip.pdata.hwen_gpio 0] else []) ∧
    (aw3644_probe_finish (aw3644_run hw (aw3644_ito_irq chip).2 ops)).ito_exception = 0 := by
  have h1 : (aw3644_ito_irq chip).2.ito_exception = 1 := by simp [aw3644_ito_irq]
  have h2 := run_ito hw ops _ h1
  have h3 : (aw3644_run hw (aw3644_ito_irq chip).2 ops).ito_exception ≠ 0 := by
    rw [h2]; decide
  have hpd : (aw3644_run hw (aw3644_ito_irq chip).2 ops).pdata = chip.pdata :=
    run_pdata hw ops _
  have hp : (aw3644_control hw
      (emit (emit (aw3644_run hw (aw3644_ito_irq chip).2 ops) .poll_wait) .mutex_lock) LED_OFF
      .MODES_STANDBY).2.pdata = chip.pdata := by
    rw [(extends_control hw _ _ _).1]
    simpa using hpd
  refine ⟨h1, h2, ?_, ?_, ?_, by simp [aw3644_probe_finish]⟩
  · simp [aw3644_poll, h3, POLLIN, POLLRDNORM]
  · rw [poll_ito, h2]
  · by_cases hg : hw.gpio_is_valid chip.pdata.hwen_gpio = true <;>
    simp [aw3644_poll, aw3644_ir_stop_timer, gpio_direction_output, h3, hg, hp]

/-! ### The LED table -/

/-- An enable bit shifted by an LED number below 2 lies in bits 0..1 and misses
the mode bits (2..3), the torch-pin bit (4) and the strobe bit (5). -/
theorem led_enable_bit_in_range :
    ∀ num, num < AW3644_LED_NUMS → ∀ bit, bit ≤ 1 →
      shl32 bit num < 4 ∧
      shl32 bit num &&& (shl32 3 MODE_BITS_SHIFT ||| shl32 1 TORCH_PIN_ENABLE_SHIFT |||
        shl32 1 STROBE_EN_SHIFT) = 0 := by
  decide

/-- The loop of `aw3644_parse_leds`, entered with `count` equal to the number of
LEDs stored so far plus the number of children still to visit, and with room in
`torch_leds` for all of them. -/
theorem parse_leds_loop_spec : ∀ (rest : List aw3644_of_child) (chip : aw3644_chip_data)
    (count : Int) (i : Nat),
    count = i + rest.length → i + rest.length ≤ AW3644_LED_NUMS →
    chip.torch_leds0.num < AW3644_LED_NUMS → chip.torch_leds1.num < AW3644_LED_NUMS →
    ∃ r, aw3644_parse_leds_loop chip count i rest = some r ∧
      r.2.torch_leds0.num < AW3644_LED_NUMS ∧ r.2.torch_leds1.num < AW3644_LED_NUMS ∧
      (r.1 = 0 → 1 ≤ r.2.num_leds ∧ r.2.num_leds ≤ 2) ∧
      (i = 0 → (∀ c ∈ rest, ∀ s, c.reg = some s → AW3644_LED_NUMS ≤ s) → r.1 = -EINVAL)
  | [], chip, count, i, hc, hb, h0, h1 => by
    simp only [List.length_nil, Nat.cast_zero, add_zero] at hc hb
    by_cases hz : count = 0
    · refine ⟨(-EINVAL, chip), by simp [aw3644_parse_leds_loop, hz], h0, h1, ?_, ?_⟩
      · intro h; simp [EINVAL] at h
      · intro _ _; rfl
    · refine ⟨(0, { chip with num_leds := i }), by simp [aw3644_parse_leds_loop, hz], h0, h1,
        ?_, ?_⟩
      · intro _
        simp only [AW3644_LED_NUMS] at hb
        constructor <;> simp only <;> omega
      · intro hi _
        exfalso
        apply hz
        rw [hc, hi]
        rfl
  | child :: rest, chip, count, i, hc, hb, h0, h1 => by
    simp only [List.length_cons, Nat.cast_add, Nat.cast_one] at hc hb
    have hskip : ∃ r, aw3644_parse_leds_loop chip (count - 1) i rest = some r ∧
        r.2.torch_leds0.num < AW3644_LED_NUMS ∧ r.2.torch_leds1.num < AW3644_LED_NUMS ∧
        (r.1 = 0 → 1 ≤ r.2.num_leds ∧ r.2.num_leds ≤ 2) ∧
        (i = 0 → (∀ c ∈ rest, ∀ s, c.reg = some s → AW3644_LED_NUMS ≤ s) → r.1 = -EINVAL) :=
      parse_leds_loop_spec rest chip (count - 1) i (by omega) (by omega) h0 h1
    cases hreg : child.reg with
    | none =>
      obtain ⟨r, hr, a0, a1, a2, a3⟩ := hskip
      refine ⟨r, by simp [aw3644_parse_leds_loop, hreg, hr], a0, a1, a2, ?_⟩
      intro hi hall
      exact a3 hi (fun c hcm => hall c (List.mem_cons_of_mem _ hcm))
    | some source =>
      by_cases hs : source ≥ AW3644_LED_NUMS
      · obtain ⟨r, hr, a0, a1, a2, a3⟩ := hskip
        refine ⟨r, by simp [aw3644_parse_leds_loop, hreg, hs, hr], a0, a1, a2, ?_⟩
        intro hi hall
        exact a3 hi (fun c hcm => hall c (List.mem_cons_of_mem _ hcm))
      · have hvalid : ¬ (∀ c ∈ child :: rest, ∀ s, c.reg = some s → AW3644_LED_NUMS ≤ s) :=
          fun hall => hs (hall child (List.mem_cons_self _ _) source hreg)
        have hi2 : i = 0 ∨ i = 1 := by
          simp only [AW3644_LED_NUMS] at hb
          omega
        have hsl : source < AW3644_LED_NUMS := by omega
        rcases hi2 with hi | hi
        · subst hi
          by_cases hneg : child.register_ret < 0
          · refine ⟨(child.register_ret,
                { chip with torch_leds0 := { num := source, brightness := 0 } }),
              by simp [aw3644_parse_leds_loop, hreg, hs, aw3644_chip_data.store_led, hneg],
              hsl, h1, ?_, ?_⟩
            · intro h; simp only at h; omega
            · intro _ hall; exact absurd hall hvalid
          · obtain ⟨r, hr, a0, a1, a2, _⟩ := parse_leds_loop_spec rest
              { chip with torch_leds0 := { num := source, brightness := 0 } } count (0 + 1)
              (by simp only [Nat.cast_add, Nat.cast_one]; omega) (by omega) hsl h1
            refine ⟨r,
              by simp [aw3644_parse_leds_loop, hreg, hs, aw3644_chip_data.store_led, hneg, hr],
              a0, a1, a2, ?_⟩
            intro _ hall; exact absurd hall hvalid
        · subst hi
          by_cases hneg : child.register_ret < 0
          · refine ⟨(child.register_ret,
                { chip with torch_leds1 := { num := source, brightness := 0 } }),
              by simp [aw3644_parse_leds_loop, hreg, hs, aw3644_chip_data.store_led, hneg],
              h0, hsl, ?_, ?_⟩
            · intro h; simp only at h; omega
            · intro h; omega
          · obtain ⟨r, hr, a0, a1, a2, _⟩ := parse_leds_loop_spec rest
              { chip with torch_leds1 := { num := source, brightness := 0 } } count (1 + 1)
              (by simp only [Nat.cast_add, Nat.cast_one]; omega) (by omega) h0 hsl
            refine ⟨r,
              by simp [aw3644_parse_leds_loop, hreg, hs, aw3644_chip_data.store_led, hneg, hr],
              a0, a1, a2, ?_⟩
            intro h; omega

/-- C25: on a chip whose LED table holds numbers below 2 (the zeroes of
`devm_kzalloc`), `aw3644_parse_leds` never stores outside `torch_leds`, whatever
the children of the node.  On return both entries of the table have `num` < 2,
so each enable bit `(brightness != 0) << num` of `aw3644_control` lies in bits
0..1 and misses the mode bits, the torch-pin bit and the strobe bit.  The
function returns `-EINVAL` for a node without available child, with more than
two available children, or without a child whose `reg` is read and below 2; when
it returns 0, `num_leds` is 1 or 2. -/
theorem aw3644_parse_leds_in_bounds (chip : aw3644_chip_data)
    (children : List aw3644_of_child)
    (h0 : chip.torch_leds0.num < AW3644_LED_NUMS)
    (h1 : chip.torch_leds1.num < AW3644_LED_NUMS) :
    ∃ r, aw3644_parse_leds chip children = some r ∧
      (∀ i : Fin 2, (r.2.torch_leds i).num < AW3644_LED_NUMS ∧
        ∀ bit, bit ≤ 1 →
          shl32 bit (r.2.torch_leds i).num < 4 ∧
          shl32 bit (r.2.torch_leds i).num &&&
            (shl32 3 MODE_BITS_SHIFT ||| shl32 1 TORCH_PIN_ENABLE_SHIFT |||
              shl32 1 STROBE_EN_SHIFT) = 0) ∧
      (children = [] → r.1 = -EINVAL) ∧
      (AW3644_LED_NUMS < children.length → r.1 = -EINVAL) ∧
      ((∀ c ∈ children, ∀ s, c.reg = some s → AW3644_LED_NUMS ≤ s) → r.1 = -EINVAL) ∧
      (r.1 = 0 → 1 ≤ r.2.num_leds ∧ r.2.num_leds ≤ 2) := by
  have hbits : ∀ c : aw3644_chip_data, c.torch_leds0.num < AW3644_LED_NUMS →
      c.torch_leds1.num < AW3644_LED_NUMS →
      ∀ i : Fin 2, (c.torch_leds i).num < AW3644_LED_NUMS ∧
        ∀ bit, bit ≤ 1 →
          shl32 bit (c.torch_leds i).num < 4 ∧
          shl32 bit (c.torch_leds i).num &&&
            (shl32 3 MODE_BITS_SHIFT ||| shl32 1 TORCH_PIN_ENABLE_SHIFT |||
              shl32 1 STROBE_EN_SHIFT) = 0 := by
    intro c c0 c1 i
    have hn : (c.torch_leds i).num < AW3644_LED_NUMS := by
      fin_cases i <;> simpa [aw3644_chip_data.torch_leds]
    exact ⟨hn, led_enable_bit_in_range _ hn⟩
  by_cases hcnt : (children.length : Int) = 0 ∨ (children.length : Int) > AW3644_LED_NUMS
  · refine ⟨(-EINVAL, chip), by simp only [aw3644_parse_leds, hcnt, if_true], hbits chip h0 h1,
      fun _ => rfl, fun _ => rfl, fun _ => rfl, ?_⟩
    intro h; simp [EINVAL] at h
  · have hlen : 1 ≤ children.length ∧ children.length ≤ AW3644_LED_NUMS := by
      simp only [AW3644_LED_NUMS] at hcnt ⊢
      omega
    obtain ⟨r, hr, a0, a1, a2, a3⟩ := parse_leds_loop_spec children chip children.length 0
      (by simp) (by omega) h0 h1
    refine ⟨r, by simp only [aw3644_parse_leds, hcnt, if_false]; exact hr, hbits r.2 a0 a1,
      ?_, ?_, a3 rfl, a2⟩
    · intro he
      rw [he] at hlen
      simp at hlen
    · intro hl
      omega

/-- Witness for C25: the zero-filled chip with children reg 0 and reg 1, both
registered, gets `num_leds` = 2; with one child whose reg is 7 the result is
`-EINVAL`. -/
theorem aw3644_parse_leds_in_bounds_witness :
    (demo_chip.torch_leds0.num < AW3644_LED_NUMS ∧
      demo_chip.torch_leds1.num < AW3644_LED_NUMS) ∧
    (∃ r, aw3644_parse_leds demo_chip [⟨some 0, 0⟩, ⟨some 1, 0⟩] = some r ∧
      r.1 = 0 ∧ r.2.num_leds = 2 ∧ 1 ≤ r.2.num_leds ∧ r.2.num_leds ≤ 2) ∧
    (∃ r, aw3644_parse_leds demo_chip [⟨some 7, 0⟩] = some r ∧ r.1 = -EINVAL) := by
  obtain ⟨r, hr, _, _, _, _, h5⟩ :=
    aw3644_parse_leds_in_bounds demo_chip [⟨some 0, 0⟩, ⟨some 1, 0⟩] (by decide) (by decide)
  obtain ⟨q, hq, _, _, _, h4, _⟩ :=
    aw3644_parse_leds_in_bounds demo_chip [⟨some 7, 0⟩] (by decide) (by decide)
  have e : aw3644_parse_leds demo_chip [⟨some 0, 0⟩, ⟨some 1, 0⟩] =
      some (0, { demo_chip with num_leds := 2 }) := by decide
  have hre : r = (0, { demo_chip with num_leds := 2 }) := by
    rw [e] at hr
    exact (Option.some.inj hr).symm
  refine ⟨⟨by decide, by decide⟩,
    ⟨r, hr, by rw [hre], by rw [hre], (h5 (by rw [hre])).1, (h5 (by rw [hre])).2⟩,
    ⟨q, hq, h4 (by decide)⟩⟩

end AW3644

namespace Panel

/-! ## Theorems -/

/-- When every checked call of the body succeeds, the body runs to its end. -/
theorem run_steps_ok (env : Env) : ∀ (steps : List Step) (tr : List Op),
    (∀ k op, steps[k]? = some (Step.checked op) → 0 ≤ env.result (tr.length + k)) →
    run_steps env tr steps = (0, tr ++ steps.map Step.op)
  | [], tr, _ => by simp [run_steps]
  | Step.plain op :: rest, tr, h => by
    have ih := run_steps_ok env rest (tr ++ [op]) (by
      intro k o hk
      have := h (k + 1) o (by simpa using hk)
      simpa [Nat.add_assoc, Nat.add_comm 1 k] using this)
    simp [run_steps, ih, Step.op]
  | Step.checked op :: rest, tr, h => by
    have h0 : ¬ env.result tr.length < 0 := by
      have := h 0 op (by simp)
      simpa using this
    have ih := run_steps_ok env rest (tr ++ [op]) (by
      intro k o hk
      have := h (k + 1) o (by simpa using hk)
      simpa [Nat.add_assoc, Nat.add_comm 1 k] using this)
    simp [run_steps, h0, ih, Step.op]

/-- When the checked call at position `k` is the first to fail, the body returns
its result and nothing after it is called. -/
theorem run_steps_fail (env : Env) : ∀ (steps : List Step) (tr : List Op) (k : Nat) (op : Op),
    steps[k]? = some (Step.checked op) → env.result (tr.length + k) < 0 →
    (∀ j o, j < k → steps[j]? = some (Step.checked o) → 0 ≤ env.result (tr.length + j)) →
    run_steps env tr steps =
      (env.result (tr.length + k), tr ++ (steps.take (k + 1)).map Step.op)
  | [], _, k, op, hk, _, _ => by simp at hk
  | Step.plain o :: rest, tr, 0, op, hk, _, _ => by simp at hk
  | Step.checked o :: rest, tr, 0, op, hk, hneg, _ => by
    have hneg' : env.result tr.length < 0 := by simpa using hneg
    simp [run_steps, hneg', Step.op]
  | Step.plain o :: rest, tr, k + 1, op, hk, hneg, hpre => by
    have ih := run_steps_fail env rest (tr ++ [o]) k op (by simpa using hk)
      (by simpa [Nat.add_assoc, Nat.add_comm 1 k] using hneg)
      (by
        intro j o' hj hjo
        have := hpre (j + 1) o' (by omega) (by simpa using hjo)
        simpa [Nat.add_assoc, Nat.add_comm 1 j] using this)
    simp [run_steps, ih, Step.op, Nat.add_assoc, Nat.add_comm 1 k]
  | Step.checked o :: rest, tr, k + 1, op, hk, hneg, hpre => by
    have h0 : ¬ env.result tr.length < 0 := by
      have := hpre 0 o (by omega) (by simp)
      simpa using this
    have ih := run_steps_fail env rest (tr ++ [o]) k op (by simpa using hk)
      (by simpa [Nat.add_assoc, Nat.add_comm 1 k] using hneg)
      (by
        intro j o' hj hjo
        have := hpre (j + 1) o' (by omega) (by simpa using hjo)
        simpa [Nat.add_assoc, Nat.add_comm 1 j] using this)
    simp [run_steps, h0, ih, Step.op, Nat.add_assoc, Nat.add_comm 1 k]

/-- A body returns 0 or a negative result, and it returns 0 exactly when every
checked call succeeds. -/
theorem run_steps_zero_iff (env : Env) : ∀ (steps : List Step) (tr : List Op),
    (run_steps env tr steps).1 ≤ 0 ∧
    ((run_steps env tr steps).1 = 0 ↔
      ∀ k op, steps[k]? = some (Step.checked op) → 0 ≤ env.result (tr.length + k))
  | [], tr => by simp [run_steps]
  | Step.plain o :: rest, tr => by
    have ih := run_steps_zero_iff env rest (tr ++ [o])
    refine ⟨by simpa [run_steps] using ih.1, ?_⟩
    simp only [run_steps]
    rw [ih.2]
    constructor
    · intro h k op hk
      cases k with
      | zero => simp at hk
      | succ k =>
        have := h k op (by simpa using hk)
        simpa [Nat.add_assoc, Nat.add_comm 1 k] using this
    · intro h k op hk
      have := h (k + 1) op (by simpa using hk)
      simpa [Nat.add_assoc, Nat.add_comm 1 k] using this
  | Step.checked o :: rest, tr => by
    have ih := run_steps_zero_iff env rest (tr ++ [o])
    by_cases h0 : env.result tr.length < 0
    · refine ⟨by simp [run_steps, h0]; omega, ?_⟩
      simp only [run_steps, h0, if_true]
      constructor
      · intro h; omega
      · intro h
        have := h 0 o (by simp)
        simp at this
        omega
    · refine ⟨by simpa [run_steps, h0] using ih.1, ?_⟩
      simp only [run_steps, h0, if_false]
      rw [ih.2]
      constructor
      · intro h k op hk
        cases k with
        | zero => simpa using (by omega : 0 ≤ env.result tr.length)
        | succ k =>
          have := h k op (by simpa using hk)
          simpa [Nat.add_assoc, Nat.add_comm 1 k] using this
      · intro h k op hk
        have := h (k + 1) op (by simpa using hk)
        simpa [Nat.add_assoc, Nat.add_comm 1 k] using this

/-- A body only appends calls to the history, all of them calls of its statements. -/
theorem run_steps_appends (env : Env) : ∀ (steps : List Step) (tr : List Op),
    ∃ n, n ≤ steps.length ∧ (run_steps env tr steps).2 = tr ++ (steps.take n).map Step.op
  | [], tr => ⟨0, by simp [run_steps]⟩
  | Step.plain o :: rest, tr => by
    obtain ⟨n, hn, h⟩ := run_steps_appends env rest (tr ++ [o])
    exact ⟨n + 1, by simpa using hn, by simp [run_steps, h, Step.op]⟩
  | Step.checked o :: rest, tr => by
    by_cases h0 : env.result tr.length < 0
    · exact ⟨1, by simp, by simp [run_steps, h0, Step.op]⟩
    · obtain ⟨n, hn, h⟩ := run_steps_appends env rest (tr ++ [o])
      exact ⟨n + 1, by simpa using hn, by simp [run_steps, h0, h, Step.op]⟩

/-- Two environments that agree on which calls fail drive a body through the
same calls, and it fails in the one exactly when it fails in the other. -/
theorem run_steps_sign_congr (env1 env2 : Env)
    (h : ∀ t, env1.result t < 0 ↔ env2.result t < 0) : ∀ (steps : List Step) (tr : List Op),
    (run_steps env1 tr steps).2 = (run_steps env2 tr steps).2 ∧
    ((run_steps env1 tr steps).1 < 0 ↔ (run_steps env2 tr steps).1 < 0)
  | [], tr => by simp [run_steps]
  | Step.plain o :: rest, tr => by
    simpa [run_steps] using run_steps_sign_congr env1 env2 h rest (tr ++ [o])
  | Step.checked o :: rest, tr => by
    have ih := run_steps_sign_congr env1 env2 h rest (tr ++ [o])
    by_cases h1 : env1.result tr.length < 0
    · have h2 : env2.result tr.length < 0 := (h _).1 h1
      simp [run_steps, h1, h2]
    · have h2 : ¬ env2.result tr.length < 0 := fun h2 => h1 ((h _).2 h2)
      simpa [run_steps, h1, h2] using ih

/-- A write of `v` to the reset GPIO at the end of a history is the last one. -/
theorem last_gpio_append_write (tr : List Op) (v : Nat) :
    last_gpio (tr ++ [Op.gpiod_set_value_cansleep v]) = some v := by
  simp [last_gpio, List.filterMap_append, Op.gpio_value]

/-- Calls that do not write the reset GPIO leave the last written value. -/
theorem last_gpio_append_other (tr ops : List Op) (h : ∀ op ∈ ops, Op.gpio_value op = none) :
    last_gpio (tr ++ ops) = last_gpio tr := by
  have : ops.filterMap Op.gpio_value = [] := by
    rw [List.filterMap_eq_nil_iff]
    exact h
  simp [last_gpio, List.filterMap_append, this]

/-- The ledger of the supplies over a history made of two parts. -/
theorem regulator_enable_count_append (env : Env) : ∀ (xs ys : List Op) (t : Nat),
    regulator_enable_count env t (xs ++ ys) =
      regulator_enable_count env t xs + regulator_enable_count env (t + xs.length) ys
  | [], ys, t => by simp [regulator_enable_count]
  | x :: xs, ys, t => by
    have ih := regulator_enable_count_append env xs ys (t + 1)
    have hl : t + (x :: xs).length = t + 1 + xs.length := by simp; omega
    rw [hl]
    cases x <;> simp [regulator_enable_count, ih] <;> ring

/-- Calls other than regulator calls leave the ledger of the supplies alone. -/
theorem regulator_enable_count_others (env : Env) : ∀ (xs : List Op) (t : Nat),
    (∀ op ∈ xs, Op.is_regulator op = false) → regulator_enable_count env t xs = 0
  | [], t, _ => by simp [regulator_enable_count]
  | x :: xs, t, h => by
    have ih := regulator_enable_count_others env xs (t + 1) (fun op hop =>
      h op (List.mem_cons_of_mem _ hop))
    have hx := h x (List.mem_cons_self _ _)
    cases x <;> simp_all [regulator_enable_count, Op.is_regulator]

/-- The calls of a part of a body are calls of the body. -/
theorem mem_take_map_op {steps : List Step} {n : Nat} {op : Op}
    (h : op ∈ (steps.take n).map Step.op) : op ∈ steps.map Step.op := by
  rw [List.mem_map] at h ⊢
  obtain ⟨s, hs, rfl⟩ := h
  exact ⟨s, List.mem_of_mem_take hs, rfl⟩

/-! ### The prepared flag -/

/-- C13: in the visionox-g2647fb105 and nt36672c-tianma drivers, `prepare` on a
context with `prepared == true` and `unprepare` on a context with
`prepared == false` return 0 and leave the context, the history of GPIO writes
and DSI commands included, exactly as it was. -/
theorem prepared_flag_idempotent (env : Env) (v : visionox_g2647fb105)
    (n : nt36672c_tianma) :
    (v.prepared = true → visionox_g2647fb105_prepare env v = (0, v)) ∧
    (v.prepared = false → visionox_g2647fb105_unprepare env v = (0, v)) ∧
    (n.prepared = true → nt36672c_tianma_prepare env n = (0, n)) ∧
    (n.prepared = false → nt36672c_tianma_unprepare env n = (0, n)) := by
  refine ⟨?_, ?_, ?_, ?_⟩ <;> intro h <;>
  simp [visionox_g2647fb105_prepare, visionox_g2647fb105_unprepare, nt36672c_tianma_prepare,
    nt36672c_tianma_unprepare, h]

/-- The history in which `visionox_g2647fb105_prepare` starts the power-on
sequence is four calls longer than the one it was called with. -/
theorem visionox_reset_trace (ctx : visionox_g2647fb105) :
    (visionox_g2647fb105_reset ctx).trace = ctx.trace ++
      [Op.gpiod_set_value_cansleep 1, Op.usleep_range 1000 2000,
        Op.gpiod_set_value_cansleep 0, Op.usleep_range 10000 11000] ∧
    (visionox_g2647fb105_reset ctx).trace.length = ctx.trace.length + 4 ∧
    (visionox_g2647fb105_reset ctx).prepared = ctx.prepared := by
  simp [visionox_g2647fb105_reset]

/-- C14: `visionox_g2647fb105_prepare` on a context with `prepared == false`
returns 0 with `prepared = true` exactly when every tested call of the power-on
sequence succeeds, and the tested calls are exactly its DSI commands.  When the
command at position `k` of the sequence is the first to fail, the function
returns its negative result, `prepared` is still false, the history ends with
that command followed by the write of 1 to the reset GPIO, so no later command
was sent, and 1 is the value last written to the reset GPIO. -/
theorem visionox_g2647fb105_prepare_result (env : Env) (ctx : visionox_g2647fb105)
    (h : ctx.prepared = false) :
    (((visionox_g2647fb105_prepare env ctx).1 = 0 ∧
        (visionox_g2647fb105_prepare env ctx).2.prepared = true) ↔
      ∀ k op, visionox_g2647fb105_on_steps[k]? = some (Step.checked op) →
        0 ≤ env.result (ctx.trace.length + 4 + k)) ∧
    (visionox_g2647fb105_on_steps.all
      (fun s => Step.is_checked s == Op.is_dsi (Step.op s)) = true) ∧
    (∀ k op, visionox_g2647fb105_on_steps[k]? = some (Step.checked op) →
      env.result (ctx.trace.length + 4 + k) < 0 →
      (∀ j o, j < k → visionox_g2647fb105_on_steps[j]? = some (Step.checked o) →
        0 ≤ env.result (ctx.trace.length + 4 + j)) →
      (visionox_g2647fb105_prepare env ctx).1 = env.result (ctx.trace.length + 4 + k) ∧
      (visionox_g2647fb105_prepare env ctx).1 < 0 ∧
      (visionox_g2647fb105_prepare env ctx).2.prepared = false ∧
      (visionox_g2647fb105_prepare env ctx).2.trace =
        ctx.trace ++
          [Op.gpiod_set_value_cansleep 1, Op.usleep_range 1000 2000,
            Op.gpiod_set_value_cansleep 0, Op.usleep_range 10000 11000] ++
          (visionox_g2647fb105_on_steps.take (k + 1)).map Step.op ++
          [Op.gpiod_set_value_cansleep 1] ∧
      last_gpio (visionox_g2647fb105_prepare env ctx).2.trace = some 1) := by
  obtain ⟨htr, hlen, hprep⟩ := visionox_reset_trace ctx
  have hz := run_steps_zero_iff env visionox_g2647fb105_on_steps
    (visionox_g2647fb105_reset ctx).trace
  rw [hlen] at hz
  refine ⟨?_, by decide, ?_⟩
  · rw [← hz.2]
    by_cases hr : (run_steps env (visionox_g2647fb105_reset ctx).trace
        visionox_g2647fb105_on_steps).1 < 0
    · simp [visionox_g2647fb105_prepare, visionox_g2647fb105_on, h, hr]
      omega
    · have h0 : (run_steps env (visionox_g2647fb105_reset ctx).trace
          visionox_g2647fb105_on_steps).1 = 0 := by omega
      simp [visionox_g2647fb105_prepare, visionox_g2647fb105_on, h, hr, h0]
  · intro k op hk hneg hpre
    have hf := run_steps_fail env visionox_g2647fb105_on_steps
      (visionox_g2647fb105_reset ctx).trace k op hk (by rw [hlen]; exact hneg)
      (by intro j o hj hjo; rw [hlen]; exact hpre j o hj hjo)
    rw [hlen] at hf
    have hp : visionox_g2647fb105_prepare env ctx =
        (env.result (ctx.trace.length + 4 + k),
          { prepared := false,
            trace := (visionox_g2647fb105_reset ctx).trace ++
              (visionox_g2647fb105_on_steps.take (k + 1)).map Step.op ++
              [Op.gpiod_set_value_cansleep 1] }) := by
      simp [visionox_g2647fb105_prepare, visionox_g2647fb105_on, h, hf, hneg, hprep]
    rw [hp]
    refine ⟨rfl, hneg, rfl, ?_, ?_⟩
    · simp only [htr]
    · exact last_gpio_append_write _ _

/-- Witness for C14: with every call succeeding the panel after probe is
prepared with result 0; with the first command failing the result is -5, the
panel is not prepared and the history is the reset pulse, that command and the
write of 1 to the reset GPIO. -/
theorem visionox_g2647fb105_prepare_result_witness :
    demo_visionox.prepared = false ∧
    ((visionox_g2647fb105_prepare env_ok demo_visionox).1 = 0 ∧
      (visionox_g2647fb105_prepare env_ok demo_visionox).2.prepared = true) ∧
    ((visionox_g2647fb105_prepare (env_fail_at 4) demo_visionox).1 = -5 ∧
      (visionox_g2647fb105_prepare (env_fail_at 4) demo_visionox).2.prepared = false ∧
      (visionox_g2647fb105_prepare (env_fail_at 4) demo_visionox).2.trace =
        [Op.gpiod_set_value_cansleep 1, Op.usleep_range 1000 2000,
          Op.gpiod_set_value_cansleep 0, Op.usleep_range 10000 11000,
          Op.mipi_dsi_dcs_write_buffer [0xfe, 0x40], Op.gpiod_set_value_cansleep 1]) :=
  ⟨rfl,
    (visionox_g2647fb105_prepare_result env_ok demo_visionox rfl).1.2
      (fun _ _ _ => by simp [env_ok]),
    by
      have h := (visionox_g2647fb105_prepare_result (env_fail_at 4) demo_visionox rfl).2.2 0
        (Op.mipi_dsi_dcs_write_buffer [0xfe, 0x40]) (by decide) (by decide)
        (fun j o hj _ => absurd hj (Nat.not_lt_zero j))
      exact ⟨h.1.trans (by decide), h.2.2.1, h.2.2.2.1.trans (by decide)⟩⟩

/-! ### Power-down -/

/-- C15: `unprepare` of a prepared panel returns 0 in all three drivers for every
outcome of the power-off DSI sequence, and on return 1 is the value last written
to the reset GPIO; in the visionox and nt36672c drivers `prepared` is false
afterwards, and in the ams581vf01 driver the history ends with the write of 1 to
the reset GPIO followed by `regulator_bulk_disable` of the four supplies. -/
theorem unprepare_never_fails (env : Env) (v : visionox_g2647fb105) (n : nt36672c_tianma)
    (a : ams581vf01) (hv : v.prepared = true) (hn : n.prepared = true) :
    ((visionox_g2647fb105_unprepare env v).1 = 0 ∧
      last_gpio (visionox_g2647fb105_unprepare env v).2.trace = some 1 ∧
      (visionox_g2647fb105_unprepare env v).2.prepared = false) ∧
    ((nt36672c_tianma_unprepare env n).1 = 0 ∧
      last_gpio (nt36672c_tianma_unprepare env n).2.trace = some 1 ∧
      (nt36672c_tianma_unprepare env n).2.prepared = false) ∧
    ((ams581vf01_unprepare env a).1 = 0 ∧
      last_gpio (ams581vf01_unprepare env a).2.trace = some 1 ∧
      ams581vf01_num_supplies = 4 ∧
      [Op.gpiod_set_value_cansleep 1, Op.regulator_bulk_disable 4] <:+
        (ams581vf01_unprepare env a).2.trace) := by
  refine ⟨⟨?_, ?_, ?_⟩, ⟨?_, ?_, ?_⟩, ⟨?_, ?_, rfl, ?_⟩⟩
  · simp [visionox_g2647fb105_unprepare, hv]
  · simp only [visionox_g2647fb105_unprepare, hv]
    exact last_gpio_append_write _ _
  · simp [visionox_g2647fb105_unprepare, hv]
  · simp [nt36672c_tianma_unprepare, hn]
  · simp only [nt36672c_tianma_unprepare, hn]
    exact last_gpio_append_write _ _
  · simp [nt36672c_tianma_unprepare, hn]
  · simp [ams581vf01_unprepare]
  · simp only [ams581vf01_unprepare]
    have : ∀ tr : List Op,
        tr ++ [Op.gpiod_set_value_cansleep 1, Op.regulator_bulk_disable ams581vf01_num_supplies]
          = (tr ++ [Op.gpiod_set_value_cansleep 1]) ++
            [Op.regulator_bulk_disable ams581vf01_num_supplies] := by
      intro tr; simp
    rw [this, last_gpio_append_other _ _ (by simp [Op.gpio_value])]
    exact last_gpio_append_write _ _
  · simp only [ams581vf01_unprepare]
    exact ⟨_, rfl⟩

/-- Witness for C15: the three panels with an empty history, the first command
of each power-off sequence failing. -/
theorem unprepare_never_fails_witness :
    (visionox_g2647fb105_off (env_fail_at 0) ⟨true, []⟩).1 = -5 ∧
    (visionox_g2647fb105_unprepare (env_fail_at 0) ⟨true, []⟩).1 = 0 ∧
    last_gpio (visionox_g2647fb105_unprepare (env_fail_at 0) ⟨true, []⟩).2.trace = some 1 ∧
    (nt36672c_tianma_unprepare (env_fail_at 0) ⟨true, []⟩).1 = 0 ∧
    (nt36672c_tianma_unprepare (env_fail_at 0) ⟨true, []⟩).2.prepared = false ∧
    (ams581vf01_unprepare (env_fail_at 0) demo_ams581vf01).1 = 0 ∧
    last_gpio (ams581vf01_unprepare (env_fail_at 0) demo_ams581vf01).2.trace = some 1 :=
  ⟨by decide,
    (unprepare_never_fails (env_fail_at 0) ⟨true, []⟩ ⟨true, []⟩ demo_ams581vf01 rfl rfl).1.1,
    (unprepare_never_fails (env_fail_at 0) ⟨true, []⟩ ⟨true, []⟩ demo_ams581vf01 rfl rfl).1.2.1,
    (unprepare_never_fails (env_fail_at 0) ⟨true, []⟩ ⟨true, []⟩ demo_ams581vf01 rfl rfl).2.1.1,
    (unprepare_never_fails (env_fail_at 0) ⟨true, []⟩ ⟨true, []⟩ demo_ams581vf01
      rfl rfl).2.1.2.2,
    (unprepare_never_fails (env_fail_at 0) ⟨true, []⟩ ⟨true, []⟩ demo_ams581vf01 rfl rfl).2.2.1,
    (unprepare_never_fails (env_fail_at 0) ⟨true, []⟩ ⟨true, []⟩ demo_ams581vf01
      rfl rfl).2.2.2.1⟩

/-! ### The order of the calls -/

/-- A body that returns 0 has made all its calls. -/
theorem run_steps_zero_trace (env : Env) (steps : List Step) (tr : List Op)
    (h : ¬ (run_steps env tr steps).1 < 0) :
    run_steps env tr steps = (0, tr ++ steps.map Step.op) := by
  have hz := run_steps_zero_iff env steps tr
  exact run_steps_ok env steps tr (hz.2.1 (by omega))

/-- The history of a successful `visionox_g2647fb105_prepare`. -/
theorem visionox_prepare_ok_trace (env : Env) (v : visionox_g2647fb105)
    (h : v.prepared = false) (h0 : (visionox_g2647fb105_prepare env v).1 = 0) :
    (visionox_g2647fb105_prepare env v).2.trace =
      v.trace ++ (visionox_g2647fb105_reset ⟨false, []⟩).trace ++
        visionox_g2647fb105_on_steps.map Step.op := by
  simp only [visionox_g2647fb105_prepare, visionox_g2647fb105_on, h, Bool.false_eq_true,
    if_false] at h0 ⊢
  split_ifs at h0 ⊢ with h1
  · exfalso
    simp only at h0
    omega
  · rw [run_steps_zero_trace env _ _ h1]
    simp [visionox_g2647fb105_reset]

/-- The history of a successful `nt36672c_tianma_prepare`. -/
theorem nt36672c_prepare_ok_trace (env : Env) (n : nt36672c_tianma)
    (h : n.prepared = false) (h0 : (nt36672c_tianma_prepare env n).1 = 0) :
    (nt36672c_tianma_prepare env n).2.trace =
      n.trace ++ (nt36672c_tianma_reset ⟨false, []⟩).trace ++
        nt36672c_tianma_on_steps.map Step.op ++
        nt36672c_tianma_prepare_dsc_steps.map Step.op := by
  simp only [nt36672c_tianma_prepare, nt36672c_tianma_on, h, Bool.false_eq_true,
    if_false] at h0 ⊢
  split_ifs at h0 ⊢ with h1 h2
  · exfalso
    simp only at h0
    omega
  · exfalso
    simp only at h0
    omega
  · simp only
    rw [run_steps_zero_trace env _ _ h2, run_steps_zero_trace env _ _ h1]
    simp [nt36672c_tianma_reset]

/-- The history of a successful `ams581vf01_prepare`. -/
theorem ams581vf01_prepare_ok_trace (env : Env) (a : ams581vf01)
    (h0 : (ams581vf01_prepare env a).1 = 0) :
    (ams581vf01_prepare env a).2.trace =
      a.trace ++ [Op.regulator_bulk_enable 4] ++ (ams581vf01_reset ⟨[]⟩).trace ++
        ams581vf01_on_steps.map Step.op := by
  simp only [ams581vf01_prepare, ams581vf01_on] at h0 ⊢
  split_ifs at h0 ⊢ with h1 h2
  · exfalso
    simp only at h0
    omega
  · exfalso
    simp only at h0
    omega
  · simp only
    rw [run_steps_zero_trace env _ _ h2]
    simp [ams581vf01_reset, ams581vf01_num_supplies]

/-- The history of `unprepare` of a prepared visionox, nt36672c or ams581vf01
panel: a part of the power-off sequence, all of it when the sequence succeeds,
followed by the write of 1 to the reset GPIO (and, in ams581vf01, the disabling
of the supplies). -/
theorem unprepare_trace_shape (env : Env) (v : visionox_g2647fb105) (n : nt36672c_tianma)
    (a : ams581vf01) (hv : v.prepared = true) (hn : n.prepared = true) :
    ((∃ k, k ≤ visionox_g2647fb105_off_steps.length ∧
        (visionox_g2647fb105_unprepare env v).2.trace =
          v.trace ++ (visionox_g2647fb105_off_steps.take k).map Step.op ++
            [Op.gpiod_set_value_cansleep 1]) ∧
      (¬ (visionox_g2647fb105_off env v).1 < 0 →
        (visionox_g2647fb105_unprepare env v).2.trace =
          v.trace ++ visionox_g2647fb105_off_steps.map Step.op ++
            [Op.gpiod_set_value_cansleep 1])) ∧
    ((∃ k, k ≤ nt36672c_tianma_off_steps.length ∧
        (nt36672c_tianma_unprepare env n).2.trace =
          n.trace ++ (nt36672c_tianma_off_steps.take k).map Step.op ++
            [Op.gpiod_set_value_cansleep 1]) ∧
      (¬ (nt36672c_tianma_off env n).1 < 0 →
        (nt36672c_tianma_unprepare env n).2.trace =
          n.trace ++ nt36672c_tianma_off_steps.map Step.op ++
            [Op.gpiod_set_value_cansleep 1])) ∧
    ((∃ k, k ≤ ams581vf01_off_steps.length ∧
        (ams581vf01_unprepare env a).2.trace =
          a.trace ++ (ams581vf01_off_steps.take k).map Step.op ++
            [Op.gpiod_set_value_cansleep 1, Op.regulator_bulk_disable 4]) ∧
      (¬ (ams581vf01_off env a).1 < 0 →
        (ams581vf01_unprepare env a).2.trace =
          a.trace ++ ams581vf01_off_steps.map Step.op ++
            [Op.gpiod_set_value_cansleep 1, Op.regulator_bulk_disable 4])) := by
  refine ⟨⟨?_, ?_⟩, ⟨?_, ?_⟩, ⟨?_, ?_⟩⟩
  · obtain ⟨k, hk, he⟩ := run_steps_appends env visionox_g2647fb105_off_steps v.trace
    exact ⟨k, hk, by simp [visionox_g2647fb105_unprepare, visionox_g2647fb105_off, hv, he]⟩
  · intro h
    simp only [visionox_g2647fb105_off] at h
    simp [visionox_g2647fb105_unprepare, visionox_g2647fb105_off, hv,
      run_steps_zero_trace env _ _ h]
  · obtain ⟨k, hk, he⟩ := run_steps_appends env nt36672c_tianma_off_steps n.trace
    exact ⟨k, hk, by simp [nt36672c_tianma_unprepare, nt36672c_tianma_off, hn, he]⟩
  · intro h
    simp only [nt36672c_tianma_off] at h
    simp [nt36672c_tianma_unprepare, nt36672c_tianma_off, hn,
      run_steps_zero_trace env _ _ h]
  · obtain ⟨k, hk, he⟩ := run_steps_appends env ams581vf01_off_steps a.trace
    exact ⟨k, hk, by simp [ams581vf01_unprepare, ams581vf01_off, he, ams581vf01_num_supplies]⟩
  · intro h
    simp only [ams581vf01_off] at h
    simp [ams581vf01_unprepare, ams581vf01_off, run_steps_zero_trace env _ _ h,
      ams581vf01_num_supplies]

/-- Two environments that agree on which calls fail give `prepare` and
`unprepare` of each panel the same history. -/
theorem panel_trace_sign_congr (env1 env2 : Env)
    (hs : ∀ t, env1.result t < 0 ↔ env2.result t < 0) (v : visionox_g2647fb105)
    (n : nt36672c_tianma) (a : ams581vf01) :
    (visionox_g2647fb105_prepare env1 v).2.trace =
      (visionox_g2647fb105_prepare env2 v).2.trace ∧
    (visionox_g2647fb105_unprepare env1 v).2.trace =
      (visionox_g2647fb105_unprepare env2 v).2.trace ∧
    (nt36672c_tianma_prepare env1 n).2.trace = (nt36672c_tianma_prepare env2 n).2.trace ∧
    (nt36672c_tianma_unprepare env1 n).2.trace = (nt36672c_tianma_unprepare env2 n).2.trace ∧
    (ams581vf01_prepare env1 a).2.trace = (ams581vf01_prepare env2 a).2.trace ∧
    (ams581vf01_unprepare env1 a).2.trace = (ams581vf01_unprepare env2 a).2.trace := by
  have hc := run_steps_sign_congr env1 env2 hs
  refine ⟨?_, ?_, ?_, ?_, ?_, ?_⟩
  · simp only [visionox_g2647fb105_prepare, visionox_g2647fb105_on]
    obtain ⟨h2, h1⟩ := hc visionox_g2647fb105_on_steps (visionox_g2647fb105_reset v).trace
    by_cases hp : v.prepared = true
    · simp [hp]
    · by_cases hr : (run_steps env1 (visionox_g2647fb105_reset v).trace
          visionox_g2647fb105_on_steps).1 < 0
      · simp [hp, hr, h1.1 hr, h2]
      · simp [hp, hr, mt h1.2 hr, h2]
  · simp only [visionox_g2647fb105_unprepare, visionox_g2647fb105_off]
    obtain ⟨h2, _⟩ := hc visionox_g2647fb105_off_steps v.trace
    by_cases hp : v.prepared = true <;> simp [hp, h2]
  · simp only [nt36672c_tianma_prepare, nt36672c_tianma_on]
    obtain ⟨h2, h1⟩ := hc nt36672c_tianma_on_steps (nt36672c_tianma_reset n).trace
    by_cases hp : n.prepared = true
    · simp [hp]
    · by_cases hr : (run_steps env1 (nt36672c_tianma_reset n).trace
          nt36672c_tianma_on_steps).1 < 0
      · simp [hp, hr, h1.1 hr, h2]
      · obtain ⟨d2, d1⟩ := hc nt36672c_tianma_prepare_dsc_steps
          (run_steps env2 (nt36672c_tianma_reset n).trace nt36672c_tianma_on_steps).2
        by_cases hd : (run_steps env1
            (run_steps env2 (nt36672c_tianma_reset n).trace nt36672c_tianma_on_steps).2
            nt36672c_tianma_prepare_dsc_steps).1 < 0
        · simp [hp, hr, mt h1.2 hr, h2, hd, d1.1 hd, d2]
        · simp [hp, hr, mt h1.2 hr, h2, hd, mt d1.2 hd, d2]
  · simp only [nt36672c_tianma_unprepare, nt36672c_tianma_off]
    obtain ⟨h2, _⟩ := hc nt36672c_tianma_off_steps n.trace
    by_cases hp : n.prepared = true <;> simp [hp, h2]
  · simp only [ams581vf01_prepare, ams581vf01_on]
    by_cases he : env1.result a.trace.length < 0
    · simp [he, (hs _).1 he]
    · obtain ⟨h2, h1⟩ := hc ams581vf01_on_steps (ams581vf01_reset
        ⟨a.trace ++ [Op.regulator_bulk_enable ams581vf01_num_supplies]⟩).trace
      by_cases hr : (run_steps env1 (ams581vf01_reset
          ⟨a.trace ++ [Op.regulator_bulk_enable ams581vf01_num_supplies]⟩).trace
          ams581vf01_on_steps).1 < 0
      · simp [he, mt (hs _).2 he, hr, h1.1 hr, h2]
      · simp [he, mt (hs _).2 he, hr, mt h1.2 hr, h2]
  · simp only [ams581vf01_unprepare, ams581vf01_off]
    obtain ⟨h2, _⟩ := hc ams581vf01_off_steps a.trace
    simp [h2]

set_option maxRecDepth 100000 in
/-- The order of the calls in the fixed bring-up histories of the three panels:
the pulse is the history of the reset function, the body the calls that follow
it. -/
theorem bring_up_histories_ordered :
    bring_up_ordered (visionox_g2647fb105_reset ⟨false, []⟩).trace
        (visionox_g2647fb105_on_steps.map Step.op) = true ∧
      bring_up_ordered (nt36672c_tianma_reset ⟨false, []⟩).trace
        (nt36672c_tianma_on_steps.map Step.op ++
          nt36672c_tianma_prepare_dsc_steps.map Step.op) = true ∧
      bring_up_ordered (ams581vf01_reset ⟨[]⟩).trace
        (ams581vf01_on_steps.map Step.op) = true := by
  refine ⟨by decide, by decide, by decide⟩

/-- C17: in each of the three mode descriptors the horizontal and the vertical
timings are ordered, the totals are 1205 x 2464, 1283 x 2357 and 1148 x 2356,
the clock field is `htotal * vtotal * refresh / 1000` with truncating division
and equals 356294, 181441 and 162281, and the products `htotal * vtotal` and
`htotal * vtotal * refresh` are below 2^31. -/
theorem mode_descriptors_well_formed :
    (nt36672c_tianma_mode.hdisplay ≤ nt36672c_tianma_mode.hsync_start ∧
      nt36672c_tianma_mode.hsync_start ≤ nt36672c_tianma_mode.hsync_end ∧
      nt36672c_tianma_mode.hsync_end ≤ nt36672c_tianma_mode.htotal ∧
      nt36672c_tianma_mode.vdisplay ≤ nt36672c_tianma_mode.vsync_start ∧
      nt36672c_tianma_mode.vsync_start ≤ nt36672c_tianma_mode.vsync_end ∧
      nt36672c_tianma_mode.vsync_end ≤ nt36672c_tianma_mode.vtotal ∧
      nt36672c_tianma_mode.htotal = 1205 ∧ nt36672c_tianma_mode.vtotal = 2464 ∧
      nt36672c_tianma_mode.clock =
        nt36672c_tianma_mode.htotal * nt36672c_tianma_mode.vtotal * 120 / 1000 ∧
      nt36672c_tianma_mode.clock = 356294 ∧
      nt36672c_tianma_mode.htotal * nt36672c_tianma_mode.vtotal < 2 ^ 31 ∧
      nt36672c_tianma_mode.htotal * nt36672c_tianma_mode.vtotal * 120 < 2 ^ 31) ∧
    (ams581vf01_mode.hdisplay ≤ ams581vf01_mode.hsync_start ∧
      ams581vf01_mode.hsync_start ≤ ams581vf01_mode.hsync_end ∧
      ams581vf01_mode.hsync_end ≤ ams581vf01_mode.htotal ∧
      ams581vf01_mode.vdisplay ≤ ams581vf01_mode.vsync_start ∧
      ams581vf01_mode.vsync_start ≤ ams581vf01_mode.vsync_end ∧
      ams581vf01_mode.vsync_end ≤ ams581vf01_mode.vtotal ∧
      ams581vf01_mode.htotal = 1283 ∧ ams581vf01_mode.vtotal = 2357 ∧
      ams581vf01_mode.clock = ams581vf01_mode.htotal * ams581vf01_mode.vtotal * 60 / 1000 ∧
      ams581vf01_mode.clock = 181441 ∧
      ams581vf01_mode.htotal * ams581vf01_mode.vtotal < 2 ^ 31 ∧
      ams581vf01_mode.htotal * ams581vf01_mode.vtotal * 60 < 2 ^ 31) ∧
    (visionox_g2647fb105_mode.hdisplay ≤ visionox_g2647fb105_mode.hsync_start ∧
      visionox_g2647fb105_mode.hsync_start ≤ visionox_g2647fb105_mode.hsync_end ∧
      visionox_g2647fb105_mode.hsync_end ≤ visionox_g2647fb105_mode.htotal ∧
      visionox_g2647fb105_mode.vdisplay ≤ visionox_g2647fb105_mode.vsync_start ∧
      visionox_g2647fb105_mode.vsync_start ≤ visionox_g2647fb105_mode.vsync_end ∧
      visionox_g2647fb105_mode.vsync_end ≤ visionox_g2647fb105_mode.vtotal ∧
      visionox_g2647fb105_mode.htotal = 1148 ∧ visionox_g2647fb105_mode.vtotal = 2356 ∧
      visionox_g2647fb105_mode.clock =
        visionox_g2647fb105_mode.htotal * visionox_g2647fb105_mode.vtotal * 60 / 1000 ∧
      visionox_g2647fb105_mode.clock = 162281 ∧
      visionox_g2647fb105_mode.htotal * visionox_g2647fb105_mode.vtotal < 2 ^ 31 ∧
      visionox_g2647fb105_mode.htotal * visionox_g2647fb105_mode.vtotal * 60 < 2 ^ 31) := by
  simp only [nt36672c_tianma_mode, ams581vf01_mode, visionox_g2647fb105_mode]
  norm_num

set_option maxRecDepth 100000 in
/-- The power-on sequence of nt36672c has 206 statements, so that with the six
calls of the reset pulse the picture parameter set is call number 212 and the
compression mode call number 213 of a `prepare` that starts on an empty
history. -/
theorem nt36672c_on_steps_length : nt36672c_tianma_on_steps.length = 206 := by
  decide

set_option maxRecDepth 100000 in
/-- C27 (the code at the failing inputs): `nt36672c_tianma_prepare` on the panel
after probe, with the picture parameter set (call 212) or the compression mode
(call 213) failing with -5 and every other call succeeding.  It returns -5 with
`prepared` false, the failing call is the last call made, and the value last
written to the reset GPIO is the 0 that ended the reset pulse: the GPIO is not
asserted again.  When the first command of the power-on sequence fails (call
6), the last call is the write of 1 to the reset GPIO. -/
theorem nt36672c_tianma_prepare_dsc_failure_leaves_reset_low :
    ((nt36672c_tianma_prepare (env_fail_at 212) demo_nt36672c).1 = -5 ∧
      (nt36672c_tianma_prepare (env_fail_at 212) demo_nt36672c).2.prepared = false ∧
      (nt36672c_tianma_prepare (env_fail_at 212) demo_nt36672c).2.trace.getLast? =
        some Op.mipi_dsi_picture_parameter_set ∧
      last_gpio (nt36672c_tianma_prepare (env_fail_at 212) demo_nt36672c).2.trace = some 0) ∧
    ((nt36672c_tianma_prepare (env_fail_at 213) demo_nt36672c).1 = -5 ∧
      (nt36672c_tianma_prepare (env_fail_at 213) demo_nt36672c).2.prepared = false ∧
      (nt36672c_tianma_prepare (env_fail_at 213) demo_nt36672c).2.trace.getLast? =
        some (Op.mipi_dsi_compression_mode true) ∧
      last_gpio (nt36672c_tianma_prepare (env_fail_at 213) demo_nt36672c).2.trace = some 0) ∧
    ((nt36672c_tianma_prepare (env_fail_at 6) demo_nt36672c).1 = -5 ∧
      (nt36672c_tianma_prepare (env_fail_at 6) demo_nt36672c).2.prepared = false ∧
      (nt36672c_tianma_prepare (env_fail_at 6) demo_nt36672c).2.trace.getLast? =
        some (Op.gpiod_set_value_cansleep 1) ∧
      last_gpio (nt36672c_tianma_prepare (env_fail_at 6) demo_nt36672c).2.trace = some 1) := by
  decide

/-- C28: the DSC configuration that `nt36672c_tianma_probe` stores: the `WARN_ON`
argument `1080 % slice_width` is 0, `slice_count * slice_width` is the
`hdisplay` of the panel mode (2 * 540 = 1080), `slice_height` (20) divides its
`vdisplay` (2400), and `bits_per_pixel` is 128 = 8 << 4, i.e. 8 with four
fractional bits. -/
theorem nt36672c_tianma_dsc_config_consistent :
    nt36672c_tianma_probe_warn_on nt36672c_tianma_probe_dsc = 0 ∧
    nt36672c_tianma_probe_dsc.slice_count = 2 ∧
    nt36672c_tianma_probe_dsc.slice_width = 540 ∧
    nt36672c_tianma_probe_dsc.slice_count * nt36672c_tianma_probe_dsc.slice_width =
      nt36672c_tianma_mode.hdisplay ∧
    nt36672c_tianma_mode.hdisplay = 1080 ∧
    nt36672c_tianma_probe_dsc.slice_height = 20 ∧
    nt36672c_tianma_mode.vdisplay = 2400 ∧
    nt36672c_tianma_mode.vdisplay % nt36672c_tianma_probe_dsc.slice_height = 0 ∧
    nt36672c_tianma_probe_dsc.bits_per_pixel = 128 ∧
    nt36672c_tianma_probe_dsc.bits_per_pixel = 8 * 2 ^ 4 ∧
    nt36672c_tianma_probe_dsc.bits_per_pixel / 2 ^ 4 = 8 ∧
    nt36672c_tianma_probe_dsc.bits_per_pixel % 2 ^ 4 = 0 := by
  decide

/-- C29 (the code at the failing input): the backlight update of both drivers on
the DSI device as probe leaves it (`mode_flags` 0xC02, `MIPI_DSI_MODE_LPM` set),
brightness 300, with the brightness transfer failing with -5.  The function
returns -5 and leaves `mode_flags` at 0x402: the `MIPI_DSI_MODE_LPM` bit, set on
entry, is cleared on return.  The brightness sent is the current one. -/
theorem bl_update_status_failure_leaves_lpm_cleared :
    demo_dsi.mode_flags = 0xC02 ∧ demo_dsi.mode_flags &&& MIPI_DSI_MODE_LPM ≠ 0 ∧
    visionox_g2647fb105_bl_update_status (env_fail_at 0) demo_dsi 300 =
      (-5, { mode_flags := 0x402,
             trace := [Op.mipi_dsi_dcs_set_display_brightness_large 300] }) ∧
    ams581vf01_bl_update_status (env_fail_at 0) demo_dsi 300 =
      (-5, { mode_flags := 0x402,
             trace := [Op.mipi_dsi_dcs_set_display_brightness_large 300] }) ∧
    0x402 &&& MIPI_DSI_MODE_LPM = 0 ∧
    demo_dsi.mode_flags ||| MIPI_DSI_MODE_LPM ≠ 0x402 ∧
    visionox_g2647fb105_bl_update_status env_ok demo_dsi 300 =
      (0, { mode_flags := 0xC02,
            trace := [Op.mipi_dsi_dcs_set_display_brightness_large 300] }) := by
  decide

/-- No statement of the power-on and power-off sequences of ams581vf01 is a
regulator call. -/
theorem ams581vf01_steps_no_regulator :
    (∀ op ∈ ams581vf01_on_steps.map Step.op, Op.is_regulator op = false) ∧
    (∀ op ∈ ams581vf01_off_steps.map Step.op, Op.is_regulator op = false) := by
  decide

/-- The calls that a power-on or power-off body of ams581vf01 adds to a history
leave the ledger of the supplies alone. -/
theorem ams581vf01_body_count (env : Env) (tr : List Op) :
    regulator_enable_count env 0 (run_steps env tr ams581vf01_on_steps).2 =
      regulator_enable_count env 0 tr ∧
    regulator_enable_count env 0 (run_steps env tr ams581vf01_off_steps).2 =
      regulator_enable_count env 0 tr := by
  constructor
  · obtain ⟨k, _, he⟩ := run_steps_appends env ams581vf01_on_steps tr
    rw [he, regulator_enable_count_append, regulator_enable_count_others env _ _
      (fun op hop => ams581vf01_steps_no_regulator.1 op (mem_take_map_op hop))]
    simp
  · obtain ⟨k, _, he⟩ := run_steps_appends env ams581vf01_off_steps tr
    rw [he, regulator_enable_count_append, regulator_enable_count_others env _ _
      (fun op hop => ams581vf01_steps_no_regulator.2 op (mem_take_map_op hop))]
    simp

/-- C30: over the history of calls of the ams581vf01 driver, a call of
`ams581vf01_prepare` that returns a negative result leaves the net enable count
of the supplies as it was, a call that returns 0 raises it by one, and
`ams581vf01_unprepare` lowers it by one, so that a successful prepare followed
by unprepare restores the count; `ams581vf01_prepare` returns 0 or a negative
result. -/
theorem ams581vf01_regulators_balanced (env : Env) (a : ams581vf01) :
    ((ams581vf01_prepare env a).1 < 0 →
      regulator_enable_count env 0 (ams581vf01_prepare env a).2.trace =
        regulator_enable_count env 0 a.trace) ∧
    ((ams581vf01_prepare env a).1 = 0 →
      regulator_enable_count env 0 (ams581vf01_prepare env a).2.trace =
        regulator_enable_count env 0 a.trace + 1) ∧
    (ams581vf01_prepare env a).1 ≤ 0 ∧
    regulator_enable_count env 0 (ams581vf01_unprepare env a).2.trace =
      regulator_enable_count env 0 a.trace - 1 ∧
    ((ams581vf01_prepare env a).1 = 0 →
      regulator_enable_count env 0
          (ams581vf01_unprepare env (ams581vf01_prepare env a).2).2.trace =
        regulator_enable_count env 0 a.trace) := by
  have hun : ∀ b : ams581vf01,
      regulator_enable_count env 0 (ams581vf01_unprepare env b).2.trace =
        regulator_enable_count env 0 b.trace - 1 := by
    intro b
    simp only [ams581vf01_unprepare, ams581vf01_off]
    rw [regulator_enable_count_append, (ams581vf01_body_count env b.trace).2]
    simp [regulator_enable_count]
    ring
  have hen : regulator_enable_count env 0
      (a.trace ++ [Op.regulator_bulk_enable ams581vf01_num_supplies]) =
        regulator_enable_count env 0 a.trace +
          (if env.result a.trace.length < 0 then 0 else 1) := by
    rw [regulator_enable_count_append]
    simp [regulator_enable_count]
  have hpre : ∀ tr : List Op, regulator_enable_count env 0
      (tr ++ [Op.gpiod_set_value_cansleep 1, Op.usleep_range 10000 11000,
        Op.gpiod_set_value_cansleep 0, Op.usleep_range 10000 11000]) =
      regulator_enable_count env 0 tr := by
    intro tr
    rw [regulator_enable_count_append]
    simp [regulator_enable_count]
  have hcases : ((ams581vf01_prepare env a).1 < 0 ∧
      regulator_enable_count env 0 (ams581vf01_prepare env a).2.trace =
        regulator_enable_count env 0 a.trace) ∨
      ((ams581vf01_prepare env a).1 = 0 ∧
      regulator_enable_count env 0 (ams581vf01_prepare env a).2.trace =
        regulator_enable_count env 0 a.trace + 1) := by
    simp only [ams581vf01_prepare, ams581vf01_on, ams581vf01_reset]
    split_ifs with h1 h2
    · left
      refine ⟨h1, ?_⟩
      simp only
      rw [hen]
      simp [h1]
    · left
      refine ⟨h2, ?_⟩
      simp only
      rw [regulator_enable_count_append, (ams581vf01_body_count env _).1, hpre, hen]
      simp [regulator_enable_count, h1]
    · right
      refine ⟨rfl, ?_⟩
      simp only
      rw [(ams581vf01_body_count env _).1, hpre, hen]
      simp [h1]
  refine ⟨?_, ?_, ?_, hun a, ?_⟩
  · intro h
    rcases hcases with h1 | h1
    · exact h1.2
    · omega
  · intro h
    rcases hcases with h1 | h1
    · omega
    · exact h1.2
  · rcases hcases with h1 | h1 <;> omega
  · intro h
    rw [hun]
    rcases hcases with h1 | h1
    · omega
    · rw [h1.2]
      ring

end Panel

namespace LpassLpi

open lpass_lpi_functions

/-! ## Theorems -/

/-- C18: the pin-function table is consistent in both directions.  Every
non-empty alternate-function slot of every pin in `sm7150_groups` holds a
function whose group list contains the pin's name; every name in the group list
of a function other than gpio is the name of a pin that holds the function in
one of its four alternate-function slots; and `gpio_groups` is gpio0 ... gpio13,
each exactly once. -/
theorem sm7150_pin_function_table_consistent :
    (∀ g ∈ sm7150_groups, ∀ f ∈ g.alt_funcs, f ≠ LPI_MUX__ →
      pin_name g.pin ∈ groups_of f) ∧
    (∀ e ∈ sm7150_functions, e.mux ≠ LPI_MUX_gpio → ∀ name ∈ e.groups,
      ∃ g ∈ sm7150_groups, pin_name g.pin = name ∧ e.mux ∈ g.alt_funcs) ∧
    (∀ g ∈ sm7150_groups, g.alt_funcs.length = 4 ∧ g.funcs.head? = some LPI_MUX_gpio) ∧
    groups_of LPI_MUX_gpio = gpio_groups ∧
    gpio_groups = (List.range 14).map pin_name ∧
    gpio_groups.Nodup := by
  refine ⟨by decide, by decide, by decide, by decide, by decide, by decide⟩

/-- C19: `sm7150_lpi_pins` has 14 entries and entry `i` is pin `i` named
"gpio<i>"; `sm7150_groups` has 14 entries and entry `i` describes pin `i`;
`sm7150_functions` has 22 entries, the entry at position `i` is the function
whose enumerator has value `i`, so the entry at index `LPI_MUX_f` is function
`f` for every `f` but the sentinel `LPI_MUX__`, and no function occurs twice. -/
theorem sm7150_tables_indexed_consistently :
    sm7150_lpi_pins.length = 14 ∧
    (∀ i, i < 14 → sm7150_lpi_pins[i]? = some ⟨i, pin_name i⟩) ∧
    sm7150_groups.length = 14 ∧
    (∀ i, i < 14 → (sm7150_groups[i]?).map lpi_pingroup.pin = some i) ∧
    sm7150_functions.length = 22 ∧
    (∀ i, i < 22 → ((sm7150_functions[i]?).map (fun e => e.mux.val)) = some i) ∧
    (∀ f : lpass_lpi_functions, f ≠ LPI_MUX__ →
      (sm7150_functions[f.val]?).map lpi_function.mux = some f) ∧
    (sm7150_functions.map lpi_function.mux).Nodup ∧
    (sm7150_functions.map lpi_function.name).Nodup ∧
    LPI_MUX__.val = 22 := by
  refine ⟨by decide, by decide, by decide, by decide, by decide, by decide, ?_, by decide,
    by decide, rfl⟩
  intro f hf
  cases f <;> first | rfl | exact absurd rfl hf

end LpassLpi

namespace Smb5

/-! ## Theorems -/

/-- C20: `smb5_get_property` returns 0 and stores "Qualcomm" in `val->strval`
for `POWER_SUPPLY_PROP_MANUFACTURER`; for every other property it returns
`-EINVAL` (-22) and leaves `*val` as it was; `smb5_props` is the one-element
list holding `POWER_SUPPLY_PROP_MANUFACTURER`. -/
theorem smb5_get_property_serves_manufacturer_only (psp : power_supply_property)
    (val : power_supply_propval) :
    smb5_get_property power_supply_property.POWER_SUPPLY_PROP_MANUFACTURER val =
      (0, power_supply_propval.strval "Qualcomm") ∧
    (psp ≠ power_supply_property.POWER_SUPPLY_PROP_MANUFACTURER →
      smb5_get_property psp val = (-22, val)) ∧
    ((smb5_get_property psp val).1 = 0 ↔
      psp = power_supply_property.POWER_SUPPLY_PROP_MANUFACTURER) ∧
    (psp ∈ smb5_props ↔ psp = power_supply_property.POWER_SUPPLY_PROP_MANUFACTURER) ∧
    smb5_props = [power_supply_property.POWER_SUPPLY_PROP_MANUFACTURER] := by
  refine ⟨rfl, ?_, ?_, by simp [smb5_props], rfl⟩
  · intro h
    cases psp with
    | POWER_SUPPLY_PROP_MANUFACTURER => exact absurd rfl h
    | other n => rfl
  · cases psp with
    | POWER_SUPPLY_PROP_MANUFACTURER => simp [smb5_get_property]
    | other n => simp [smb5_get_property, EINVAL]

end Smb5
